import Mathlib

/-!
# sdtest: SD card longevity tester

A shallow embedding of `sdtest.c` and the properties of its test engine:
buffer sizing (`device_setup`), the pass/block verification loop
(`device_test`), the bandwidth meter (`measurebw`), the persistent progress
record (`stats_log_setup`, `check_device_name`, `get_previous_counts`) and the
top-level driver (`main`, `parse_cmdline`).

Conventions.
* `unsigned int` is a `Nat` kept below `2^32`, `uint64_t`/`unsigned long` a `Nat`
  kept below `2^64`; every C operation that can leave the range is followed by
  an explicit `% 2^32` or `% 2^64`.  `int` is an `Int`.
* A C string is a `List Char` without the terminating NUL.
* The outside world (device contents, clock, file system, ioctl answers) is
  explicit: read-only answers live in `env`, mutable parts in `world`.
* `exit(-1)` is the `Except.error` branch; it carries the reason and the world
  at the moment of the exit.
-/

namespace SdTest

/-! ## Machine integers -/

/-- Conversion of a value to `int` (two's complement, 32 bit). -/
def to_int32 (n : Nat) : Int :=
  if n % 2^32 < 2^31 then ((n % 2^32 : Nat) : Int) else ((n % 2^32 : Nat) : Int) - 2^32

/-- Conversion of an `int` to `uint64_t` (the usual arithmetic conversion). -/
def int_to_u64 (i : Int) : Nat := (i % 2^64).toNat

/-- Subtraction of two `uint64_t` values. -/
def sub64 (a b : Nat) : Nat := (a % 2^64 + 2^64 - b % 2^64) % 2^64

/-! ## Constants and types of `sdtest.c` -/

def DEFAULT_BUFFER_MODULO : Nat := 1024 * 1024

def DEFAULT_BUFFER_SIZE : Nat := DEFAULT_BUFFER_MODULO * 128

/-- The struct `device_info_t`: what the block-device ioctls report. -/
structure device_info_t where
  size : Nat
  sectors : Nat
  sector_size : Nat
  sector_size_physical : Nat
  sector_size_logical : Nat
  min_io_size : Nat
  opt_io_size : Nat
  alignment_offset : Nat
deriving DecidableEq, Repr

/-- Enumerator `ZERO` of `test_type_e`. -/
def ZERO : Nat := 1

/-- Enumerator `RAND` of `test_type_e`. -/
def RAND : Nat := 2

/-- Enumerator `MAX` of `test_type_e`. -/
def MAX : Nat := 3

/-- The struct `timeval` as filled in by `gettimeofday`. -/
structure timeval where
  tv_sec : Nat
  tv_usec : Nat
deriving DecidableEq, Repr

/-- The struct `bwt_t`: one bandwidth measurement window. -/
structure bwt_t where
  start_tv : timeval
  start_bytes : Nat
  result_bytes : Nat
  result_usecs : Nat
deriving DecidableEq, Repr

/-- An open `FILE *` on the stats log: the bytes before the file position and
the bytes after it. -/
structure FILE where
  before : List Char
  after : List Char
deriving DecidableEq, Repr

/-- The struct `globals_t`. -/
structure globals_t where
  di : device_info_t
  test_type : Nat
  devicename : List Char
  statslogname : List Char
  dumpinfo : Int
  verbose : Int
  timestamp : Int
  zerostats : Int
  logstdout : Int
  block_size : Nat
  block_writes : Nat
  buffer_size : Nat
  bandwidth_avg : Nat
  pass_count : Nat
  written_total : Nat
  quitpasses : Int
  buffer_bw : bwt_t
  logfd : Option FILE
deriving DecidableEq, Repr

/-- The zeroed `globals_t` that `calloc` hands to `main`. -/
def globals_zero : globals_t :=
  { di := ⟨0, 0, 0, 0, 0, 0, 0, 0⟩, test_type := 0, devicename := [], statslogname := [],
    dumpinfo := 0, verbose := 0, timestamp := 0, zerostats := 0, logstdout := 0,
    block_size := 0, block_writes := 0, buffer_size := 0, bandwidth_avg := 0,
    pass_count := 0, written_total := 0, quitpasses := 0,
    buffer_bw := ⟨⟨0, 0⟩, 0, 0, 0⟩, logfd := none }

/-- Why the process called `exit(-1)` (or `main` returned `-1`); `segfault` is
the dereference of a NULL token in `get_previous_counts`. -/
inductive fatal where
  | not_root
  | usage
  | device_missing
  | bad_buffer_size
  | device_open
  | log_open
  | bad_device_name
  | log_unreadable
  | log_device_mismatch
  | segfault
deriving DecidableEq, Repr

/-! ## The C library, as far as `sdtest.c` uses it -/

/-- One decimal digit. -/
def digit_char (d : Nat) : Char := Char.ofNat (48 + d)

/-- Decimal digits of `n`, most significant first, in front of `acc`. -/
def fmt_u_aux : Nat → Nat → List Char → List Char
  | 0, _, acc => acc
  | f + 1, n, acc =>
    if n < 10 then digit_char n :: acc
    else fmt_u_aux f (n / 10) (digit_char (n % 10) :: acc)

/-- The conversions `%lu` and `%u` of `printf` (20 digits hold any `uint64_t`). -/
def fmt_u (n : Nat) : List Char := fmt_u_aux 20 n []

/-- The conversion `%02u` of `printf`. -/
def fmt_02u (n : Nat) : List Char :=
  if (fmt_u n).length < 2 then '0' :: fmt_u n else fmt_u n

/-- The conversion `%d` of `printf`. -/
def fmt_d (i : Int) : List Char :=
  if i < 0 then '-' :: fmt_u (-i).toNat else fmt_u i.toNat

/-- The predicate `isspace` in the C locale. -/
def is_space (c : Char) : Bool :=
  c == ' ' || c == '\t' || c == '\n' || c == '\r' || c.toNat == 11 || c.toNat == 12

/-- Value of a digit character in `strtoul`. -/
def digit_val (c : Char) : Option Nat :=
  if 48 ≤ c.toNat ∧ c.toNat ≤ 57 then some (c.toNat - 48)
  else if 97 ≤ c.toNat ∧ c.toNat ≤ 122 then some (c.toNat - 87)
  else if 65 ≤ c.toNat ∧ c.toNat ≤ 90 then some (c.toNat - 55)
  else none

/-- The digit loop of `strtoul`: the value of the longest run of digits of the
base (exact, not yet clamped). -/
def strtoul_digits (base : Nat) : List Char → Nat → Nat
  | [], acc => acc
  | c :: cs, acc =>
    match digit_val c with
    | some d => if d < base then strtoul_digits base cs (acc * base + d) else acc
    | none => acc

/-- Is `c` a digit of base 16. -/
def is_xdigit (c : Char) : Bool :=
  match digit_val c with
  | some d => decide (d < 16)
  | none => false

/-- The call `strtoul(s, &endptr, 0)` on a 64-bit `unsigned long`: white space,
an optional sign, base detection (`0x` hexadecimal, `0` octal, else decimal),
`ULONG_MAX` on overflow, negation modulo `2^64`. -/
def strtoul (s : List Char) : Nat :=
  let s1 := s.dropWhile is_space
  let neg : Bool := s1.head? == some '-'
  let s2 := if s1.head? == some '-' || s1.head? == some '+' then s1.drop 1 else s1
  let hex : Bool :=
    match s2 with
    | c0 :: c1 :: c2 :: _ => c0 == '0' && (c1 == 'x' || c1 == 'X') && is_xdigit c2
    | _ => false
  let v :=
    if hex then strtoul_digits 16 (s2.drop 2) 0
    else if s2.head? == some '0' then strtoul_digits 8 s2 0
    else strtoul_digits 10 s2 0
  if 2^64 ≤ v then 2^64 - 1 else if neg then (2^64 - v) % 2^64 else v

/-- The characters `fgets` stores when it may store at most `k` of them, and the
unread rest of the input. -/
def fgets_aux : Nat → List Char → List Char × List Char
  | 0, inp => ([], inp)
  | _ + 1, [] => ([], [])
  | k + 1, c :: cs =>
    if c = '\n' then ([c], cs)
    else ((fgets_aux k cs).1.cons c, (fgets_aux k cs).2)

/-- The call `fgets(buf, n, f)`: `none` is the NULL of end of file. -/
def fgets (n : Nat) (inp : List Char) : Option (List Char × List Char) :=
  if inp = [] then none else some (fgets_aux (n - 1) inp)

/-- The call `strstr(hay, needle) != NULL`. -/
def strstr : List Char → List Char → Bool
  | [], needle => needle.isEmpty
  | h :: t, needle => needle.isPrefixOf (h :: t) || strstr t needle

/-- The call `strtok_r(s, delim, &save)` with a non-NULL `s`: the token (`none`
for NULL) and the new `save`. -/
def strtok_r (s delim : List Char) : Option (List Char) × List Char :=
  let s1 := s.dropWhile (fun c => delim.contains c)
  if s1 = [] then (none, [])
  else (some (s1.takeWhile (fun c => !delim.contains c)),
        (s1.dropWhile (fun c => !delim.contains c)).drop 1)

/-- The test `memcmp(a, b, n) != 0` on byte buffers. -/
def memcmp (a b : List Nat) (n : Nat) : Bool := decide (a.take n ≠ b.take n)

/-! ## Bandwidth meter -/

/-- Microseconds of a `timeval`, as the `uint64_t` that `measurebw` computes. -/
def usecs (tv : timeval) : Nat := (tv.tv_sec * 1000000 + tv.tv_usec) % 2^64

/-- The function `measurebw`; `now` is what `gettimeofday` answers in this call.
Returns the rate and the updated timer. -/
def measurebw (start : Int) (bytes : Nat) (bwt : bwt_t) (now : timeval) : Nat × bwt_t :=
  if start ≠ 0 then
    (0, { bwt with start_bytes := bytes, start_tv := now })
  else
    let t1 := usecs bwt.start_tv
    let t2 := usecs now
    let bwt1 := { bwt with result_usecs := sub64 t2 t1 }
    let bwt2 := { bwt1 with result_bytes := sub64 bytes bwt1.start_bytes }
    if bwt2.result_bytes = 0 ∨ bwt2.result_usecs = 0 then (0, bwt2)
    else ((bwt2.result_bytes * 1000000) % 2^64 / bwt2.result_usecs, bwt2)

/-! ## The outside world -/

/-- One system call on the device under test. -/
inductive io_op where
  | dev_open
  | lseek (off : Nat)
  | write (off : Nat) (len : Nat)
  | read (off : Nat) (len : Nat)
  | close
deriving DecidableEq, Repr

/-- Is the call a `write`. -/
def io_op.is_write : io_op → Bool
  | io_op.write _ _ => true
  | _ => false

/-- Is the call a `read`. -/
def io_op.is_read : io_op → Bool
  | io_op.read _ _ => true
  | _ => false

/-- Number of `write` calls in a trace. -/
def count_writes (ops : List io_op) : Nat := (ops.filter io_op.is_write).length

/-- Number of `read` calls in a trace. -/
def count_reads (ops : List io_op) : Nat := (ops.filter io_op.is_read).length

/-- A block device with state `σ`: what a `write` of some bytes at an offset
does to it, and what a `read` of `len` bytes at an offset leaves in the
caller's buffer. -/
structure device (σ : Type) where
  pwrite : σ → Nat → List Nat → σ
  pread : σ → Nat → Nat → List Nat × σ

/-- The read-only answers of the environment: the clock, the calendar, the
ioctl answers, whether the device node opens, the files present, whether the
log can be created, and the indeterminate contents of an uninitialised
integer local and of an uninitialised line buffer. -/
structure env where
  now : Nat → timeval
  ctime : Nat → List Char
  di : device_info_t
  dev_open_ok : Bool
  fs : List Char → Option (List Char)
  fopen_w_ok : Bool
  uninit : Nat
  uninit_str : List Char

/-- The mutable world: device contents, file offset of the device descriptor,
the trace of device calls, the number of clock readings taken, and stdout. -/
structure world (σ : Type) where
  dev : σ
  fdpos : Nat
  ops : List io_op
  ticks : Nat
  out : List Char

/-- The call `lseek(fd, off, SEEK_SET)`. -/
def dev_lseek {σ : Type} (w : world σ) (off : Nat) : world σ :=
  { w with fdpos := off, ops := w.ops ++ [io_op.lseek off] }

/-- The call `write(fd, buf, n)`. -/
def dev_write {σ : Type} (D : device σ) (w : world σ) (buf : List Nat) (n : Nat) : world σ :=
  { w with dev := D.pwrite w.dev w.fdpos (buf.take n), fdpos := w.fdpos + n,
           ops := w.ops ++ [io_op.write w.fdpos n] }

/-- The call `read(fd, buf, n)`: the new buffer contents and the new world. -/
def dev_read {σ : Type} (D : device σ) (w : world σ) (n : Nat) : List Nat × world σ :=
  ((D.pread w.dev w.fdpos n).1,
   { w with dev := (D.pread w.dev w.fdpos n).2, fdpos := w.fdpos + n,
            ops := w.ops ++ [io_op.read w.fdpos n] })

/-- The call `gettimeofday`. -/
def gettimeofday {σ : Type} (E : env) (w : world σ) : timeval × world σ :=
  (E.now w.ticks, { w with ticks := w.ticks + 1 })

/-! ## Logging -/

/-- The function `gettime`: the `ctime` text up to its newline. -/
def gettime {σ : Type} (E : env) (w : world σ) : List Char × world σ :=
  (((strtok_r (E.ctime w.ticks) ['\n']).1).getD "(null)".toList,
   { w with ticks := w.ticks + 1 })

/-- The call `fprintf(f, "%s", s)` at the file position. -/
def FILE.put (f : FILE) (s : List Char) : FILE :=
  { before := f.before ++ s, after := f.after.drop s.length }

/-- The buffer `sdmsg` of `sdlog`: device name, optional time stamp, a blank,
the formatted message. -/
def sdmsg {σ : Type} (E : env) (g : globals_t) (w : world σ) (msg : List Char) : List Char :=
  "[".toList ++ g.devicename ++ "]".toList ++
  (if g.timestamp ≠ 0 then "[".toList ++ (gettime E w).1 ++ "]".toList else []) ++
  " ".toList ++ msg

/-- The function `sdlog` applied to an already formatted message: the text goes
to stdout when asked for or when no log is open, and to the log when one is
open. -/
def sdlog {σ : Type} (E : env) (g : globals_t) (w : world σ) (msg : List Char) :
    globals_t × world σ :=
  ({ g with logfd := g.logfd.map (fun f => f.put (sdmsg E g w msg)) },
   { w with ticks := if g.timestamp ≠ 0 then (gettime E w).2.ticks else w.ticks,
            out := if g.logstdout ≠ 0 ∨ g.logfd = none then w.out ++ sdmsg E g w msg
                   else w.out })

/-- The text of the `stats:` status report without its line end. -/
def stats_msg (written_total pass_count pass_wrbps pass_rdbps : Nat) : List Char :=
  "stats:".toList ++ fmt_u written_total ++ ":".toList ++ fmt_u pass_count ++
  ":wrbw=".toList ++ fmt_u ((pass_wrbps % 2^32) / 1000000) ++ ".".toList ++
  fmt_02u ((pass_wrbps % 2^32) % 1000000) ++
  " MB/s:rdbw=".toList ++ fmt_u ((pass_rdbps % 2^32) / 1000000) ++ ".".toList ++
  fmt_02u ((pass_rdbps % 2^32) % 1000000) ++ " MB/s".toList

/-- The text of a verbose `:buffer stats:` report. -/
def buffer_msg (tag : List Char) (bw : bwt_t) (rate : Nat) : List Char :=
  ":buffer stats:".toList ++ tag ++ ":".toList ++ fmt_u bw.result_bytes ++ ":".toList ++
  fmt_u bw.result_usecs ++ ":".toList ++ fmt_u ((rate / 1000000) % 2^32) ++ ".".toList ++
  fmt_02u ((rate % 1000000) % 2^32) ++ " MB/s\n".toList

/-- The text of the mismatch report. -/
def error_msg (index : Nat) : List Char :=
  "error at block ".toList ++ fmt_d (to_int32 index) ++ ", exiting...\n".toList

/-! ## Progress store -/

/-- The function `mklogname`. -/
def mklogname (g : globals_t) : Except fatal globals_t :=
  if g.devicename.take 7 ≠ "/dev/sd".toList then Except.error fatal.bad_device_name
  else Except.ok { g with statslogname := g.devicename.drop 5 ++ ".log".toList }

/-- The function `check_device_name` on the open log: `memcmp` of the bytes
after the first one of the line read against the device name, over the length
of the device name.  A line shorter than that ends in a NUL, which differs from
every character of the name. -/
def check_device_name (g : globals_t) (f : FILE) : Except fatal FILE :=
  match fgets 80 f.after with
  | none => Except.error fatal.log_unreadable
  | some (devicestr, rest) =>
    if (devicestr.drop 1).take g.devicename.length ≠ g.devicename then
      Except.error fatal.log_device_mismatch
    else Except.ok { before := f.before ++ devicestr, after := rest }

/-- The loop `while(fgets(str, 200, g->logfd));`: the final contents of `str`
and the text consumed. -/
def read_to_end : Nat → List Char → List Char → List Char
  | 0, str, _ => str
  | k + 1, str, inp =>
    match fgets 200 inp with
    | none => str
    | some (line, rest) => read_to_end k line rest

/-- The function `get_previous_counts`. -/
def get_previous_counts {σ : Type} (E : env) (g : globals_t) (w : world σ) :
    Except (fatal × world σ) (globals_t × world σ) :=
  match g.logfd with
  | none => Except.error (fatal.segfault, w)
  | some f =>
    let str := read_to_end (f.after.length + 1) E.uninit_str f.after
    let g0 := { g with logfd := some { before := f.before ++ f.after, after := [] } }
    if !strstr str "stats".toList then Except.ok (g0, w)
    else
      let t1 := strtok_r str [':']
      let t2 := strtok_r t1.2 [':']
      match t2.1 with
      | none => Except.error (fatal.segfault, w)
      | some token2 =>
        let g1 := { g0 with written_total := strtoul token2 }
        let t3 := strtok_r t2.2 [':']
        match t3.1 with
        | none => Except.error (fatal.segfault, w)
        | some token3 =>
          let g2 := { g1 with pass_count := strtoul token3 }
          Except.ok (sdlog E g2 w
            ("Restarting with Total written: ".toList ++ fmt_u g2.written_total ++
             " Pass count: ".toList ++ fmt_u g2.pass_count ++ "\n".toList))

/-- The function `stats_log_setup`. -/
def stats_log_setup {σ : Type} (E : env) (g : globals_t) (w : world σ) :
    Except (fatal × world σ) (globals_t × world σ) :=
  match mklogname g with
  | Except.error e => Except.error (e, w)
  | Except.ok g1 =>
    match (if g1.zerostats = 0 then E.fs g1.statslogname else none) with
    | some content =>
      match check_device_name g1 { before := [], after := content } with
      | Except.error e => Except.error (e, w)
      | Except.ok f => get_previous_counts E { g1 with logfd := some f } w
    | none =>
      if !E.fopen_w_ok then Except.error (fatal.log_open, w)
      else
        let s0 := ({ g1 with logfd := some { before := [], after := [] } }, w)
        let s1 := sdlog E s0.1 s0.2 ("devicename=".toList ++ g1.devicename ++ "\n".toList)
        let tm := gettime E s1.2
        let s2 := sdlog E s1.1 tm.2 ("starttime=".toList ++ tm.1 ++ "\n".toList)
        let s3 := sdlog E s2.1 s2.2 ("block_size=".toList ++ fmt_u g1.block_size ++ "\n".toList)
        let s4 := sdlog E s3.1 s3.2 ("block_writes=".toList ++ fmt_u g1.block_writes ++ "\n".toList)
        Except.ok (sdlog E s4.1 s4.2 ("buffer_size=".toList ++ fmt_u g1.buffer_size ++ "\n".toList))

/-! ## Command line -/

/-- A command line as `getopt` presents it: `argc`, the successive answers of
`getopt` (option character and `optarg`), the final `optind`, and
`argv[optind]`. -/
structure cmdline where
  argc : Nat
  opts : List (Char × List Char)
  optind : Nat
  device : List Char
deriving DecidableEq, Repr

/-- One turn of the `switch` in `parse_cmdline`. -/
def parse_opt (g : globals_t) (c : Char) (optarg : List Char) : Except fatal globals_t :=
  if c = 't' then
    Except.ok { g with test_type :=
      if optarg.head? = some 'z' then ZERO else if optarg.head? = some 'r' then RAND else 0 }
  else if c = 'v' then Except.ok { g with verbose := g.verbose + 1 }
  else if c = 'i' then Except.ok { g with dumpinfo := g.dumpinfo + 1 }
  else if c = 'T' then Except.ok { g with timestamp := g.timestamp + 1 }
  else if c = 'Z' then Except.ok { g with zerostats := g.zerostats + 1 }
  else if c = 'O' then Except.ok { g with logstdout := g.logstdout + 1 }
  else if c = 'b' then Except.ok { g with buffer_size := strtoul optarg % 2^32 }
  else if c = 'q' then Except.ok { g with quitpasses := to_int32 (strtoul optarg) }
  else if c = '?' ∨ c = 'h' then Except.error fatal.usage
  else Except.ok g

/-- The `getopt` loop of `parse_cmdline`. -/
def parse_opts : globals_t → List (Char × List Char) → Except fatal globals_t
  | g, [] => Except.ok g
  | g, (c, optarg) :: rest =>
    match parse_opt g c optarg with
    | Except.error e => Except.error e
    | Except.ok g1 => parse_opts g1 rest

/-- The function `parse_cmdline`. -/
def parse_cmdline (g : globals_t) (cl : cmdline) : Except fatal globals_t :=
  if cl.argc < 3 then Except.error fatal.usage
  else
    match parse_opts g cl.opts with
    | Except.error e => Except.error e
    | Except.ok g1 =>
      if cl.argc = cl.optind then Except.error fatal.device_missing
      else if ({ g1 with devicename := cl.device } : globals_t).buffer_size
                % DEFAULT_BUFFER_MODULO ≠ 0 then
        Except.error fatal.bad_buffer_size
      else Except.ok { g1 with devicename := cl.device }

/-! ## Geometry prober -/

/-- Hexadecimal digits of `n`, most significant first, in front of `acc`. -/
def fmt_x_aux : Nat → Nat → List Char → List Char
  | 0, _, acc => acc
  | f + 1, n, acc =>
    if n < 16 then Nat.digitChar n :: acc
    else fmt_x_aux f (n / 16) (Nat.digitChar (n % 16) :: acc)

/-- The conversion `%lx` of `printf`. -/
def fmt_x (n : Nat) : List Char := fmt_x_aux 16 n []

/-- The info dump of `device_setup`. -/
def dump_info {σ : Type} (E : env) (g : globals_t) (w : world σ) : globals_t × world σ :=
  let s0 := sdlog E g w ("Dumping info for ".toList ++ g.devicename ++ "...\n".toList)
  let s1 := sdlog E s0.1 s0.2 ("   size:                ".toList ++ fmt_u g.di.size ++
              "\t(0x".toList ++ fmt_x g.di.size ++ ")\n".toList)
  let s2 := sdlog E s1.1 s1.2 ("   sectors:             ".toList ++ fmt_u g.di.sectors ++
              "\t(0x".toList ++ fmt_x g.di.sectors ++ ")\n".toList)
  let s3 := sdlog E s2.1 s2.2 ("   physical block size: ".toList ++
              fmt_u g.di.sector_size_physical ++ "\n".toList)
  let s4 := sdlog E s3.1 s3.2 ("   logical block size:  ".toList ++
              fmt_u g.di.sector_size_logical ++ "\n".toList)
  let s5 := sdlog E s4.1 s4.2 ("   IO min size:         ".toList ++
              fmt_u g.di.min_io_size ++ "\n".toList)
  let s6 := sdlog E s5.1 s5.2 ("   IO opt size:         ".toList ++
              fmt_u g.di.opt_io_size ++ "\n".toList)
  sdlog E s6.1 s6.2 ("   alignment offset:    ".toList ++
              fmt_u g.di.alignment_offset ++ "\n".toList)

/-- The sizing step of `device_setup`: default buffer size, then block size
and block count from the device size. -/
def device_sizing (g : globals_t) : globals_t :=
  let g1 : globals_t :=
    if g.buffer_size = 0 then { g with buffer_size := DEFAULT_BUFFER_SIZE } else g
  if g1.di.size < g1.buffer_size then
    { g1 with buffer_size := g1.di.size % 2^32, block_size := g1.di.size % 2^32,
              block_writes := 1 }
  else
    { g1 with block_size := g1.buffer_size,
              block_writes := (g1.di.size / g1.buffer_size) % 2^32 }

/-- The function `device_setup`. -/
def device_setup {σ : Type} (E : env) (g : globals_t) (w : world σ) :
    Except (fatal × world σ) (globals_t × world σ) :=
  let w0 : world σ := { w with ops := w.ops ++ [io_op.dev_open] }
  if !E.dev_open_ok then
    Except.error (fatal.device_open,
      (sdlog E g w0 ("could not open ".toList ++ g.devicename ++ ", exiting -1\n".toList)).2)
  else
    let g1 : globals_t := { g with di := { E.di with size := E.di.size % 2^64 } }
    let g2 : globals_t :=
      if g1.di.opt_io_size = 0 then
        { g1 with di := { g1.di with opt_io_size := g1.di.min_io_size } }
      else g1
    let s3 : globals_t × world σ := if g2.dumpinfo ≠ 0 then dump_info E g2 w0 else (g2, w0)
    Except.ok (device_sizing s3.1, { s3.2 with ops := s3.2.ops ++ [io_op.close] })

/-! ## Test engine -/

/-- Program points of `device_test`: head of the outer `while(1)`, test of the
inner `while`, the four phases of a block, the end of a pass, and the label
`done`. -/
inductive loc where
  | pass_start
  | block_check
  | write_ones
  | read_ones
  | write_zeros
  | read_zeros
  | pass_end
  | done
deriving DecidableEq, Repr

/-- The globals, the world and the locals of `device_test` at a program point. -/
structure test_state (σ : Type) where
  pc : loc
  g : globals_t
  w : world σ
  rc : Int
  index : Nat
  pass_wrbps : Nat
  pass_rdbps : Nat
  buffer_wrbps1 : Nat
  buffer_wrbps2 : Nat
  buffer_rdbps1 : Nat
  buffer_rdbps2 : Nat
  rbuf : List Nat
  wbuf : List Nat

/-- The measured `write` of the write buffer and the update of `written_total`:
the rate, the globals and the world afterwards. -/
def timed_write {σ : Type} (E : env) (D : device σ) (g : globals_t) (w : world σ)
    (wbuf : List Nat) : Nat × globals_t × world σ :=
  let t1 := gettimeofday E w
  let m1 := measurebw 1 0 g.buffer_bw t1.1
  let w2 := dev_write D t1.2 wbuf g.block_size
  let t2 := gettimeofday E w2
  let m2 := measurebw 0 g.block_size m1.2 t2.1
  (m2.1, { g with buffer_bw := m2.2,
                  written_total := (g.written_total + g.block_size) % 2^64 }, t2.2)

/-- The measured `read` into the read buffer: the rate, the buffer, the globals
and the world afterwards. -/
def timed_read {σ : Type} (E : env) (D : device σ) (g : globals_t) (w : world σ) :
    Nat × List Nat × globals_t × world σ :=
  let t1 := gettimeofday E w
  let m1 := measurebw 1 0 g.buffer_bw t1.1
  let r := dev_read D t1.2 g.block_size
  let t2 := gettimeofday E r.2
  let m2 := measurebw 0 g.block_size m1.2 t2.1
  (m2.1, r.1, { g with buffer_bw := m2.2 }, t2.2)

/-- The verbose report after a phase (two `LOG` calls), when `verbose` is set. -/
def verbose_log {σ : Type} (E : env) (g : globals_t) (w : world σ)
    (pass_wrbps pass_rdbps : Nat) (tag : List Char) (rate : Nat) : globals_t × world σ :=
  if g.verbose ≠ 0 then
    let s1 := sdlog E g w (stats_msg g.written_total g.pass_count pass_wrbps pass_rdbps)
    sdlog E s1.1 s1.2 (buffer_msg tag s1.1.buffer_bw rate)
  else (g, w)

/-- The byte offset `index*g->block_size` handed to `lseek`: a product of two
`unsigned int`. -/
def block_offset (index block_size : Nat) : Nat := (index * block_size) % 2^32

/-- One step of `device_test` from a program point to the next. -/
def step {σ : Type} (E : env) (D : device σ) (s : test_state σ) : test_state σ :=
  match s.pc with
  | loc.pass_start =>
    let w1 := dev_lseek s.w 0
    let l := sdlog E s.g w1
      (stats_msg s.g.written_total s.g.pass_count s.pass_wrbps s.pass_rdbps ++ "\n".toList)
    if l.1.quitpasses ≠ 0 ∧ int_to_u64 l.1.quitpasses ≤ l.1.pass_count then
      { s with g := l.1, w := l.2, index := 0, pc := loc.done }
    else
      { s with g := l.1, w := l.2, index := 0, pc := loc.block_check }
  | loc.block_check =>
    if s.index < s.g.block_writes then { s with pc := loc.write_ones }
    else { s with pc := loc.pass_end }
  | loc.write_ones =>
    let w1 := dev_lseek s.w (block_offset s.index s.g.block_size)
    let wbuf := List.replicate s.g.block_size 255
    let r := timed_write E D s.g w1 wbuf
    let l := verbose_log E r.2.1 r.2.2 s.pass_wrbps s.pass_rdbps "W1".toList r.1
    { s with g := l.1, w := l.2, wbuf := wbuf, buffer_wrbps1 := r.1, pc := loc.read_ones }
  | loc.read_ones =>
    let w1 := dev_lseek s.w (block_offset s.index s.g.block_size)
    let r := timed_read E D s.g w1
    if memcmp r.2.1 s.wbuf s.g.block_size then
      let l := sdlog E r.2.2.1 r.2.2.2 (error_msg s.index)
      { s with g := l.1, w := l.2, rbuf := r.2.1, buffer_rdbps1 := r.1, rc := -1,
               pc := loc.done }
    else
      let l := verbose_log E r.2.2.1 r.2.2.2 s.pass_wrbps s.pass_rdbps "R1".toList r.1
      { s with g := l.1, w := l.2, rbuf := r.2.1, buffer_rdbps1 := r.1,
               pc := loc.write_zeros }
  | loc.write_zeros =>
    let w1 := dev_lseek s.w (block_offset s.index s.g.block_size)
    let wbuf := List.replicate s.g.block_size 0
    let r := timed_write E D s.g w1 wbuf
    let l := verbose_log E r.2.1 r.2.2 s.pass_wrbps s.pass_rdbps "W2".toList r.1
    { s with g := l.1, w := l.2, wbuf := wbuf, buffer_wrbps2 := r.1, pc := loc.read_zeros }
  | loc.read_zeros =>
    let w1 := dev_lseek s.w (block_offset s.index s.g.block_size)
    let r := timed_read E D s.g w1
    if memcmp r.2.1 s.wbuf s.g.block_size then
      let l := sdlog E r.2.2.1 r.2.2.2 (error_msg s.index)
      { s with g := l.1, w := l.2, rbuf := r.2.1, buffer_rdbps2 := r.1, rc := -1,
               pc := loc.done }
    else
      let l := verbose_log E r.2.2.1 r.2.2.2 s.pass_wrbps s.pass_rdbps "R2".toList r.1
      { s with g := l.1, w := l.2, rbuf := r.2.1, buffer_rdbps2 := r.1,
               index := (s.index + 1) % 2^32, pc := loc.block_check }
  | loc.pass_end =>
    { s with pass_wrbps := (s.buffer_wrbps1 + s.buffer_wrbps2) % 2^64 / 2,
             pass_rdbps := (s.buffer_rdbps1 + s.buffer_rdbps2) % 2^64 / 2,
             g := { s.g with pass_count := (s.g.pass_count + 1) % 2^64 },
             pc := loc.pass_start }
  | loc.done => s

/-- The state after `n` steps. -/
def run {σ : Type} (E : env) (D : device σ) : Nat → test_state σ → test_state σ
  | 0, s => s
  | n + 1, s => run E D n (step E D s)

/-- The state of `device_test` when it enters its outer loop: the device is
open, both buffers are allocated, `rc` is 0. -/
def test_init {σ : Type} (E : env) (g : globals_t) (w : world σ) : test_state σ :=
  { pc := loc.pass_start, g := g, w := w, rc := 0, index := 0,
    pass_wrbps := 0, pass_rdbps := 0,
    buffer_wrbps1 := E.uninit, buffer_wrbps2 := E.uninit,
    buffer_rdbps1 := E.uninit, buffer_rdbps2 := E.uninit,
    rbuf := List.replicate g.block_size E.uninit,
    wbuf := List.replicate g.block_size E.uninit }

/-- The function `device_test`, run for at most `fuel` steps: `none` when the
label `done` is not reached within them, otherwise the exit or the returned
`rc` with the globals and the world after `close`. -/
def device_test {σ : Type} (fuel : Nat) (E : env) (D : device σ) (g : globals_t)
    (w : world σ) : Option (Except (fatal × world σ) (Int × globals_t × world σ)) :=
  let w0 : world σ := { w with ops := w.ops ++ [io_op.dev_open], fdpos := 0 }
  if !E.dev_open_ok then
    some (Except.error (fatal.device_open,
      (sdlog E g w0 ("could not open ".toList ++ g.devicename ++ ", exiting -1\n".toList)).2))
  else
    let s := run E D fuel (test_init E g w0)
    if s.pc = loc.done then
      some (Except.ok (s.rc, s.g, { s.w with ops := s.w.ops ++ [io_op.close] }))
    else none

/-! ## Driver -/

/-- The function `main`, with at most `fuel` steps for `device_test`: the exit
status of the process, the globals and the world at the end; `none` when the
engine is still running after `fuel` steps. -/
def main {σ : Type} (fuel : Nat) (E : env) (D : device σ) (euid : Nat) (cl : cmdline)
    (w : world σ) : Option (Int × globals_t × world σ) :=
  if euid ≠ 0 then some (-1, globals_zero, w)
  else
    match parse_cmdline globals_zero cl with
    | Except.error _ => some (-1, globals_zero, w)
    | Except.ok g1 =>
      match device_setup E g1 w with
      | Except.error e => some (-1, g1, e.2)
      | Except.ok s2 =>
        match stats_log_setup E s2.1 s2.2 with
        | Except.error e => some (-1, s2.1, e.2)
        | Except.ok s3 =>
          if s3.1.test_type ≠ 0 then
            match device_test fuel E D s3.1 s3.2 with
            | none => none
            | some (Except.error e) => some (-1, s3.1, e.2)
            | some (Except.ok r) => some (0, r.2.1, r.2.2)
          else some (0, s3.1, s3.2)

/-! ## Devices -/

/-- A device that is a plain byte store: a read returns what was last written
at each offset. -/
def memory_device : device (Nat → Nat) where
  pwrite := fun mem off buf =>
    fun a => if off ≤ a ∧ a < off + buf.length then buf.getD (a - off) 0 else mem a
  pread := fun mem off len => ((List.range len).map (fun j => mem (off + j)), mem)

/-- A device given by the answers to its successive reads: the state is the
number of reads served, `answer k` is the buffer content after read `k`. -/
def scripted_device (answer : Nat → List Nat) : device Nat where
  pwrite := fun k _ _ => k
  pread := fun k _ _ => (answer k, k + 1)

/-! ## Vocabulary of the engine properties -/

/-- The setup the engine never changes: block size, block count, quit limit. -/
def config (g : globals_t) : Nat × Nat × Int := (g.block_size, g.block_writes, g.quitpasses)

/-- The bytes that the read of the current block leaves in the read buffer. -/
def read_back {σ : Type} (D : device σ) (s : test_state σ) : List Nat :=
  (D.pread s.w.dev (block_offset s.index s.g.block_size) s.g.block_size).1

/-- The counters of a state: completed passes, bytes written, `write` calls
and `read` calls issued so far. -/
def tally {σ : Type} (s : test_state σ) : Nat × Nat × Nat × Nat :=
  (s.g.pass_count, s.g.written_total, count_writes s.w.ops, count_reads s.w.ops)

/-- A device on which a read that follows a write at the same offset returns
the bytes just written. -/
def lawful {σ : Type} (D : device σ) : Prop :=
  ∀ (dev : σ) (off : Nat) (buf : List Nat),
    (D.pread (D.pwrite dev off buf) off buf.length).1 = buf

/-- The device calls of one block that passes both phases. -/
def block_ops (off len : Nat) : List io_op :=
  [io_op.lseek off, io_op.write off len, io_op.lseek off, io_op.read off len,
   io_op.lseek off, io_op.write off len, io_op.lseek off, io_op.read off len]

/-- The program point inside a block, by the number of steps taken since the
test of the block loop. -/
def phase_loc : Nat → loc
  | 0 => loc.block_check
  | 1 => loc.write_ones
  | 2 => loc.read_ones
  | 3 => loc.write_zeros
  | _ => loc.read_zeros

/-- The globals with the test type replaced. -/
def with_test_type (t : Nat) (g : globals_t) : globals_t := { g with test_type := t }

/-- The state of the engine with the test type replaced. -/
def state_with_test_type {σ : Type} (t : Nat) (s : test_state σ) : test_state σ :=
  { s with g := with_test_type t s.g }

/-- The status, the globals with the test type replaced, and the world. -/
def result_with_test_type {σ : Type} (t : Nat) (r : Int × globals_t × world σ) :
    Int × globals_t × world σ :=
  (r.1, with_test_type t r.2.1, r.2.2)

/-- The globals and the world of a setup stage, with the test type replaced. -/
def stage_with_test_type {σ : Type} (t : Nat) (s : globals_t × world σ) :
    globals_t × world σ :=
  (with_test_type t s.1, s.2)

/-- The world in which `device_test` enters its loop: the device has been
opened, its file offset is 0. -/
def opened {σ : Type} (w : world σ) : world σ :=
  { w with ops := w.ops ++ [io_op.dev_open], fdpos := 0 }

/-! ## Concrete inputs -/

/-- An environment for the examples: a device of `size` bytes with 512-byte
sectors that opens, a clock that advances one second per reading, a fixed
calendar text, the files `fs`, a log that can be created. -/
def demo_env (size : Nat) (fs : List Char → Option (List Char)) : env where
  now := fun k => ⟨k, 0⟩
  ctime := fun _ => "Thu Oct  8 12:34:56 2015\n".toList
  di := ⟨size, size / 512, 0, 512, 512, 512, 0, 0⟩
  dev_open_ok := true
  fs := fs
  fopen_w_ok := true
  uninit := 0
  uninit_str := []

/-- A file system without files. -/
def no_files : List Char → Option (List Char) := fun _ => none

/-- A world in which nothing has happened yet. -/
def demo_world {σ : Type} (dev : σ) : world σ :=
  { dev := dev, fdpos := 0, ops := [], ticks := 0, out := [] }

/-- Zeroed globals with a buffer-size override. -/
def globals_buffer (buffer_size : Nat) : globals_t :=
  { globals_zero with buffer_size := buffer_size }

/-- The command line `sdtest -t z -b 1000000 /dev/sdb`. -/
def cmdline_bad_buffer : cmdline :=
  { argc := 6, opts := [('t', "z".toList), ('b', "1000000".toList)], optind := 5,
    device := "/dev/sdb".toList }

/-- The command line `sdtest -t r -q 1 /dev/sdb`. -/
def cmdline_rand : cmdline :=
  { argc := 6, opts := [('t', "r".toList), ('q', "1".toList)], optind := 5,
    device := "/dev/sdb".toList }

/-- The command line `sdtest -t z -q 1 /dev/sdb`. -/
def cmdline_zero : cmdline :=
  { argc := 6, opts := [('t', "z".toList), ('q', "1".toList)], optind := 5,
    device := "/dev/sdb".toList }

/-- The command line `sdtest -t x -q 1 /dev/sdb`. -/
def cmdline_other : cmdline :=
  { argc := 6, opts := [('t', "x".toList), ('q', "1".toList)], optind := 5,
    device := "/dev/sdb".toList }

/-- A device that answers every read with the pattern of its phase: ones for
the even reads, zeros for the odd ones. -/
def sound_answers (block_size : Nat) : Nat → List Nat :=
  fun k => List.replicate block_size (if k % 2 = 0 then 255 else 0)

/-- A worn-out device: every read returns zeros. -/
def stuck_answers (block_size : Nat) : Nat → List Nat :=
  fun _ => List.replicate block_size 0

/-- The calls of `main` before the test: `parse_cmdline`, `device_setup`,
`stats_log_setup`; `none` when one of them exits. -/
def startup {σ : Type} (E : env) (cl : cmdline) (w : world σ) : Option (globals_t × world σ) :=
  (parse_cmdline globals_zero cl).toOption.bind fun g1 =>
    (device_setup E g1 w).toOption.bind fun s2 =>
      (stats_log_setup E s2.1 s2.2).toOption

/-- The command line `sdtest -t z -q 3 <device>`. -/
def cmdline_three (device : List Char) : cmdline :=
  { argc := 6, opts := [('t', "z".toList), ('q', "3".toList)], optind := 5, device := device }

/-- The command line `sdtest -T -t z -q 3 /dev/sdb`. -/
def cmdline_stamped : cmdline :=
  { argc := 7, opts := [('T', []), ('t', "z".toList), ('q', "3".toList)], optind := 6,
    device := "/dev/sdb".toList }

/-- The record that three passes over `/dev/sdb1` leave. -/
def record_sdb1 : List Char :=
  ("[/dev/sdb1] devicename=/dev/sdb1\n" ++
   "[/dev/sdb1] starttime=Thu Oct  8 12:34:56 2015\n" ++
   "[/dev/sdb1] block_size=512\n" ++
   "[/dev/sdb1] block_writes=1\n" ++
   "[/dev/sdb1] buffer_size=512\n" ++
   "[/dev/sdb1] stats:0:0:wrbw=0.00 MB/s:rdbw=0.00 MB/s\n" ++
   "[/dev/sdb1] stats:1024:1:wrbw=0.512 MB/s:rdbw=0.512 MB/s\n" ++
   "[/dev/sdb1] stats:2048:2:wrbw=0.512 MB/s:rdbw=0.512 MB/s\n" ++
   "[/dev/sdb1] stats:3072:3:wrbw=0.512 MB/s:rdbw=0.512 MB/s\n").toList

/-- The record that three passes over `/dev/sdb` leave. -/
def record_sdb : List Char :=
  ("[/dev/sdb] devicename=/dev/sdb\n" ++
   "[/dev/sdb] starttime=Thu Oct  8 12:34:56 2015\n" ++
   "[/dev/sdb] block_size=512\n" ++
   "[/dev/sdb] block_writes=1\n" ++
   "[/dev/sdb] buffer_size=512\n" ++
   "[/dev/sdb] stats:0:0:wrbw=0.00 MB/s:rdbw=0.00 MB/s\n" ++
   "[/dev/sdb] stats:1024:1:wrbw=0.512 MB/s:rdbw=0.512 MB/s\n" ++
   "[/dev/sdb] stats:2048:2:wrbw=0.512 MB/s:rdbw=0.512 MB/s\n" ++
   "[/dev/sdb] stats:3072:3:wrbw=0.512 MB/s:rdbw=0.512 MB/s\n").toList

/-- The record that three passes over `/dev/sdb` leave with time stamps on. -/
def record_stamped : List Char :=
  ("[/dev/sdb][Thu Oct  8 12:34:56 2015] devicename=/dev/sdb\n" ++
   "[/dev/sdb][Thu Oct  8 12:34:56 2015] starttime=Thu Oct  8 12:34:56 2015\n" ++
   "[/dev/sdb][Thu Oct  8 12:34:56 2015] block_size=512\n" ++
   "[/dev/sdb][Thu Oct  8 12:34:56 2015] block_writes=1\n" ++
   "[/dev/sdb][Thu Oct  8 12:34:56 2015] buffer_size=512\n" ++
   "[/dev/sdb][Thu Oct  8 12:34:56 2015] stats:0:0:wrbw=0.00 MB/s:rdbw=0.00 MB/s\n" ++
   "[/dev/sdb][Thu Oct  8 12:34:56 2015] stats:1024:1:wrbw=0.512 MB/s:rdbw=0.512 MB/s\n" ++
   "[/dev/sdb][Thu Oct  8 12:34:56 2015] stats:2048:2:wrbw=0.512 MB/s:rdbw=0.512 MB/s\n" ++
   "[/dev/sdb][Thu Oct  8 12:34:56 2015] stats:3072:3:wrbw=0.512 MB/s:rdbw=0.512 MB/s\n").toList

/-- A file system whose only file is `name`. -/
def one_file (name content : List Char) : List Char → Option (List Char) :=
  fun n => if n = name then some content else none

/-- The log that a run of `main` leaves. -/
def log_after {σ : Type} (r : Option (Int × globals_t × world σ)) : Option (List Char) :=
  r.bind fun x => x.2.1.logfd.map FILE.before

/-- A device whose read `k0` comes back with byte `j0` changed and whose other
reads come back sound. -/
def corrupt_answers (block_size k0 j0 : Nat) : Nat → List Nat :=
  fun k => if k = k0 then (sound_answers block_size k).set j0 165 else sound_answers block_size k

/-- Globals as `device_test` may find them: device `/dev/sdb`, an open empty
log, the given block size, block count, quit limit and byte counter. -/
def globals_blocks (block_size block_writes : Nat) (quitpasses : Int) (written_total : Nat) :
    globals_t :=
  { globals_zero with devicename := "/dev/sdb".toList, block_size := block_size,
                      block_writes := block_writes, quitpasses := quitpasses,
                      written_total := written_total,
                      logfd := some { before := [], after := [] } }

/-- A record of `/dev/sdb` whose last status line carries the largest byte
count of 64 bits. -/
def record_full : List Char :=
  ("[/dev/sdb] devicename=/dev/sdb\n" ++
   "[/dev/sdb] starttime=Thu Oct  8 12:34:56 2015\n" ++
   "[/dev/sdb] block_size=512\n" ++
   "[/dev/sdb] block_writes=1\n" ++
   "[/dev/sdb] buffer_size=512\n" ++
   "[/dev/sdb] stats:18446744073709551615:0:wrbw=0.00 MB/s:rdbw=0.00 MB/s\n").toList

/-- The log text after a run of `device_test`. -/
def test_log {σ : Type} (r : Option (Except (fatal × world σ) (Int × globals_t × world σ))) :
    Option (List Char) :=
  r.bind fun x => x.toOption.bind fun y => y.2.1.logfd.map FILE.before

/-- The `rc` and the byte counter after a run of `device_test`. -/
def test_counts {σ : Type} (r : Option (Except (fatal × world σ) (Int × globals_t × world σ))) :
    Option (Int × Nat × Nat) :=
  r.bind fun x => x.toOption.map fun y => (y.1, y.2.1.written_total, y.2.1.pass_count)

/-- The command line `sdtest -t z /dev/sdb`: no quit limit. -/
def cmdline_endless : cmdline :=
  { argc := 4, opts := [('t', "z".toList)], optind := 3, device := "/dev/sdb".toList }

/-- A record of `/dev/sdb` whose last status line carries the largest pass
count of 64 bits. -/
def record_last_pass : List Char :=
  ("[/dev/sdb] devicename=/dev/sdb\n" ++
   "[/dev/sdb] starttime=Thu Oct  8 12:34:56 2015\n" ++
   "[/dev/sdb] block_size=512\n" ++
   "[/dev/sdb] block_writes=1\n" ++
   "[/dev/sdb] buffer_size=512\n" ++
   "[/dev/sdb] stats:1024:18446744073709551615:wrbw=0.512 MB/s:rdbw=0.512 MB/s\n").toList

/-! ## Bandwidth meter: properties -/

/-- Subtraction of `uint64_t` values without borrow. -/
theorem sub64_of_le {a b : Nat} (hab : b ≤ a) (ha : a < 2^64) : sub64 a b = a - b := by
  unfold sub64
  have hb : b < 2^64 := lt_of_le_of_lt hab ha
  rw [Nat.mod_eq_of_lt ha, Nat.mod_eq_of_lt hb]
  have : a + 2^64 - b = (a - b) + 2^64 := by omega
  rw [this, Nat.add_mod_right, Nat.mod_eq_of_lt (by omega)]

/-- A microsecond count is a `uint64_t`. -/
theorem usecs_lt (tv : timeval) : usecs tv < 2^64 := Nat.mod_lt _ (by norm_num)

/-- Claim C8, as amended: a start call with byte count `b0` at time `tv1` then a
stop call with byte count `b1` at time `tv2` records `result_bytes = b1 - b0`
and `result_usecs = t2 - t1`, returns 0 when either is 0, and otherwise returns
`((b1 - b0) * 1000000 mod 2^64) / (t2 - t1)`, which is
`floor((b1 - b0) * 1000000 / (t2 - t1))` whenever the product fits 64 bits. -/
theorem measurebw_rate (bwt : bwt_t) (b0 b1 : Nat) (tv1 tv2 : timeval)
    (hb : b0 ≤ b1) (hb1 : b1 < 2^64) (ht : usecs tv1 ≤ usecs tv2) :
    (measurebw 0 b1 (measurebw 1 b0 bwt tv1).2 tv2).2.result_bytes = b1 - b0 ∧
    (measurebw 0 b1 (measurebw 1 b0 bwt tv1).2 tv2).2.result_usecs = usecs tv2 - usecs tv1 ∧
    (b1 - b0 = 0 ∨ usecs tv2 - usecs tv1 = 0 →
      (measurebw 0 b1 (measurebw 1 b0 bwt tv1).2 tv2).1 = 0) ∧
    (0 < b1 - b0 → 0 < usecs tv2 - usecs tv1 →
      (measurebw 0 b1 (measurebw 1 b0 bwt tv1).2 tv2).1 =
        ((b1 - b0) * 1000000) % 2^64 / (usecs tv2 - usecs tv1)) ∧
    (0 < b1 - b0 → 0 < usecs tv2 - usecs tv1 → (b1 - b0) * 1000000 < 2^64 →
      (measurebw 0 b1 (measurebw 1 b0 bwt tv1).2 tv2).1 =
        (b1 - b0) * 1000000 / (usecs tv2 - usecs tv1)) := by
  have e1 : sub64 b1 b0 = b1 - b0 := sub64_of_le hb hb1
  have e2 : sub64 (usecs tv2) (usecs tv1) = usecs tv2 - usecs tv1 := sub64_of_le ht (usecs_lt tv2)
  have key : measurebw 0 b1 (measurebw 1 b0 bwt tv1).2 tv2 =
      (if b1 - b0 = 0 ∨ usecs tv2 - usecs tv1 = 0 then 0
        else ((b1 - b0) * 1000000) % 2^64 / (usecs tv2 - usecs tv1),
       { start_tv := tv1, start_bytes := b0, result_bytes := b1 - b0,
         result_usecs := usecs tv2 - usecs tv1 }) := by
    simp only [measurebw, ne_eq, one_ne_zero, not_false_eq_true, ↓reduceIte, not_true_eq_false,
      e1, e2]
    split <;> rfl
  rw [key]
  refine ⟨rfl, rfl, ?_, ?_, ?_⟩
  · intro h
    simp only [if_pos h]
  · intro h1 h2
    simp only [if_neg (show ¬ (b1 - b0 = 0 ∨ usecs tv2 - usecs tv1 = 0) by omega)]
  · intro h1 h2 h3
    simp only [if_neg (show ¬ (b1 - b0 = 0 ∨ usecs tv2 - usecs tv1 = 0) by omega),
      Nat.mod_eq_of_lt h3]

set_option maxRecDepth 1000000 in
/-- Witness of `measurebw_rate`: 1 MiB in half a second is 2097152 bytes per
second. -/
theorem measurebw_rate_witness :
    (measurebw 0 1048576 (measurebw 1 0 ⟨⟨0, 0⟩, 0, 0, 0⟩ ⟨10, 0⟩).2 ⟨10, 500000⟩).1
      = 2097152 := by
  have h := (measurebw_rate ⟨⟨0, 0⟩, 0, 0, 0⟩ 0 1048576 ⟨10, 0⟩ ⟨10, 500000⟩
    (by decide) (by decide) (by decide)).2.2.2.2 (by decide) (by decide) (by decide)
  rw [h]; decide

set_option maxRecDepth 1000000 in
/-- Claim C8 fails as stated: for a byte delta of `2^45` over one second the
product wraps at 64 bits and the returned rate is not the quotient, although
the quotient fits 64 bits. -/
theorem measurebw_rate_overflow :
    (measurebw 0 (2^45) (measurebw 1 0 ⟨⟨0, 0⟩, 0, 0, 0⟩ ⟨10, 0⟩).2 ⟨11, 0⟩).1 = 16737628015122
    ∧ (2^45 - 0) * 1000000 / (usecs ⟨11, 0⟩ - usecs ⟨10, 0⟩) = 35184372088832
    ∧ 35184372088832 < 2^64
    ∧ (measurebw 0 (2^45) (measurebw 1 0 ⟨⟨0, 0⟩, 0, 0, 0⟩ ⟨10, 0⟩).2 ⟨11, 0⟩).1 ≠
        (2^45 - 0) * 1000000 / (usecs ⟨11, 0⟩ - usecs ⟨10, 0⟩) := by
  decide

/-! ## Geometry prober: properties -/

/-- The info dump leaves the buffer size alone. -/
theorem dump_info_buffer_size {σ : Type} (E : env) (g : globals_t) (w : world σ) :
    (dump_info E g w).1.buffer_size = g.buffer_size := by
  simp [dump_info, sdlog]

/-- The info dump leaves the device information alone. -/
theorem dump_info_di {σ : Type} (E : env) (g : globals_t) (w : world σ) :
    (dump_info E g w).1.di = g.di := by
  simp [dump_info, sdlog]

/-- What the sizing step computes from the device size and the buffer size. -/
theorem device_sizing_spec (g : globals_t) (hbuf : g.buffer_size < 2^32) :
    (g.di.size < (if g.buffer_size = 0 then DEFAULT_BUFFER_SIZE else g.buffer_size) →
        (device_sizing g).block_size = g.di.size ∧ (device_sizing g).buffer_size = g.di.size ∧
        (device_sizing g).block_writes = 1) ∧
    (¬ g.di.size < (if g.buffer_size = 0 then DEFAULT_BUFFER_SIZE else g.buffer_size) →
        (device_sizing g).block_size =
          (if g.buffer_size = 0 then DEFAULT_BUFFER_SIZE else g.buffer_size) ∧
        (device_sizing g).buffer_size =
          (if g.buffer_size = 0 then DEFAULT_BUFFER_SIZE else g.buffer_size) ∧
        (device_sizing g).block_writes =
          (g.di.size / (if g.buffer_size = 0 then DEFAULT_BUFFER_SIZE else g.buffer_size))
            % 2^32) := by
  have hB : (if g.buffer_size = 0 then DEFAULT_BUFFER_SIZE else g.buffer_size) < 2^32 := by
    split
    · decide
    · exact hbuf
  by_cases h0 : g.buffer_size = 0
  · simp only [h0, ↓reduceIte] at hB ⊢
    refine ⟨fun hlt => ?_, fun hge => ?_⟩
    · have hD : g.di.size % 2^32 = g.di.size := Nat.mod_eq_of_lt (by omega)
      simp [device_sizing, h0, hlt, hD]
      omega
    · simp [device_sizing, h0, hge]
  · simp only [h0, ↓reduceIte] at hB ⊢
    refine ⟨fun hlt => ?_, fun hge => ?_⟩
    · have hD : g.di.size % 2^32 = g.di.size := Nat.mod_eq_of_lt (by omega)
      simp [device_sizing, h0, hlt, hD]
      omega
    · simp [device_sizing, h0, hge]

/-- The sizing step on globals whose buffer size is `B0` and whose device size
is `D`. -/
theorem device_sizing_of (g1 : globals_t) (B0 D : Nat) (hbuf : B0 < 2^32)
    (hb : g1.buffer_size = B0) (hd : g1.di.size = D) :
    (D < (if B0 = 0 then DEFAULT_BUFFER_SIZE else B0) →
        (device_sizing g1).block_size = D ∧ (device_sizing g1).buffer_size = D ∧
        (device_sizing g1).block_writes = 1) ∧
    (¬ D < (if B0 = 0 then DEFAULT_BUFFER_SIZE else B0) →
        (device_sizing g1).block_size = (if B0 = 0 then DEFAULT_BUFFER_SIZE else B0) ∧
        (device_sizing g1).buffer_size = (if B0 = 0 then DEFAULT_BUFFER_SIZE else B0) ∧
        (device_sizing g1).block_writes =
          (D / (if B0 = 0 then DEFAULT_BUFFER_SIZE else B0)) % 2^32 ∧
        (D / (if B0 = 0 then DEFAULT_BUFFER_SIZE else B0) < 2^32 →
          (device_sizing g1).block_writes = D / (if B0 = 0 then DEFAULT_BUFFER_SIZE else B0))) := by
  subst hb hd
  have key := device_sizing_spec g1 hbuf
  refine ⟨key.1, fun hge => ⟨(key.2 hge).1, (key.2 hge).2.1, (key.2 hge).2.2, fun hq => ?_⟩⟩
  rw [(key.2 hge).2.2]
  exact Nat.mod_eq_of_lt hq

/-- Claim C2, as amended: with `D` the device capacity (64 bit) and `B` the
effective buffer size (the override if non-zero, else 128 MiB), `device_setup`
succeeds on a device that opens and leaves: if `D < B`, `block_size = D`,
`buffer_size = D`, `block_writes = 1`; otherwise `block_size = buffer_size = B`
and `block_writes = floor(D / B) mod 2^32`, which is `floor(D / B)` whenever
that quotient fits the 32-bit field. -/
theorem device_setup_sizing {σ : Type} (E : env) (g : globals_t) (w : world σ)
    (hopen : E.dev_open_ok = true) (hbuf : g.buffer_size < 2^32) :
    ∃ g1 w1, device_setup E g w = Except.ok (g1, w1) ∧
      ((E.di.size % 2^64 < (if g.buffer_size = 0 then DEFAULT_BUFFER_SIZE else g.buffer_size) →
          g1.block_size = E.di.size % 2^64 ∧ g1.buffer_size = E.di.size % 2^64 ∧
          g1.block_writes = 1) ∧
       (¬ E.di.size % 2^64 < (if g.buffer_size = 0 then DEFAULT_BUFFER_SIZE else g.buffer_size) →
          g1.block_size = (if g.buffer_size = 0 then DEFAULT_BUFFER_SIZE else g.buffer_size) ∧
          g1.buffer_size = (if g.buffer_size = 0 then DEFAULT_BUFFER_SIZE else g.buffer_size) ∧
          g1.block_writes = (E.di.size % 2^64 /
            (if g.buffer_size = 0 then DEFAULT_BUFFER_SIZE else g.buffer_size)) % 2^32 ∧
          (E.di.size % 2^64 /
              (if g.buffer_size = 0 then DEFAULT_BUFFER_SIZE else g.buffer_size) < 2^32 →
            g1.block_writes = E.di.size % 2^64 /
              (if g.buffer_size = 0 then DEFAULT_BUFFER_SIZE else g.buffer_size)))) := by
  unfold device_setup
  simp only [hopen, Bool.not_true, Bool.false_eq_true, ↓reduceIte]
  refine ⟨_, _, rfl, ?_⟩
  apply device_sizing_of _ _ _ hbuf
  · by_cases hd : g.dumpinfo = 0 <;> by_cases ho : E.di.opt_io_size = 0 <;>
      simp [hd, ho, dump_info_buffer_size]
  · by_cases hd : g.dumpinfo = 0 <;> by_cases ho : E.di.opt_io_size = 0 <;>
      simp [hd, ho, dump_info_di]

set_option maxRecDepth 1000000 in
/-- Witness of `device_setup_sizing`: a 4 MiB device with a 1 MiB buffer gives
blocks of 1 MiB, four of them. -/
theorem device_setup_sizing_witness :
    ∃ g1 w1, device_setup (demo_env 4194304 no_files) (globals_buffer 1048576)
        (demo_world 0) = Except.ok (g1, w1) ∧ g1.block_size = 1048576 ∧ g1.block_writes = 4 := by
  obtain ⟨g1, w1, h, _, h2⟩ := device_setup_sizing (demo_env 4194304 no_files)
    (globals_buffer 1048576) (demo_world 0) rfl (by decide)
  have h3 := h2 (by decide)
  exact ⟨g1, w1, h, h3.1, by rw [h3.2.2.2 (by decide)]; decide⟩

set_option maxRecDepth 1000000 in
/-- Claim C2 fails as stated: a device of `2^52` bytes with a 1 MiB buffer has
`floor(D / B) = 2^32` blocks, and `device_setup` leaves `block_writes = 0`. -/
theorem device_setup_block_writes_truncated :
    (device_setup (demo_env (2^52) no_files) (globals_buffer 1048576)
        (demo_world 0)).toOption.map (fun r => (r.1.block_size, r.1.block_writes))
      = some (1048576, 0) ∧
    ¬ (2^52 < 1048576) ∧ 2^52 / 1048576 = 4294967296 := by
  decide

/-! ## Command line: properties -/

/-- The option loop over a concatenation. -/
theorem parse_opts_append (g : globals_t) (xs ys : List (Char × List Char)) :
    parse_opts g (xs ++ ys) =
      match parse_opts g xs with
      | Except.error e => Except.error e
      | Except.ok g1 => parse_opts g1 ys := by
  induction xs generalizing g with
  | nil => rfl
  | cons x xs ih =>
    obtain ⟨c, a⟩ := x
    simp only [List.cons_append, parse_opts]
    cases parse_opt g c a with
    | error e => rfl
    | ok g1 => exact ih g1

/-- Only the option `b` touches the buffer size. -/
theorem parse_opt_buffer_size (g g1 : globals_t) (c : Char) (a : List Char) (hc : c ≠ 'b')
    (h : parse_opt g c a = Except.ok g1) : g1.buffer_size = g.buffer_size := by
  unfold parse_opt at h
  simp only [hc, ↓reduceIte] at h
  repeat' split at h
  all_goals first
    | (cases h; rfl)
    | cases h

/-- Only the option `t` touches the test type. -/
theorem parse_opt_test_type (g g1 : globals_t) (c : Char) (a : List Char) (hc : c ≠ 't')
    (h : parse_opt g c a = Except.ok g1) : g1.test_type = g.test_type := by
  unfold parse_opt at h
  simp only [hc, ↓reduceIte] at h
  repeat' split at h
  all_goals first
    | (cases h; rfl)
    | cases h

/-- Options other than `b` leave the buffer size alone. -/
theorem parse_opts_buffer_size (opts : List (Char × List Char)) (g g1 : globals_t)
    (hno : ∀ o ∈ opts, o.1 ≠ 'b') (h : parse_opts g opts = Except.ok g1) :
    g1.buffer_size = g.buffer_size := by
  induction opts generalizing g with
  | nil => cases h; rfl
  | cons x xs ih =>
    obtain ⟨c, a⟩ := x
    simp only [parse_opts] at h
    cases hp : parse_opt g c a with
    | error e => rw [hp] at h; cases h
    | ok g2 =>
      rw [hp] at h
      rw [ih g2 (fun o ho => hno o (List.mem_cons_of_mem _ ho)) h]
      exact parse_opt_buffer_size g g2 c a (hno (c, a) (List.mem_cons_self _ _)) hp

/-- Options other than `t` leave the test type alone. -/
theorem parse_opts_test_type (opts : List (Char × List Char)) (g g1 : globals_t)
    (hno : ∀ o ∈ opts, o.1 ≠ 't') (h : parse_opts g opts = Except.ok g1) :
    g1.test_type = g.test_type := by
  induction opts generalizing g with
  | nil => cases h; rfl
  | cons x xs ih =>
    obtain ⟨c, a⟩ := x
    simp only [parse_opts] at h
    cases hp : parse_opt g c a with
    | error e => rw [hp] at h; cases h
    | ok g2 =>
      rw [hp] at h
      rw [ih g2 (fun o ho => hno o (List.mem_cons_of_mem _ ho)) h]
      exact parse_opt_test_type g g2 c a (hno (c, a) (List.mem_cons_self _ _)) hp

/-- The buffer size after the option loop is that of the last option `b`. -/
theorem parse_opts_last_b (pre post : List (Char × List Char)) (arg : List Char)
    (g g1 : globals_t) (hpost : ∀ o ∈ post, o.1 ≠ 'b')
    (h : parse_opts g (pre ++ ('b', arg) :: post) = Except.ok g1) :
    g1.buffer_size = strtoul arg % 2^32 := by
  rw [parse_opts_append] at h
  cases hp : parse_opts g pre with
  | error e => rw [hp] at h; cases h
  | ok g2 =>
    rw [hp] at h
    simp only [parse_opts] at h
    have hb : parse_opt g2 'b' arg = Except.ok { g2 with buffer_size := strtoul arg % 2^32 } := by
      simp [parse_opt]
    rw [hb] at h
    rw [parse_opts_buffer_size post _ g1 hpost h]

/-- The test type after the option loop is that of the last option `t`. -/
theorem parse_opts_last_t (pre post : List (Char × List Char)) (arg : List Char)
    (g g1 : globals_t) (hpost : ∀ o ∈ post, o.1 ≠ 't')
    (h : parse_opts g (pre ++ ('t', arg) :: post) = Except.ok g1) :
    g1.test_type =
      (if arg.head? = some 'z' then ZERO else if arg.head? = some 'r' then RAND else 0) := by
  rw [parse_opts_append] at h
  cases hp : parse_opts g pre with
  | error e => rw [hp] at h; cases h
  | ok g2 =>
    rw [hp] at h
    simp only [parse_opts] at h
    have hb : parse_opt g2 't' arg = Except.ok { g2 with test_type :=
        (if arg.head? = some 'z' then ZERO else if arg.head? = some 'r' then RAND else 0) } := by
      simp [parse_opt]
    rw [hb] at h
    rw [parse_opts_test_type post _ g1 hpost h]

/-- The modulo of the buffer size is 1 MiB. -/
theorem buffer_modulo_eq : DEFAULT_BUFFER_MODULO = 1048576 := by decide

/-- The `switch` exits only through the usage text. -/
theorem parse_opt_error (g : globals_t) (c : Char) (a : List Char) (e : fatal)
    (h : parse_opt g c a = Except.error e) : e = fatal.usage := by
  unfold parse_opt at h
  repeat' split at h
  all_goals first
    | (cases h; rfl)
    | cases h

/-- The option loop exits only through the usage text. -/
theorem parse_opts_error (opts : List (Char × List Char)) (g : globals_t) (e : fatal)
    (h : parse_opts g opts = Except.error e) : e = fatal.usage := by
  induction opts generalizing g with
  | nil => cases h
  | cons x xs ih =>
    obtain ⟨c, a⟩ := x
    simp only [parse_opts] at h
    cases hp : parse_opt g c a with
    | error e1 =>
      rw [hp] at h
      cases h
      exact parse_opt_error g c a _ hp
    | ok g2 =>
      rw [hp] at h
      exact ih g2 h

/-- What `parse_cmdline` returns when it returns. -/
theorem parse_cmdline_ok (g g1 : globals_t) (cl : cmdline)
    (h : parse_cmdline g cl = Except.ok g1) :
    ∃ g0, parse_opts g cl.opts = Except.ok g0 ∧ g1 = { g0 with devicename := cl.device } ∧
      g0.buffer_size % DEFAULT_BUFFER_MODULO = 0 := by
  unfold parse_cmdline at h
  split at h
  · cases h
  · cases hp : parse_opts g cl.opts with
    | error e => rw [hp] at h; cases h
    | ok g0 =>
      rw [hp] at h
      simp only at h
      split at h
      · cases h
      · split at h
        · cases h
        · rename_i hm
          cases h
          exact ⟨g0, rfl, rfl, by simpa using hm⟩

/-- Claim C10: when the last buffer-size option on the command line carries the
value `v` (as `strtoul` returns it; the 32-bit field stores `v mod 2^32`, which
has the same remainder modulo 1048576) and `v` is not a multiple of 1048576,
`parse_cmdline` exits, and `main` ends with status -1 in the unchanged world:
no device call has been made.  When `v` is a multiple of 1048576,
`parse_cmdline` does not exit on the buffer-size check. -/
theorem parse_cmdline_buffer_modulo {σ : Type} (cl : cmdline)
    (pre post : List (Char × List Char)) (arg : List Char)
    (hopts : cl.opts = pre ++ ('b', arg) :: post) (hpost : ∀ o ∈ post, o.1 ≠ 'b') :
    strtoul arg % 2^32 % 1048576 = strtoul arg % 1048576 ∧
    (strtoul arg % 1048576 ≠ 0 →
      (∃ e, parse_cmdline globals_zero cl = Except.error e) ∧
      ∀ (fuel : Nat) (E : env) (D : device σ) (euid : Nat) (w : world σ),
        main fuel E D euid cl w = some (-1, globals_zero, w)) ∧
    (strtoul arg % 1048576 = 0 →
      parse_cmdline globals_zero cl ≠ Except.error fatal.bad_buffer_size) := by
  have hmod : strtoul arg % 2^32 % 1048576 = strtoul arg % 1048576 :=
    Nat.mod_mod_of_dvd _ (by norm_num)
  refine ⟨hmod, fun hv => ?_, fun hv => ?_⟩
  · have herr : ∃ e, parse_cmdline globals_zero cl = Except.error e := by
      cases hp : parse_cmdline globals_zero cl with
      | error e => exact ⟨e, rfl⟩
      | ok g1 =>
        obtain ⟨g0, h0, _, hm⟩ := parse_cmdline_ok _ _ _ hp
        rw [hopts] at h0
        rw [parse_opts_last_b pre post arg _ _ hpost h0, buffer_modulo_eq, hmod] at hm
        exact absurd hm hv
    refine ⟨herr, fun fuel E D euid w => ?_⟩
    obtain ⟨e, he⟩ := herr
    unfold main
    rw [he]
    split <;> rfl
  · intro hbad
    unfold parse_cmdline at hbad
    split at hbad
    · cases hbad
    · cases hp : parse_opts globals_zero cl.opts with
      | error e =>
        rw [hp] at hbad
        have := parse_opts_error _ _ _ hp
        simp only at hbad
        cases hbad
        cases this
      | ok g0 =>
        rw [hp] at hbad
        simp only at hbad
        have hb : g0.buffer_size = strtoul arg % 2^32 := by
          rw [hopts] at hp
          exact parse_opts_last_b pre post arg _ _ hpost hp
        split at hbad
        · cases hbad
        · rw [if_neg] at hbad
          · cases hbad
          · simp only [hb, buffer_modulo_eq]
            omega

set_option maxRecDepth 1000000 in
/-- Witness of `parse_cmdline_buffer_modulo`: the override 1000000 is refused
before any device call. -/
theorem parse_cmdline_buffer_modulo_witness :
    main 10 (demo_env 4194304 no_files) (scripted_device (fun _ => [])) 0
      cmdline_bad_buffer (demo_world 0) = some (-1, globals_zero, demo_world 0) :=
  ((@parse_cmdline_buffer_modulo Nat cmdline_bad_buffer [('t', "z".toList)] []
      "1000000".toList rfl (by simp)).2.1 (by decide)).2 10 _ _ 0 _

/-! ## Setup stages: what they leave alone -/

/-- Counting writes in a trace that grows. -/
theorem count_writes_append (a b : List io_op) :
    count_writes (a ++ b) = count_writes a + count_writes b := by
  simp [count_writes]

/-- Counting reads in a trace that grows. -/
theorem count_reads_append (a b : List io_op) :
    count_reads (a ++ b) = count_reads a + count_reads b := by
  simp [count_reads]

/-- The info dump issues no device call. -/
theorem dump_info_ops {σ : Type} (E : env) (g : globals_t) (w : world σ) :
    (dump_info E g w).2.ops = w.ops := by
  simp [dump_info, sdlog]

/-- The info dump leaves the test type alone. -/
theorem dump_info_test_type {σ : Type} (E : env) (g : globals_t) (w : world σ) :
    (dump_info E g w).1.test_type = g.test_type := by
  simp [dump_info, sdlog]

/-- The geometry prober opens and closes the device and keeps the test type. -/
theorem device_setup_frame {σ : Type} (E : env) (g : globals_t) (w : world σ)
    (s : globals_t × world σ) (h : device_setup E g w = Except.ok s) :
    s.1.test_type = g.test_type ∧ s.2.ops = w.ops ++ [io_op.dev_open, io_op.close] := by
  unfold device_setup at h
  split at h
  · cases h
  · cases h
    by_cases hd : g.dumpinfo = 0 <;> by_cases ho : E.di.opt_io_size = 0 <;>
      simp [hd, ho, device_sizing, dump_info_ops, dump_info_test_type, apply_ite]

/-- The function `get_previous_counts` issues no device call and keeps the test type. -/
theorem get_previous_counts_frame {σ : Type} (E : env) (g : globals_t) (w : world σ)
    (s : globals_t × world σ) (h : get_previous_counts E g w = Except.ok s) :
    s.1.test_type = g.test_type ∧ s.2.ops = w.ops := by
  unfold get_previous_counts at h
  split at h
  · cases h
  · simp only at h
    split at h
    · cases h; exact ⟨rfl, rfl⟩
    · split at h
      · cases h
      · split at h
        · cases h
        · cases h
          simp [sdlog]

/-- The progress store issues no device call and keeps the test type. -/
theorem stats_log_setup_frame {σ : Type} (E : env) (g : globals_t) (w : world σ)
    (s : globals_t × world σ) (h : stats_log_setup E g w = Except.ok s) :
    s.1.test_type = g.test_type ∧ s.2.ops = w.ops := by
  unfold stats_log_setup at h
  cases hm : mklogname g with
  | error e => rw [hm] at h; cases h
  | ok g1 =>
    rw [hm] at h
    have hg1 : g1.test_type = g.test_type := by
      unfold mklogname at hm
      split at hm
      · cases hm
      · cases hm; rfl
    simp only at h
    split at h
    · split at h
      · cases h
      · have := get_previous_counts_frame E _ w s h
        exact ⟨by rw [this.1, hg1], this.2⟩
    · split at h
      · cases h
      · cases h
        simp [sdlog, gettime, hg1]

/-! ## Test type: what the stages and the engine do with it -/

/-- The fields of globals with another test type. -/
theorem with_test_type_fields (t : Nat) (g : globals_t) :
    (with_test_type t g).buffer_bw = g.buffer_bw ∧
    (with_test_type t g).block_size = g.block_size ∧
    (with_test_type t g).block_writes = g.block_writes ∧
    (with_test_type t g).written_total = g.written_total ∧
    (with_test_type t g).pass_count = g.pass_count ∧
    (with_test_type t g).quitpasses = g.quitpasses ∧
    (with_test_type t g).verbose = g.verbose ∧
    (with_test_type t g).devicename = g.devicename ∧
    (with_test_type t g).test_type = t := by
  cases g
  exact ⟨rfl, rfl, rfl, rfl, rfl, rfl, rfl, rfl, rfl⟩

/-- Replacing the test type twice. -/
theorem with_test_type_twice (t u : Nat) (g : globals_t) :
    with_test_type t (with_test_type u g) = with_test_type t g := by
  cases g; rfl

/-- A log call does not look at the test type. -/
theorem sdlog_test_type {σ : Type} (t : Nat) (E : env) (g : globals_t) (w : world σ)
    (msg : List Char) :
    sdlog E (with_test_type t g) w msg =
      (with_test_type t (sdlog E g w msg).1, (sdlog E g w msg).2) := by
  cases g
  simp only [sdlog, sdmsg, with_test_type]

/-- The verbose report does not look at the test type. -/
theorem verbose_log_test_type {σ : Type} (t : Nat) (E : env) (g : globals_t) (w : world σ)
    (a b : Nat) (tag : List Char) (rate : Nat) :
    verbose_log E (with_test_type t g) w a b tag rate =
      (with_test_type t (verbose_log E g w a b tag rate).1,
       (verbose_log E g w a b tag rate).2) := by
  obtain ⟨_, _, _, hw, hp, _, hv, _⟩ := with_test_type_fields t g
  unfold verbose_log
  rw [hv, hw, hp]
  split
  · simp only [sdlog_test_type, (with_test_type_fields t _).1]
  · rfl

/-- The shape of a measured write: the rate, the timer and the world depend on
the globals only through the timer, the block size and the byte counter. -/
theorem timed_write_shape {σ : Type} (E : env) (D : device σ) (g : globals_t)
    (w : world σ) (wbuf : List Nat) :
    ∃ (r : Nat) (X : bwt_t) (w1 : world σ), ∀ g1 : globals_t,
      g1.buffer_bw = g.buffer_bw → g1.block_size = g.block_size →
      g1.written_total = g.written_total →
      timed_write E D g1 w wbuf =
        (r, { g1 with buffer_bw := X,
                      written_total := (g1.written_total + g1.block_size) % 2^64 }, w1) := by
  refine ⟨(measurebw 0 g.block_size (measurebw 1 0 g.buffer_bw (gettimeofday E w).1).2
      (gettimeofday E (dev_write D (gettimeofday E w).2 wbuf g.block_size)).1).1,
    (measurebw 0 g.block_size (measurebw 1 0 g.buffer_bw (gettimeofday E w).1).2
      (gettimeofday E (dev_write D (gettimeofday E w).2 wbuf g.block_size)).1).2,
    (gettimeofday E (dev_write D (gettimeofday E w).2 wbuf g.block_size)).2,
    fun g1 h1 h2 h3 => ?_⟩
  unfold timed_write
  rw [h1, h2, h3]

/-- The shape of a measured read: the rate, the data, the timer and the world
depend on the globals only through the timer and the block size. -/
theorem timed_read_shape {σ : Type} (E : env) (D : device σ) (g : globals_t)
    (w : world σ) :
    ∃ (r : Nat) (buf : List Nat) (X : bwt_t) (w1 : world σ), ∀ g1 : globals_t,
      g1.buffer_bw = g.buffer_bw → g1.block_size = g.block_size →
      timed_read E D g1 w = (r, buf, { g1 with buffer_bw := X }, w1) := by
  refine ⟨(measurebw 0 g.block_size (measurebw 1 0 g.buffer_bw (gettimeofday E w).1).2
      (gettimeofday E (dev_read D (gettimeofday E w).2 g.block_size).2).1).1,
    (dev_read D (gettimeofday E w).2 g.block_size).1,
    (measurebw 0 g.block_size (measurebw 1 0 g.buffer_bw (gettimeofday E w).1).2
      (gettimeofday E (dev_read D (gettimeofday E w).2 g.block_size).2).1).2,
    (gettimeofday E (dev_read D (gettimeofday E w).2 g.block_size).2).2,
    fun g1 h1 h2 => ?_⟩
  unfold timed_read
  rw [h1, h2]

/-- The measured write with one test type and with another: the same rate,
the same world, globals that differ in the test type only. -/
theorem timed_write_both {σ : Type} (t : Nat) (E : env) (D : device σ) (g : globals_t)
    (w : world σ) (wbuf : List Nat) :
    ∃ (r : Nat) (G : globals_t) (w1 : world σ),
      timed_write E D g w wbuf = (r, G, w1) ∧
      timed_write E D (with_test_type t g) w wbuf = (r, with_test_type t G, w1) := by
  obtain ⟨r, X, w1, h⟩ := timed_write_shape E D g w wbuf
  obtain ⟨f1, f2, _, f4, _⟩ := with_test_type_fields t g
  refine ⟨r, _, w1, h g rfl rfl rfl, ?_⟩
  rw [h (with_test_type t g) f1 f2 f4]
  cases g
  rfl

/-- The measured read with one test type and with another: the same rate, the
same data, the same world, globals that differ in the test type only. -/
theorem timed_read_both {σ : Type} (t : Nat) (E : env) (D : device σ) (g : globals_t)
    (w : world σ) :
    ∃ (r : Nat) (buf : List Nat) (G : globals_t) (w1 : world σ),
      timed_read E D g w = (r, buf, G, w1) ∧
      timed_read E D (with_test_type t g) w = (r, buf, with_test_type t G, w1) := by
  obtain ⟨r, buf, X, w1, h⟩ := timed_read_shape E D g w
  obtain ⟨f1, f2, _⟩ := with_test_type_fields t g
  refine ⟨r, buf, _, w1, h g rfl rfl, ?_⟩
  rw [h (with_test_type t g) f1 f2]
  cases g
  rfl

/-- The verbose report does not look at the test type, by components. -/
theorem verbose_log_test_type_parts {σ : Type} (t : Nat) (E : env) (g : globals_t)
    (w : world σ) (a b : Nat) (tag : List Char) (rate : Nat) :
    (verbose_log E (with_test_type t g) w a b tag rate).1 =
      with_test_type t (verbose_log E g w a b tag rate).1 ∧
    (verbose_log E (with_test_type t g) w a b tag rate).2 =
      (verbose_log E g w a b tag rate).2 := by
  rw [verbose_log_test_type]
  generalize verbose_log E g w a b tag rate = X
  exact ⟨rfl, rfl⟩

/-- A log call does not look at the test type, by components. -/
theorem sdlog_test_type_parts {σ : Type} (t : Nat) (E : env) (g : globals_t) (w : world σ)
    (msg : List Char) :
    (sdlog E (with_test_type t g) w msg).1 = with_test_type t (sdlog E g w msg).1 ∧
    (sdlog E (with_test_type t g) w msg).2 = (sdlog E g w msg).2 := by
  rw [sdlog_test_type]
  generalize sdlog E g w msg = X
  exact ⟨rfl, rfl⟩

/-- The fields of a state with another test type. -/
theorem state_with_test_type_fields {σ : Type} (t : Nat) (s : test_state σ) :
    (state_with_test_type t s).pc = s.pc ∧
    (state_with_test_type t s).g = with_test_type t s.g ∧
    (state_with_test_type t s).w = s.w ∧
    (state_with_test_type t s).rc = s.rc ∧
    (state_with_test_type t s).index = s.index ∧
    (state_with_test_type t s).pass_wrbps = s.pass_wrbps ∧
    (state_with_test_type t s).pass_rdbps = s.pass_rdbps ∧
    (state_with_test_type t s).buffer_wrbps1 = s.buffer_wrbps1 ∧
    (state_with_test_type t s).buffer_wrbps2 = s.buffer_wrbps2 ∧
    (state_with_test_type t s).buffer_rdbps1 = s.buffer_rdbps1 ∧
    (state_with_test_type t s).buffer_rdbps2 = s.buffer_rdbps2 ∧
    (state_with_test_type t s).rbuf = s.rbuf ∧
    (state_with_test_type t s).wbuf = s.wbuf := by
  cases s
  exact ⟨rfl, rfl, rfl, rfl, rfl, rfl, rfl, rfl, rfl, rfl, rfl, rfl, rfl⟩

/-- Two states with the same fields are the same. -/
theorem test_state_ext {σ : Type} (a b : test_state σ)
    (h1 : a.pc = b.pc) (h2 : a.g = b.g) (h3 : a.w = b.w) (h4 : a.rc = b.rc)
    (h5 : a.index = b.index) (h6 : a.pass_wrbps = b.pass_wrbps)
    (h7 : a.pass_rdbps = b.pass_rdbps) (h8 : a.buffer_wrbps1 = b.buffer_wrbps1)
    (h9 : a.buffer_wrbps2 = b.buffer_wrbps2) (h10 : a.buffer_rdbps1 = b.buffer_rdbps1)
    (h11 : a.buffer_rdbps2 = b.buffer_rdbps2) (h12 : a.rbuf = b.rbuf)
    (h13 : a.wbuf = b.wbuf) : a = b := by
  cases a
  cases b
  simp only at h1 h2 h3 h4 h5 h6 h7 h8 h9 h10 h11 h12 h13
  subst h1 h2 h3 h4 h5 h6 h7 h8 h9 h10 h11 h12 h13
  rfl

/-- A step at `write_ones`, given the outcome of the measured write. -/
theorem step_write_ones_eq {σ : Type} (E : env) (D : device σ) (s : test_state σ)
    (h : s.pc = loc.write_ones) (r : Nat) (G : globals_t) (w1 : world σ)
    (e : timed_write E D s.g (dev_lseek s.w (block_offset s.index s.g.block_size))
      (List.replicate s.g.block_size 255) = (r, G, w1)) :
    step E D s =
      { s with g := (verbose_log E G w1 s.pass_wrbps s.pass_rdbps "W1".toList r).1,
               w := (verbose_log E G w1 s.pass_wrbps s.pass_rdbps "W1".toList r).2,
               wbuf := List.replicate s.g.block_size 255, buffer_wrbps1 := r,
               pc := loc.read_ones } := by
  unfold step
  simp only [h, e]

/-- A step at `write_ones` does not look at the test type. -/
theorem step_test_type_write_ones {σ : Type} (t : Nat) (E : env) (D : device σ)
    (s : test_state σ) (h : s.pc = loc.write_ones) :
    step E D (state_with_test_type t s) = state_with_test_type t (step E D s) := by
  have h1 : (state_with_test_type t s).pc = loc.write_ones := h
  obtain ⟨_, f2, f3, f4, f5, f6, f7, f8, f9, f10, f11, f12, f13⟩ :=
    state_with_test_type_fields t s
  have fb := (with_test_type_fields t s.g).2.1
  obtain ⟨r, G, w1, e1, e2⟩ := timed_write_both t E D s.g
    (dev_lseek s.w (block_offset s.index s.g.block_size)) (List.replicate s.g.block_size 255)
  rw [step_write_ones_eq E D s h r G w1 e1]
  rw [step_write_ones_eq E D (state_with_test_type t s) h1 r (with_test_type t G) w1
    (by rw [f2, f3, f5, fb]; exact e2)]
  rw [f2, f6, f7, fb, (verbose_log_test_type_parts t E _ _ _ _ _ _).1,
    (verbose_log_test_type_parts t E _ _ _ _ _ _).2]
  cases s
  rfl

/-- A step at `write_zeros`, given the outcome of the measured write. -/
theorem step_write_zeros_eq {σ : Type} (E : env) (D : device σ) (s : test_state σ)
    (h : s.pc = loc.write_zeros) (r : Nat) (G : globals_t) (w1 : world σ)
    (e : timed_write E D s.g (dev_lseek s.w (block_offset s.index s.g.block_size))
      (List.replicate s.g.block_size 0) = (r, G, w1)) :
    step E D s =
      { s with g := (verbose_log E G w1 s.pass_wrbps s.pass_rdbps "W2".toList r).1,
               w := (verbose_log E G w1 s.pass_wrbps s.pass_rdbps "W2".toList r).2,
               wbuf := List.replicate s.g.block_size 0, buffer_wrbps2 := r,
               pc := loc.read_zeros } := by
  unfold step
  simp only [h, e]

/-- A step at `write_zeros` does not look at the test type. -/
theorem step_test_type_write_zeros {σ : Type} (t : Nat) (E : env) (D : device σ)
    (s : test_state σ) (h : s.pc = loc.write_zeros) :
    step E D (state_with_test_type t s) = state_with_test_type t (step E D s) := by
  have h1 : (state_with_test_type t s).pc = loc.write_zeros := h
  obtain ⟨_, f2, f3, f4, f5, f6, f7, f8, f9, f10, f11, f12, f13⟩ :=
    state_with_test_type_fields t s
  have fb := (with_test_type_fields t s.g).2.1
  obtain ⟨r, G, w1, e1, e2⟩ := timed_write_both t E D s.g
    (dev_lseek s.w (block_offset s.index s.g.block_size)) (List.replicate s.g.block_size 0)
  rw [step_write_zeros_eq E D s h r G w1 e1]
  rw [step_write_zeros_eq E D (state_with_test_type t s) h1 r (with_test_type t G) w1
    (by rw [f2, f3, f5, fb]; exact e2)]
  rw [f2, f6, f7, fb, (verbose_log_test_type_parts t E _ _ _ _ _ _).1,
    (verbose_log_test_type_parts t E _ _ _ _ _ _).2]
  cases s
  rfl

/-- A step at `read_ones`, given the outcome of the measured read. -/
theorem step_read_ones_eq {σ : Type} (E : env) (D : device σ) (s : test_state σ)
    (h : s.pc = loc.read_ones) (r : Nat) (buf : List Nat) (G : globals_t) (w1 : world σ)
    (e : timed_read E D s.g (dev_lseek s.w (block_offset s.index s.g.block_size)) =
      (r, buf, G, w1)) :
    step E D s =
      if memcmp buf s.wbuf s.g.block_size then
        { s with g := (sdlog E G w1 (error_msg s.index)).1,
                 w := (sdlog E G w1 (error_msg s.index)).2,
                 rbuf := buf, buffer_rdbps1 := r, rc := -1, pc := loc.done }
      else
        { s with g := (verbose_log E G w1 s.pass_wrbps s.pass_rdbps "R1".toList r).1,
                 w := (verbose_log E G w1 s.pass_wrbps s.pass_rdbps "R1".toList r).2,
                 rbuf := buf, buffer_rdbps1 := r, pc := loc.write_zeros } := by
  unfold step
  simp only [h, e]

/-- A step at `read_ones` does not look at the test type. -/
theorem step_test_type_read_ones {σ : Type} (t : Nat) (E : env) (D : device σ)
    (s : test_state σ) (h : s.pc = loc.read_ones) :
    step E D (state_with_test_type t s) = state_with_test_type t (step E D s) := by
  have h1 : (state_with_test_type t s).pc = loc.read_ones := h
  obtain ⟨_, f2, f3, f4, f5, f6, f7, f8, f9, f10, f11, f12, f13⟩ :=
    state_with_test_type_fields t s
  have fb := (with_test_type_fields t s.g).2.1
  obtain ⟨r, buf, G, w1, e1, e2⟩ := timed_read_both t E D s.g
    (dev_lseek s.w (block_offset s.index s.g.block_size))
  rw [step_read_ones_eq E D s h r buf G w1 e1]
  rw [step_read_ones_eq E D (state_with_test_type t s) h1 r buf (with_test_type t G) w1
    (by rw [f2, f3, f5, fb]; exact e2)]
  rw [f2, f5, f6, f7, f13, fb, (verbose_log_test_type_parts t E _ _ _ _ _ _).1,
    (verbose_log_test_type_parts t E _ _ _ _ _ _).2, (sdlog_test_type_parts t E _ _ _).1,
    (sdlog_test_type_parts t E _ _ _).2]
  cases s
  split <;> rfl

/-- A step at `read_zeros`, given the outcome of the measured read. -/
theorem step_read_zeros_eq {σ : Type} (E : env) (D : device σ) (s : test_state σ)
    (h : s.pc = loc.read_zeros) (r : Nat) (buf : List Nat) (G : globals_t) (w1 : world σ)
    (e : timed_read E D s.g (dev_lseek s.w (block_offset s.index s.g.block_size)) =
      (r, buf, G, w1)) :
    step E D s =
      if memcmp buf s.wbuf s.g.block_size then
        { s with g := (sdlog E G w1 (error_msg s.index)).1,
                 w := (sdlog E G w1 (error_msg s.index)).2,
                 rbuf := buf, buffer_rdbps2 := r, rc := -1, pc := loc.done }
      else
        { s with g := (verbose_log E G w1 s.pass_wrbps s.pass_rdbps "R2".toList r).1,
                 w := (verbose_log E G w1 s.pass_wrbps s.pass_rdbps "R2".toList r).2,
                 rbuf := buf, buffer_rdbps2 := r,
                 index := (s.index + 1) % 2^32, pc := loc.block_check } := by
  unfold step
  simp only [h, e]

/-- A step at `read_zeros` does not look at the test type. -/
theorem step_test_type_read_zeros {σ : Type} (t : Nat) (E : env) (D : device σ)
    (s : test_state σ) (h : s.pc = loc.read_zeros) :
    step E D (state_with_test_type t s) = state_with_test_type t (step E D s) := by
  have h1 : (state_with_test_type t s).pc = loc.read_zeros := h
  obtain ⟨_, f2, f3, f4, f5, f6, f7, f8, f9, f10, f11, f12, f13⟩ :=
    state_with_test_type_fields t s
  have fb := (with_test_type_fields t s.g).2.1
  obtain ⟨r, buf, G, w1, e1, e2⟩ := timed_read_both t E D s.g
    (dev_lseek s.w (block_offset s.index s.g.block_size))
  rw [step_read_zeros_eq E D s h r buf G w1 e1]
  rw [step_read_zeros_eq E D (state_with_test_type t s) h1 r buf (with_test_type t G) w1
    (by rw [f2, f3, f5, fb]; exact e2)]
  rw [f2, f5, f6, f7, f13, fb, (verbose_log_test_type_parts t E _ _ _ _ _ _).1,
    (verbose_log_test_type_parts t E _ _ _ _ _ _).2, (sdlog_test_type_parts t E _ _ _).1,
    (sdlog_test_type_parts t E _ _ _).2]
  cases s
  split <;> rfl

/-- A step at the head of a pass does not look at the test type. -/
theorem step_test_type_pass_start {σ : Type} (t : Nat) (E : env) (D : device σ)
    (s : test_state σ) (h : s.pc = loc.pass_start) :
    step E D (state_with_test_type t s) = state_with_test_type t (step E D s) := by
  have h1 : (state_with_test_type t s).pc = loc.pass_start := h
  obtain ⟨_, f2, f3, f4, f5, f6, f7, f8, f9, f10, f11, f12, f13⟩ :=
    state_with_test_type_fields t s
  obtain ⟨_, _, _, fw, fp, fq, _⟩ := with_test_type_fields t s.g
  unfold step
  simp only [h, h1]
  rw [f2, f3, f6, f7, fw, fp, (sdlog_test_type_parts t E _ _ _).1,
    (sdlog_test_type_parts t E _ _ _).2, (with_test_type_fields t _).2.2.2.2.1,
    (with_test_type_fields t _).2.2.2.2.2.1]
  cases s
  split <;> rfl

/-- A step at the test of the block loop does not look at the test type. -/
theorem step_test_type_block_check {σ : Type} (t : Nat) (E : env) (D : device σ)
    (s : test_state σ) (h : s.pc = loc.block_check) :
    step E D (state_with_test_type t s) = state_with_test_type t (step E D s) := by
  have h1 : (state_with_test_type t s).pc = loc.block_check := h
  obtain ⟨_, f2, f3, f4, f5, f6, f7, f8, f9, f10, f11, f12, f13⟩ :=
    state_with_test_type_fields t s
  unfold step
  simp only [h, h1]
  rw [f2, f5, (with_test_type_fields t s.g).2.2.1]
  cases s
  split <;> rfl

/-- A step at the end of a pass does not look at the test type. -/
theorem step_test_type_pass_end {σ : Type} (t : Nat) (E : env) (D : device σ)
    (s : test_state σ) (h : s.pc = loc.pass_end) :
    step E D (state_with_test_type t s) = state_with_test_type t (step E D s) := by
  have h1 : (state_with_test_type t s).pc = loc.pass_end := h
  unfold step
  simp only [h, h1]
  cases s with
  | mk pc g w rc index a b c d e f rbuf wbuf =>
    cases g
    rfl

/-- A step at `done` does not look at the test type. -/
theorem step_test_type_done {σ : Type} (t : Nat) (E : env) (D : device σ)
    (s : test_state σ) (h : s.pc = loc.done) :
    step E D (state_with_test_type t s) = state_with_test_type t (step E D s) := by
  have h1 : (state_with_test_type t s).pc = loc.done := h
  unfold step
  simp only [h, h1]

/-- No step of the engine looks at the test type. -/
theorem step_test_type {σ : Type} (t : Nat) (E : env) (D : device σ) (s : test_state σ) :
    step E D (state_with_test_type t s) = state_with_test_type t (step E D s) := by
  cases h : s.pc
  · exact step_test_type_pass_start t E D s h
  · exact step_test_type_block_check t E D s h
  · exact step_test_type_write_ones t E D s h
  · exact step_test_type_read_ones t E D s h
  · exact step_test_type_write_zeros t E D s h
  · exact step_test_type_read_zeros t E D s h
  · exact step_test_type_pass_end t E D s h
  · exact step_test_type_done t E D s h

/-- No run of the engine looks at the test type. -/
theorem run_test_type {σ : Type} (t : Nat) (E : env) (D : device σ) (n : Nat)
    (s : test_state σ) :
    run E D n (state_with_test_type t s) = state_with_test_type t (run E D n s) := by
  induction n generalizing s with
  | zero => rfl
  | succ n ih =>
    show run E D n (step E D (state_with_test_type t s)) =
      state_with_test_type t (run E D n (step E D s))
    rw [step_test_type, ih]

/-- The state in which the engine starts does not look at the test type. -/
theorem test_init_retype {σ : Type} (t : Nat) (E : env) (g : globals_t) (w : world σ) :
    test_init E (with_test_type t g) w = state_with_test_type t (test_init E g w) := by
  cases g
  rfl

/-- The function `device_test` does not look at the test type: with another
test type it takes the same steps and ends with the same `rc`, the same world
and globals that differ in the test type only. -/
theorem device_test_retype {σ : Type} (t : Nat) (fuel : Nat) (E : env) (D : device σ)
    (g : globals_t) (w : world σ) :
    device_test fuel E D (with_test_type t g) w =
      (device_test fuel E D g w).map (Except.map (result_with_test_type t)) := by
  unfold device_test
  simp only [test_init_retype, run_test_type, (sdlog_test_type_parts t E _ _ _).2,
    (with_test_type_fields t g).2.2.2.2.2.2.2.1]
  split
  · rfl
  · generalize run E D fuel (test_init E g
      { w with ops := w.ops ++ [io_op.dev_open], fdpos := 0 }) = s
    cases s with
    | mk pc g1 w1 rc index a b c d e f rbuf wbuf =>
      simp only [state_with_test_type]
      split <;> rfl

/-- The selector of a test-type option as a test type. -/
theorem parse_opt_selector (g : globals_t) (arg : List Char) :
    parse_opt g 't' arg = Except.ok (with_test_type
      (if arg.head? = some 'z' then ZERO else if arg.head? = some 'r' then RAND else 0) g) := by
  unfold parse_opt
  rw [if_pos rfl]
  rfl

/-- An option other than the test-type option does not look at the test type. -/
theorem parse_opt_retype (t : Nat) (g : globals_t) (c : Char) (optarg : List Char)
    (hc : c ≠ 't') :
    parse_opt (with_test_type t g) c optarg =
      (parse_opt g c optarg).map (with_test_type t) := by
  unfold parse_opt
  rw [if_neg hc, if_neg hc]
  cases g
  repeat (split; · rfl)
  rfl

/-- Options other than the test-type option do not look at the test type. -/
theorem parse_opts_retype (t : Nat) (g : globals_t) (post : List (Char × List Char))
    (hpost : ∀ o ∈ post, o.1 ≠ 't') :
    parse_opts (with_test_type t g) post = (parse_opts g post).map (with_test_type t) := by
  induction post generalizing g with
  | nil => rfl
  | cons o post ih =>
    obtain ⟨c, a⟩ := o
    have hc : c ≠ 't' := hpost (c, a) (List.mem_cons_self _ _)
    have hrest : ∀ o ∈ post, o.1 ≠ 't' := fun o ho => hpost o (List.mem_cons_of_mem _ ho)
    simp only [parse_opts]
    rw [parse_opt_retype t g c a hc]
    cases parse_opt g c a with
    | error e => rfl
    | ok g1 => exact ih g1 hrest

/-- The option loop with another selector in the last test-type option. -/
theorem parse_opts_selector (g : globals_t) (pre post : List (Char × List Char))
    (arg arg1 : List Char) (hpost : ∀ o ∈ post, o.1 ≠ 't') :
    parse_opts g (pre ++ ('t', arg1) :: post) =
      (parse_opts g (pre ++ ('t', arg) :: post)).map (with_test_type
        (if arg1.head? = some 'z' then ZERO else if arg1.head? = some 'r' then RAND else 0)) := by
  rw [parse_opts_append, parse_opts_append]
  cases parse_opts g pre with
  | error e => rfl
  | ok g2 =>
    simp only [parse_opts, parse_opt_selector]
    rw [← with_test_type_twice _
      (if arg.head? = some 'z' then ZERO else if arg.head? = some 'r' then RAND else 0) g2]
    exact parse_opts_retype _ _ post hpost

/-- The function `parse_cmdline` with another selector in the last test-type
option. -/
theorem parse_cmdline_selector (g : globals_t) (cl : cmdline)
    (pre post : List (Char × List Char)) (arg arg1 : List Char)
    (hopts : cl.opts = pre ++ ('t', arg) :: post) (hpost : ∀ o ∈ post, o.1 ≠ 't') :
    parse_cmdline g { cl with opts := pre ++ ('t', arg1) :: post } =
      (parse_cmdline g cl).map (with_test_type
        (if arg1.head? = some 'z' then ZERO else if arg1.head? = some 'r' then RAND else 0)) := by
  unfold parse_cmdline
  simp only [hopts]
  rw [parse_opts_selector g pre post arg arg1 hpost]
  split
  · rfl
  · cases parse_opts g (pre ++ ('t', arg) :: post) with
    | error e => rfl
    | ok g1 =>
      cases g1
      simp only [Except.map, with_test_type]
      split
      · rfl
      · split <;> rfl

/-- A log call does not look at the test type, as a stage. -/
theorem sdlog_retype {σ : Type} (t : Nat) (E : env) (g : globals_t) (w : world σ)
    (msg : List Char) :
    sdlog E (with_test_type t g) w msg = stage_with_test_type t (sdlog E g w msg) :=
  sdlog_test_type t E g w msg

/-- The info dump does not look at the test type. -/
theorem dump_info_retype {σ : Type} (t : Nat) (E : env) (g : globals_t) (w : world σ) :
    dump_info E (with_test_type t g) w = stage_with_test_type t (dump_info E g w) := by
  unfold dump_info
  have hd : (with_test_type t g).di = g.di := by cases g; rfl
  have hn : (with_test_type t g).devicename = g.devicename := by cases g; rfl
  simp only [hd, hn, sdlog_retype, stage_with_test_type]

/-- The sizing step does not look at the test type. -/
theorem device_sizing_retype (t : Nat) (g : globals_t) :
    device_sizing (with_test_type t g) = with_test_type t (device_sizing g) := by
  cases g
  simp only [device_sizing, with_test_type]
  split <;> split <;> rfl

/-- The components of a stage with another test type. -/
theorem stage_with_test_type_parts {σ : Type} (t : Nat) (s : globals_t × world σ) :
    (stage_with_test_type t s).1 = with_test_type t s.1 ∧
    (stage_with_test_type t s).2 = s.2 :=
  ⟨rfl, rfl⟩

/-- The function `device_setup` on a device that opens, given its
intermediate values. -/
theorem device_setup_ok {σ : Type} (E : env) (g : globals_t) (w : world σ)
    (hopen : ¬ (!E.dev_open_ok) = true) (g1 g2 : globals_t) (s3 : globals_t × world σ)
    (h1 : g1 = { g with di := { E.di with size := E.di.size % 2^64 } })
    (h2 : g2 = if g1.di.opt_io_size = 0 then
        { g1 with di := { g1.di with opt_io_size := g1.di.min_io_size } } else g1)
    (h3 : s3 = if g2.dumpinfo ≠ 0 then
        dump_info E g2 { w with ops := w.ops ++ [io_op.dev_open] }
      else (g2, { w with ops := w.ops ++ [io_op.dev_open] })) :
    device_setup E g w =
      Except.ok (device_sizing s3.1, { s3.2 with ops := s3.2.ops ++ [io_op.close] }) := by
  subst h3 h2 h1
  unfold device_setup
  rw [if_neg hopen]

/-- The function `device_setup` does not look at the test type. -/
theorem device_setup_retype {σ : Type} (t : Nat) (E : env) (g : globals_t) (w : world σ) :
    device_setup E (with_test_type t g) w =
      (device_setup E g w).map (stage_with_test_type t) := by
  have hn : (with_test_type t g).devicename = g.devicename := by cases g; rfl
  have e1 : with_test_type t { g with di := { E.di with size := E.di.size % 2^64 } } =
      ({ with_test_type t g with di := { E.di with size := E.di.size % 2^64 } } :
        globals_t) := by
    cases g; rfl
  have e2 : ∀ X : globals_t,
      with_test_type t
        (if X.di.opt_io_size = 0 then
          { X with di := { X.di with opt_io_size := X.di.min_io_size } }
         else X) =
      (if (with_test_type t X).di.opt_io_size = 0 then
        { with_test_type t X with
            di := { (with_test_type t X).di with
              opt_io_size := (with_test_type t X).di.min_io_size } }
       else with_test_type t X) := by
    intro X
    cases X
    simp only [with_test_type]
    split <;> rfl
  have e3 : ∀ (X : globals_t) (w0 : world σ),
      stage_with_test_type t (if X.dumpinfo ≠ 0 then dump_info E X w0 else (X, w0)) =
      (if (with_test_type t X).dumpinfo ≠ 0 then dump_info E (with_test_type t X) w0
       else (with_test_type t X, w0)) := by
    intro X w0
    have hd : (with_test_type t X).dumpinfo = X.dumpinfo := by cases X; rfl
    rw [hd, dump_info_retype]
    split <;> rfl
  by_cases hopen : (!E.dev_open_ok) = true
  · unfold device_setup
    rw [if_pos hopen, if_pos hopen, hn, (sdlog_test_type_parts t E _ _ _).2]
    rfl
  · rw [device_setup_ok E g w hopen _ _ _ rfl rfl rfl,
      device_setup_ok E (with_test_type t g) w hopen _ _ _ e1 (e2 _) (e3 _ _),
      (stage_with_test_type_parts t _).1, (stage_with_test_type_parts t _).2,
      device_sizing_retype]
    rfl

/-- The function `mklogname` does not look at the test type. -/
theorem mklogname_retype (t : Nat) (g : globals_t) :
    mklogname (with_test_type t g) = (mklogname g).map (with_test_type t) := by
  cases g
  simp only [mklogname, with_test_type]
  split <;> rfl

/-- The function `check_device_name` does not look at the test type. -/
theorem check_device_name_retype (t : Nat) (g : globals_t) (f : FILE) :
    check_device_name (with_test_type t g) f = check_device_name g f := by
  cases g
  rfl

/-- The function `get_previous_counts` does not look at the test type. -/
theorem get_previous_counts_retype {σ : Type} (t : Nat) (E : env) (g : globals_t)
    (w : world σ) :
    get_previous_counts E (with_test_type t g) w =
      (get_previous_counts E g w).map (stage_with_test_type t) := by
  cases g with
  | mk di tt dn sl dmp v ts zs lo bs bw bfs ba pc wtot qp bbw lf =>
    cases lf with
    | none => rfl
    | some f =>
      simp only [get_previous_counts, with_test_type]
      split
      · rfl
      · split
        · rfl
        · split
          · rfl
          · simp only [sdlog, sdmsg, Except.map, stage_with_test_type, with_test_type]

/-- The function `stats_log_setup` when no log name can be made. -/
theorem stats_log_setup_no_name {σ : Type} (E : env) (g : globals_t) (w : world σ)
    (e : fatal) (hm : mklogname g = Except.error e) :
    stats_log_setup E g w = Except.error (e, w) := by
  unfold stats_log_setup
  rw [hm]

/-- The function `stats_log_setup` when a record is found. -/
theorem stats_log_setup_found {σ : Type} (E : env) (g : globals_t) (w : world σ)
    (g1 : globals_t) (hm : mklogname g = Except.ok g1) (content : List Char)
    (hfs : (if g1.zerostats = 0 then E.fs g1.statslogname else none) = some content) :
    stats_log_setup E g w =
      match check_device_name g1 { before := [], after := content } with
      | Except.error e => Except.error (e, w)
      | Except.ok f => get_previous_counts E { g1 with logfd := some f } w := by
  unfold stats_log_setup
  rw [hm]
  simp only [hfs]

/-- The function `stats_log_setup` when no record is found and none can be
created. -/
theorem stats_log_setup_no_log {σ : Type} (E : env) (g : globals_t) (w : world σ)
    (g1 : globals_t) (hm : mklogname g = Except.ok g1)
    (hfs : (if g1.zerostats = 0 then E.fs g1.statslogname else none) = none)
    (ho : (!E.fopen_w_ok) = true) :
    stats_log_setup E g w = Except.error (fatal.log_open, w) := by
  unfold stats_log_setup
  rw [hm]
  simp only [hfs]
  rw [if_pos ho]

/-- The function `stats_log_setup` when a new record is started, given the
outcomes of its log calls. -/
theorem stats_log_setup_new {σ : Type} (E : env) (g : globals_t) (w : world σ)
    (g1 : globals_t) (hm : mklogname g = Except.ok g1)
    (hfs : (if g1.zerostats = 0 then E.fs g1.statslogname else none) = none)
    (ho : ¬ (!E.fopen_w_ok) = true) (a1 a2 a3 a4 : globals_t × world σ)
    (h1 : a1 = sdlog E { g1 with logfd := some { before := [], after := [] } } w
      ("devicename=".toList ++ g1.devicename ++ "\n".toList))
    (h2 : a2 = sdlog E a1.1 (gettime E a1.2).2
      ("starttime=".toList ++ (gettime E a1.2).1 ++ "\n".toList))
    (h3 : a3 = sdlog E a2.1 a2.2 ("block_size=".toList ++ fmt_u g1.block_size ++ "\n".toList))
    (h4 : a4 = sdlog E a3.1 a3.2
      ("block_writes=".toList ++ fmt_u g1.block_writes ++ "\n".toList)) :
    stats_log_setup E g w =
      Except.ok (sdlog E a4.1 a4.2
        ("buffer_size=".toList ++ fmt_u g1.buffer_size ++ "\n".toList)) := by
  subst h4 h3 h2 h1
  unfold stats_log_setup
  rw [hm]
  simp only [hfs]
  rw [if_neg ho]

/-- The function `stats_log_setup` does not look at the test type. -/
theorem stats_log_setup_retype {σ : Type} (t : Nat) (E : env) (g : globals_t) (w : world σ) :
    stats_log_setup E (with_test_type t g) w =
      (stats_log_setup E g w).map (stage_with_test_type t) := by
  have hmt := mklogname_retype t g
  cases hm : mklogname g with
  | error e =>
    rw [hm] at hmt
    rw [stats_log_setup_no_name E g w e hm, stats_log_setup_no_name E _ w e hmt]
    rfl
  | ok g1 =>
    rw [hm] at hmt
    have hmt1 : mklogname (with_test_type t g) = Except.ok (with_test_type t g1) := hmt
    have hz : (with_test_type t g1).zerostats = g1.zerostats := by cases g1; rfl
    have hs : (with_test_type t g1).statslogname = g1.statslogname := by cases g1; rfl
    have hn : (with_test_type t g1).devicename = g1.devicename := by cases g1; rfl
    have hb : (with_test_type t g1).block_size = g1.block_size := by cases g1; rfl
    have hw : (with_test_type t g1).block_writes = g1.block_writes := by cases g1; rfl
    have hf : (with_test_type t g1).buffer_size = g1.buffer_size := by cases g1; rfl
    have hl : ∀ f : Option FILE, ({ with_test_type t g1 with logfd := f } : globals_t) =
        with_test_type t { g1 with logfd := f } := by
      intro f; cases g1; rfl
    cases hfs : (if g1.zerostats = 0 then E.fs g1.statslogname else none) with
    | some content =>
      rw [stats_log_setup_found E g w g1 hm content hfs,
        stats_log_setup_found E _ w _ hmt1 content (by rw [hz, hs]; exact hfs),
        check_device_name_retype]
      cases check_device_name g1 { before := [], after := content } with
      | error e => rfl
      | ok f =>
        simp only []
        rw [hl, get_previous_counts_retype]
    | none =>
      by_cases ho : (!E.fopen_w_ok) = true
      · rw [stats_log_setup_no_log E g w g1 hm hfs ho,
          stats_log_setup_no_log E _ w _ hmt1 (by rw [hz, hs]; exact hfs) ho]
        rfl
      · rw [stats_log_setup_new E g w g1 hm hfs ho _ _ _ _ rfl rfl rfl rfl,
          stats_log_setup_new E _ w _ hmt1 (by rw [hz, hs]; exact hfs) ho
            (stage_with_test_type t _) (stage_with_test_type t _)
            (stage_with_test_type t _) (stage_with_test_type t _)
            (by rw [hl, hn, sdlog_retype])
            (by rw [(stage_with_test_type_parts t _).1, (stage_with_test_type_parts t _).2,
              sdlog_retype])
            (by rw [(stage_with_test_type_parts t _).1, (stage_with_test_type_parts t _).2,
              hb, sdlog_retype])
            (by rw [(stage_with_test_type_parts t _).1, (stage_with_test_type_parts t _).2,
              hw, sdlog_retype]),
          (stage_with_test_type_parts t _).1, (stage_with_test_type_parts t _).2, hf,
          sdlog_retype]
        rfl

/-- The test type of a selector that starts with `z` or with `r` is not 0. -/
theorem selector_ne_zero (arg : List Char)
    (ha : arg.head? = some 'z' ∨ arg.head? = some 'r') :
    (if arg.head? = some 'z' then ZERO else if arg.head? = some 'r' then RAND else 0) ≠ 0 := by
  rcases ha with h | h
  · simp [h, ZERO]
  · by_cases hz : arg.head? = some 'z'
    · simp [hz, ZERO]
    · simp [hz, h, RAND]

/-- The function `main` with the selector `z` and with the selector `r`: the
same status, the same world, globals that differ in the test type only. -/
theorem main_selector {σ : Type} (fuel : Nat) (E : env) (D : device σ) (cl : cmdline)
    (w : world σ) (pre post : List (Char × List Char)) (arg arg1 : List Char)
    (hopts : cl.opts = pre ++ ('t', arg) :: post) (hpost : ∀ o ∈ post, o.1 ≠ 't')
    (ha : arg.head? = some 'z' ∨ arg.head? = some 'r')
    (ha1 : arg1.head? = some 'z' ∨ arg1.head? = some 'r') :
    (main fuel E D 0 { cl with opts := pre ++ ('t', arg1) :: post } w).map
        (result_with_test_type 0) =
      (main fuel E D 0 cl w).map (result_with_test_type 0) := by
  have hT1 := selector_ne_zero arg1 ha1
  have hT := selector_ne_zero arg ha
  have hpc := parse_cmdline_selector globals_zero cl pre post arg arg1 hopts hpost
  generalize (if arg1.head? = some 'z' then ZERO else if arg1.head? = some 'r' then RAND
    else 0) = T1 at hT1 hpc
  cases hp : parse_cmdline globals_zero cl with
  | error e =>
    rw [hp] at hpc
    unfold main
    simp only [ne_eq, not_true_eq_false, ↓reduceIte, hp, hpc, Except.map]
  | ok g1 =>
    rw [hp] at hpc
    have hpc1 : parse_cmdline globals_zero { cl with opts := pre ++ ('t', arg1) :: post } =
        Except.ok (with_test_type T1 g1) := hpc
    have hds := device_setup_retype T1 E g1 w
    cases hs : device_setup E g1 w with
    | error e =>
      rw [hs] at hds
      have hds1 : device_setup E (with_test_type T1 g1) w = Except.error e := hds
      unfold main
      simp only [ne_eq, not_true_eq_false, ↓reduceIte, hp, hpc1, hs, hds1, Option.map_some',
        result_with_test_type, with_test_type_twice]
    | ok s2 =>
      rw [hs] at hds
      have hds1 : device_setup E (with_test_type T1 g1) w =
          Except.ok (with_test_type T1 s2.1, s2.2) := hds
      have hls := stats_log_setup_retype T1 E s2.1 s2.2
      cases hl : stats_log_setup E s2.1 s2.2 with
      | error e =>
        rw [hl] at hls
        have hls1 : stats_log_setup E (with_test_type T1 s2.1) s2.2 = Except.error e := hls
        unfold main
        simp only [ne_eq, not_true_eq_false, ↓reduceIte, hp, hpc1, hs, hds1, hl, hls1,
          Option.map_some', result_with_test_type, with_test_type_twice]
      | ok s3 =>
        rw [hl] at hls
        have hls1 : stats_log_setup E (with_test_type T1 s2.1) s2.2 =
            Except.ok (with_test_type T1 s3.1, s3.2) := hls
        obtain ⟨g0, h0, hg1, _⟩ := parse_cmdline_ok _ _ _ hp
        rw [hopts] at h0
        have ht0 := parse_opts_last_t pre post arg _ _ hpost h0
        have ht1 : g1.test_type = g0.test_type := by rw [hg1]
        have hne : s3.1.test_type ≠ 0 := by
          rw [(stats_log_setup_frame E s2.1 s2.2 s3 hl).1, (device_setup_frame E g1 w s2 hs).1,
            ht1, ht0]
          exact hT
        have hne1 : (with_test_type T1 s3.1).test_type ≠ 0 := by
          rw [(with_test_type_fields T1 s3.1).2.2.2.2.2.2.2.2]
          exact hT1
        unfold main
        simp only [ne_eq, not_true_eq_false, ↓reduceIte, hp, hpc1, hs, hds1, hl, hls1, hne,
          hne1, not_false_eq_true, device_test_retype]
        cases device_test fuel E D s3.1 s3.2 with
        | none => rfl
        | some r =>
          cases r with
          | error e =>
            simp only [Option.map_some', Except.map, result_with_test_type, with_test_type_twice]
          | ok r =>
            simp only [Option.map_some', Except.map, result_with_test_type, with_test_type_twice]

set_option maxRecDepth 1000000 in
/-! ## Driver: properties -/

/-- Claim C9, as amended: with the last test-type option carrying the selector
`arg` and the setup stages passed, a selector that starts with `z` or with `r`
gives a non-zero test type and `main` runs `device_test`, the ones/zeros
engine, in both cases alike: `device_test` gives the same result whatever the
test type in its globals, and `main` with any other selector that starts with
`z` or `r` in that option ends with the same status, the same world (device
contents, trace of device calls, output) and the same globals but for the
test type.  Any other selector gives test type 0, and `main` returns 0 after
the open and close of `device_setup`, without a write or a read on the
device. -/
theorem main_test_type_gate {σ : Type} (fuel : Nat) (E : env) (D : device σ) (cl : cmdline)
    (w : world σ) (pre post : List (Char × List Char)) (arg : List Char)
    (g1 : globals_t) (s2 s3 : globals_t × world σ)
    (hopts : cl.opts = pre ++ ('t', arg) :: post) (hpost : ∀ o ∈ post, o.1 ≠ 't')
    (hp : parse_cmdline globals_zero cl = Except.ok g1)
    (hs : device_setup E g1 w = Except.ok s2)
    (hl : stats_log_setup E s2.1 s2.2 = Except.ok s3) :
    (arg.head? = some 'z' ∨ arg.head? = some 'r' →
      s3.1.test_type ≠ 0 ∧
      main fuel E D 0 cl w =
        (device_test fuel E D s3.1 s3.2).map (fun r =>
          match r with
          | Except.error e => (-1, s3.1, e.2)
          | Except.ok r => (0, r.2.1, r.2.2)) ∧
      (∀ t : Nat, device_test fuel E D (with_test_type t s3.1) s3.2 =
        (device_test fuel E D s3.1 s3.2).map (Except.map (result_with_test_type t))) ∧
      (∀ arg1 : List Char, arg1.head? = some 'z' ∨ arg1.head? = some 'r' →
        (main fuel E D 0 { cl with opts := pre ++ ('t', arg1) :: post } w).map
            (result_with_test_type 0) =
          (main fuel E D 0 cl w).map (result_with_test_type 0))) ∧
    (¬ (arg.head? = some 'z' ∨ arg.head? = some 'r') →
      s3.1.test_type = 0 ∧
      main fuel E D 0 cl w = some (0, s3.1, s3.2) ∧
      s3.2.ops = w.ops ++ [io_op.dev_open, io_op.close] ∧
      count_writes s3.2.ops = count_writes w.ops ∧
      count_reads s3.2.ops = count_reads w.ops) := by
  obtain ⟨g0, h0, hg1, _⟩ := parse_cmdline_ok _ _ _ hp
  rw [hopts] at h0
  have ht0 := parse_opts_last_t pre post arg _ _ hpost h0
  have ht1 : g1.test_type = g0.test_type := by rw [hg1]
  have hf2 := device_setup_frame E g1 w s2 hs
  have hf3 := stats_log_setup_frame E s2.1 s2.2 s3 hl
  have ht3 : s3.1.test_type =
      (if arg.head? = some 'z' then ZERO else if arg.head? = some 'r' then RAND else 0) := by
    rw [hf3.1, hf2.1, ht1, ht0]
  have hops : s3.2.ops = w.ops ++ [io_op.dev_open, io_op.close] := by rw [hf3.2, hf2.2]
  refine ⟨fun hzr => ?_, fun hno => ?_⟩
  · have hne : s3.1.test_type ≠ 0 := by
      rw [ht3]
      exact selector_ne_zero arg hzr
    refine ⟨hne, ?_, fun t => device_test_retype t fuel E D s3.1 s3.2,
      fun arg1 ha1 => main_selector fuel E D cl w pre post arg arg1 hopts hpost hzr ha1⟩
    unfold main
    simp only [ne_eq, not_true_eq_false, ↓reduceIte, hp, hs, hl, hne, not_false_eq_true]
    cases device_test fuel E D s3.1 s3.2 with
    | none => rfl
    | some r => cases r <;> rfl
  · have h0' : s3.1.test_type = 0 := by
      rw [ht3]
      rw [if_neg (fun h => hno (Or.inl h)), if_neg (fun h => hno (Or.inr h))]
    refine ⟨h0', ?_, hops, ?_, ?_⟩
    · unfold main
      simp only [ne_eq, not_true_eq_false, ↓reduceIte, hp, hs, hl, h0']
    · rw [hops, count_writes_append]; rfl
    · rw [hops, count_reads_append]; rfl

/-- Witness of `main_test_type_gate`: on a 512-byte device the selector `r`
gives the same status, world and globals but for the test type as the selector
`z`, and the selector `x` ends with status 0 and no write or read. -/
theorem main_test_type_gate_witness :
    ((main 100 (demo_env 512 no_files) (scripted_device (sound_answers 512)) 0 cmdline_zero
        (demo_world 0)).map (result_with_test_type 0) =
      (main 100 (demo_env 512 no_files) (scripted_device (sound_answers 512)) 0 cmdline_rand
        (demo_world 0)).map (result_with_test_type 0)) ∧
    ∃ g w, main 100 (demo_env 512 no_files) (scripted_device (sound_answers 512)) 0
        cmdline_other (demo_world 0) = some (0, g, w) ∧
      count_writes w.ops = 0 ∧ count_reads w.ops = 0 := by
  constructor
  · have hp : ∃ g1, parse_cmdline globals_zero cmdline_rand = Except.ok g1 := ⟨_, rfl⟩
    obtain ⟨g1, hp⟩ := hp
    have hs : ∃ s2, device_setup (demo_env 512 no_files) g1 (demo_world 0) = Except.ok s2 := by
      cases hp; exact ⟨_, rfl⟩
    obtain ⟨s2, hs⟩ := hs
    have hl : ∃ s3, stats_log_setup (demo_env 512 no_files) s2.1 s2.2 = Except.ok s3 := by
      cases hp; cases hs; exact ⟨_, rfl⟩
    obtain ⟨s3, hl⟩ := hl
    exact ((main_test_type_gate 100 (demo_env 512 no_files)
      (scripted_device (sound_answers 512)) cmdline_rand (demo_world 0) []
      [('q', "1".toList)] "r".toList g1 s2 s3 rfl (by decide) hp hs hl).1
        (Or.inr rfl)).2.2.2 "z".toList (Or.inl rfl)
  · have hp : ∃ g1, parse_cmdline globals_zero cmdline_other = Except.ok g1 := ⟨_, rfl⟩
    obtain ⟨g1, hp⟩ := hp
    have hs : ∃ s2, device_setup (demo_env 512 no_files) g1 (demo_world 0) = Except.ok s2 := by
      cases hp; exact ⟨_, rfl⟩
    obtain ⟨s2, hs⟩ := hs
    have hl : ∃ s3, stats_log_setup (demo_env 512 no_files) s2.1 s2.2 = Except.ok s3 := by
      cases hp; cases hs; exact ⟨_, rfl⟩
    obtain ⟨s3, hl⟩ := hl
    have h := (main_test_type_gate 100 (demo_env 512 no_files)
      (scripted_device (sound_answers 512)) cmdline_other (demo_world 0) []
      [('q', "1".toList)] "x".toList g1 s2 s3 rfl (by decide) hp hs hl).2 (by decide)
    exact ⟨s3.1, s3.2, h.2.1, h.2.2.2.1, h.2.2.2.2⟩

set_option maxRecDepth 1000000 in
/-- Claim C9 fails as stated: with the selector `r` on a sound 512-byte device
and one pass, `main` issues two writes and two reads, the same device calls as
with the selector `z`. -/
theorem main_rand_exercises_device :
    (main 100 (demo_env 512 no_files) (scripted_device (sound_answers 512)) 0 cmdline_rand
        (demo_world 0)).map
      (fun r => (r.1, count_writes r.2.2.ops, count_reads r.2.2.ops)) = some (0, 2, 2) ∧
    (main 100 (demo_env 512 no_files) (scripted_device (sound_answers 512)) 0 cmdline_rand
        (demo_world 0)).map (fun r => r.2.2.ops) =
    (main 100 (demo_env 512 no_files) (scripted_device (sound_answers 512)) 0 cmdline_zero
        (demo_world 0)).map (fun r => r.2.2.ops) := by
  decide!

/-! ## Progress store and exit status: evaluations -/

set_option maxRecDepth 1000000 in
/-- Claim C3 at a failing input: the record that a run with time stamps leaves
ends in the status line for `written_total = 3072` and `pass_count = 3`, and
the next start without the reset flag loads 34 and 56, the minutes and seconds
of the time stamp.  Without time stamps the same run is resumed with 3072
and 3. -/
theorem resume_with_timestamps_wrong :
    log_after (main 100 (demo_env 512 no_files) (scripted_device (sound_answers 512)) 0
      cmdline_stamped (demo_world 0)) = some record_stamped ∧
    (startup (demo_env 512 (one_file "sdb.log".toList record_stamped)) cmdline_stamped
      (demo_world 0)).map (fun s => (s.1.written_total, s.1.pass_count)) = some (34, 56) ∧
    log_after (main 100 (demo_env 512 no_files) (scripted_device (sound_answers 512)) 0
      (cmdline_three "/dev/sdb".toList) (demo_world 0)) = some record_sdb ∧
    (startup (demo_env 512 (one_file "sdb.log".toList record_sdb))
      (cmdline_three "/dev/sdb".toList)
      (demo_world 0)).map (fun s => (s.1.written_total, s.1.pass_count)) = some (3072, 3) := by
  decide!

set_option maxRecDepth 1000000 in
/-- Claim C4 at a failing input: on a device that reads back zeros,
`device_test` returns -1 for the mismatch at the first block and `main` ends
with status 0. -/
theorem main_ignores_mismatch :
    (main 100 (demo_env 512 no_files) (scripted_device (stuck_answers 512)) 0 cmdline_zero
      (demo_world 0)).map (fun r => r.1) = some 0 ∧
    ((startup (demo_env 512 no_files) cmdline_zero (demo_world 0)).bind fun s =>
      (device_test 100 (demo_env 512 no_files) (scripted_device (stuck_answers 512)) s.1 s.2).bind
        fun r => r.toOption.map fun x => x.1) = some (-1) := by
  decide!

/-- The first line of the log decides `check_device_name`: the log is accepted
exactly when the device name stands right after the first character of the
line that `fgets` reads. -/
theorem check_device_name_accepts_iff (g : globals_t) (f : FILE) :
    (∃ f1, check_device_name g f = Except.ok f1) ↔
    ∃ line rest, fgets 80 f.after = some (line, rest) ∧
      (line.drop 1).take g.devicename.length = g.devicename := by
  unfold check_device_name
  cases hf : fgets 80 f.after with
  | none => simp
  | some p =>
    obtain ⟨line, rest⟩ := p
    simp only [Option.some.injEq, Prod.mk.injEq]
    constructor
    · intro ⟨f1, h⟩
      split at h
      · cases h
      · rename_i hne
        exact ⟨line, rest, ⟨rfl, rfl⟩, by simpa using hne⟩
    · intro ⟨l, r, ⟨h1, _⟩, h3⟩
      subst h1
      rw [if_neg (by simpa using h3)]
      exact ⟨_, rfl⟩

set_option maxRecDepth 1000000 in
/-- Claim C5 at a failing input: a record written for `/dev/sdb1` is accepted
for the device `/dev/sdb`, and the start loads its counters 3072 and 3; the
other way round (record of `/dev/sdb`, device `/dev/sdb1`) is refused. -/
theorem check_device_name_accepts_longer_name :
    log_after (main 100 (demo_env 512 no_files) (scripted_device (sound_answers 512)) 0
      (cmdline_three "/dev/sdb1".toList) (demo_world 0)) = some record_sdb1 ∧
    (check_device_name { globals_zero with devicename := "/dev/sdb".toList }
      { before := [], after := record_sdb1 }).toOption.isSome = true ∧
    (startup (demo_env 512 (one_file "sdb.log".toList record_sdb1))
      (cmdline_three "/dev/sdb".toList)
      (demo_world 0)).map (fun s => (s.1.written_total, s.1.pass_count)) = some (3072, 3) ∧
    (check_device_name { globals_zero with devicename := "/dev/sdb1".toList }
      { before := [], after := record_sdb }).toOption.isSome = false := by
  decide!

/-! ## Test engine: single steps -/

/-- A measured read changes only the timer in the globals. -/
theorem timed_read_globals {σ : Type} (E : env) (D : device σ) (g : globals_t) (w : world σ) :
    config (timed_read E D g w).2.2.1 = config g ∧
    (timed_read E D g w).2.2.1.pass_count = g.pass_count ∧
    (timed_read E D g w).2.2.1.written_total = g.written_total ∧
    (timed_read E D g w).2.2.1.logfd = g.logfd ∧
    (timed_read E D g w).2.2.1.devicename = g.devicename ∧
    (timed_read E D g w).2.2.1.timestamp = g.timestamp ∧
    (timed_read E D g w).2.2.1.verbose = g.verbose ∧
    (timed_read E D g w).2.2.1.logstdout = g.logstdout := by
  cases g
  simp only [timed_read, config, and_self]

/-- The device call of a measured read. -/
theorem timed_read_world {σ : Type} (E : env) (D : device σ) (g : globals_t) (w : world σ) :
    (timed_read E D g w).2.2.2.ops = w.ops ++ [io_op.read w.fdpos g.block_size] ∧
    (timed_read E D g w).2.2.2.dev = (D.pread w.dev w.fdpos g.block_size).2 ∧
    (timed_read E D g w).2.1 = (D.pread w.dev w.fdpos g.block_size).1 ∧
    (timed_read E D g w).2.2.2.out = w.out := by
  cases w
  exact ⟨rfl, rfl, rfl, rfl⟩

/-- A measured write changes the timer and the byte counter in the globals. -/
theorem timed_write_globals {σ : Type} (E : env) (D : device σ) (g : globals_t) (w : world σ)
    (wbuf : List Nat) :
    config (timed_write E D g w wbuf).2.1 = config g ∧
    (timed_write E D g w wbuf).2.1.pass_count = g.pass_count ∧
    (timed_write E D g w wbuf).2.1.written_total = (g.written_total + g.block_size) % 2^64 ∧
    (timed_write E D g w wbuf).2.1.logfd = g.logfd ∧
    (timed_write E D g w wbuf).2.1.devicename = g.devicename ∧
    (timed_write E D g w wbuf).2.1.timestamp = g.timestamp ∧
    (timed_write E D g w wbuf).2.1.verbose = g.verbose := by
  cases g
  simp only [timed_write, config, and_self]

/-- The device call of a measured write. -/
theorem timed_write_world {σ : Type} (E : env) (D : device σ) (g : globals_t) (w : world σ)
    (wbuf : List Nat) :
    (timed_write E D g w wbuf).2.2.ops = w.ops ++ [io_op.write w.fdpos g.block_size] ∧
    (timed_write E D g w wbuf).2.2.dev = D.pwrite w.dev w.fdpos (wbuf.take g.block_size) := by
  cases w
  exact ⟨rfl, rfl⟩

/-- A log call changes only the log in the globals. -/
theorem sdlog_globals {σ : Type} (E : env) (g : globals_t) (w : world σ) (msg : List Char) :
    config (sdlog E g w msg).1 = config g ∧
    (sdlog E g w msg).1.pass_count = g.pass_count ∧
    (sdlog E g w msg).1.written_total = g.written_total ∧
    (sdlog E g w msg).1.logfd = g.logfd.map (fun f => f.put (sdmsg E g w msg)) ∧
    (sdlog E g w msg).1.devicename = g.devicename ∧
    (sdlog E g w msg).1.timestamp = g.timestamp ∧
    (sdlog E g w msg).1.verbose = g.verbose := by
  cases g
  simp only [sdlog, config, and_self]

/-- A log call issues no device call. -/
theorem sdlog_world {σ : Type} (E : env) (g : globals_t) (w : world σ) (msg : List Char) :
    (sdlog E g w msg).2.ops = w.ops ∧ (sdlog E g w msg).2.dev = w.dev ∧
    (sdlog E g w msg).2.fdpos = w.fdpos ∧
    (sdlog E g w msg).2.out =
      (if g.logstdout ≠ 0 ∨ g.logfd = none then w.out ++ sdmsg E g w msg else w.out) := by
  cases w
  exact ⟨rfl, rfl, rfl, rfl⟩

/-- The verbose report changes only the log in the globals. -/
theorem verbose_log_globals {σ : Type} (E : env) (g : globals_t) (w : world σ)
    (a b : Nat) (tag : List Char) (rate : Nat) :
    config (verbose_log E g w a b tag rate).1 = config g ∧
    (verbose_log E g w a b tag rate).1.pass_count = g.pass_count ∧
    (verbose_log E g w a b tag rate).1.written_total = g.written_total := by
  unfold verbose_log
  split
  · simp only [(sdlog_globals _ _ _ _).1, (sdlog_globals _ _ _ _).2.1,
      (sdlog_globals _ _ _ _).2.2.1, and_self]
  · exact ⟨rfl, rfl, rfl⟩

/-- The verbose report issues no device call. -/
theorem verbose_log_world {σ : Type} (E : env) (g : globals_t) (w : world σ)
    (a b : Nat) (tag : List Char) (rate : Nat) :
    (verbose_log E g w a b tag rate).2.ops = w.ops ∧
    (verbose_log E g w a b tag rate).2.dev = w.dev := by
  unfold verbose_log
  split
  · simp only [(sdlog_world _ _ _ _).1, (sdlog_world _ _ _ _).2.1, and_self]
  · exact ⟨rfl, rfl⟩

/-- The log text depends on the globals through the device name and the
time-stamp flag only. -/
theorem sdmsg_congr {σ : Type} (E : env) (g1 g2 : globals_t) (w : world σ) (msg : List Char)
    (hd : g1.devicename = g2.devicename) (ht : g1.timestamp = g2.timestamp) :
    sdmsg E g1 w msg = sdmsg E g2 w msg := by
  unfold sdmsg
  rw [hd, ht]


/-- A step at `write_ones`. -/
theorem step_write_ones {σ : Type} (E : env) (D : device σ) (s : test_state σ)
    (h : s.pc = loc.write_ones) :
    (step E D s).pc = loc.read_ones ∧ (step E D s).rc = s.rc ∧ (step E D s).index = s.index ∧
    config (step E D s).g = config s.g ∧
    (step E D s).g.pass_count = s.g.pass_count ∧
    (step E D s).g.written_total = (s.g.written_total + s.g.block_size) % 2^64 ∧
    (step E D s).wbuf = List.replicate s.g.block_size 255 ∧
    (step E D s).w.dev = D.pwrite s.w.dev (block_offset s.index s.g.block_size)
        (List.replicate s.g.block_size 255) ∧
    (step E D s).w.ops = s.w.ops ++ [io_op.lseek (block_offset s.index s.g.block_size),
        io_op.write (block_offset s.index s.g.block_size) s.g.block_size] := by
  unfold step
  simp only [h]
  refine ⟨trivial, trivial, trivial, ?_, ?_, ?_, trivial, ?_, ?_⟩
  · rw [(verbose_log_globals _ _ _ _ _ _ _).1, (timed_write_globals _ _ _ _ _).1]
  · rw [(verbose_log_globals _ _ _ _ _ _ _).2.1, (timed_write_globals _ _ _ _ _).2.1]
  · rw [(verbose_log_globals _ _ _ _ _ _ _).2.2, (timed_write_globals _ _ _ _ _).2.2.1]
  · rw [(verbose_log_world _ _ _ _ _ _ _).2, (timed_write_world _ _ _ _ _).2]
    simp only [dev_lseek, List.take_replicate, Nat.min_self]
  · rw [(verbose_log_world _ _ _ _ _ _ _).1, (timed_write_world _ _ _ _ _).1]
    simp only [dev_lseek, List.append_assoc, List.singleton_append]

/-- A step at `write_zeros`. -/
theorem step_write_zeros {σ : Type} (E : env) (D : device σ) (s : test_state σ)
    (h : s.pc = loc.write_zeros) :
    (step E D s).pc = loc.read_zeros ∧ (step E D s).rc = s.rc ∧ (step E D s).index = s.index ∧
    config (step E D s).g = config s.g ∧
    (step E D s).g.pass_count = s.g.pass_count ∧
    (step E D s).g.written_total = (s.g.written_total + s.g.block_size) % 2^64 ∧
    (step E D s).wbuf = List.replicate s.g.block_size 0 ∧
    (step E D s).w.dev = D.pwrite s.w.dev (block_offset s.index s.g.block_size)
        (List.replicate s.g.block_size 0) ∧
    (step E D s).w.ops = s.w.ops ++ [io_op.lseek (block_offset s.index s.g.block_size),
        io_op.write (block_offset s.index s.g.block_size) s.g.block_size] := by
  unfold step
  simp only [h]
  refine ⟨trivial, trivial, trivial, ?_, ?_, ?_, trivial, ?_, ?_⟩
  · rw [(verbose_log_globals _ _ _ _ _ _ _).1, (timed_write_globals _ _ _ _ _).1]
  · rw [(verbose_log_globals _ _ _ _ _ _ _).2.1, (timed_write_globals _ _ _ _ _).2.1]
  · rw [(verbose_log_globals _ _ _ _ _ _ _).2.2, (timed_write_globals _ _ _ _ _).2.2.1]
  · rw [(verbose_log_world _ _ _ _ _ _ _).2, (timed_write_world _ _ _ _ _).2]
    simp only [dev_lseek, List.take_replicate, Nat.min_self]
  · rw [(verbose_log_world _ _ _ _ _ _ _).1, (timed_write_world _ _ _ _ _).1]
    simp only [dev_lseek, List.append_assoc, List.singleton_append]

/-- The buffer that the measured read of the current block returns. -/
theorem timed_read_data {σ : Type} (E : env) (D : device σ) (s : test_state σ) :
    (timed_read E D s.g (dev_lseek s.w (block_offset s.index s.g.block_size))).2.1 =
      read_back D s := by
  rw [(timed_read_world _ _ _ _).2.2.1]
  simp only [dev_lseek, read_back]

/-- A step at `read_ones` when the read-back differs from the write buffer. -/
theorem step_read_ones_bad {σ : Type} (E : env) (D : device σ) (s : test_state σ)
    (h : s.pc = loc.read_ones)
    (hbad : memcmp (read_back D s) s.wbuf s.g.block_size = true) :
    (step E D s).pc = loc.done ∧ (step E D s).rc = -1 ∧ (step E D s).index = s.index ∧
    config (step E D s).g = config s.g ∧
    (step E D s).g.pass_count = s.g.pass_count ∧
    (step E D s).g.written_total = s.g.written_total ∧
    (step E D s).w.ops = s.w.ops ++ [io_op.lseek (block_offset s.index s.g.block_size),
        io_op.read (block_offset s.index s.g.block_size) s.g.block_size] ∧
    ∃ w0 : world σ,
      (step E D s).g.logfd =
        s.g.logfd.map (fun f => f.put (sdmsg E s.g w0 (error_msg s.index))) ∧
      (step E D s).w.out =
        (if s.g.logstdout ≠ 0 ∨ s.g.logfd = none then
          s.w.out ++ sdmsg E s.g w0 (error_msg s.index)
         else s.w.out) := by
  unfold step
  simp only [h, timed_read_data, hbad, ↓reduceIte]
  refine ⟨trivial, trivial, trivial, ?_, ?_, ?_, ?_, ?_⟩
  · rw [(sdlog_globals _ _ _ _).1, (timed_read_globals _ _ _ _).1]
  · rw [(sdlog_globals _ _ _ _).2.1, (timed_read_globals _ _ _ _).2.1]
  · rw [(sdlog_globals _ _ _ _).2.2.1, (timed_read_globals _ _ _ _).2.2.1]
  · rw [(sdlog_world _ _ _ _).1, (timed_read_world _ _ _ _).1]
    simp only [dev_lseek, List.append_assoc, List.singleton_append]
  · refine ⟨(timed_read E D s.g (dev_lseek s.w (block_offset s.index s.g.block_size))).2.2.2,
      ?_, ?_⟩
    · rw [(sdlog_globals _ _ _ _).2.2.2.1, (timed_read_globals _ _ _ _).2.2.2.1]
      rw [sdmsg_congr E _ s.g _ _ (timed_read_globals _ _ _ _).2.2.2.2.1
        (timed_read_globals _ _ _ _).2.2.2.2.2.1]
    · rw [(sdlog_world _ _ _ _).2.2.2, (timed_read_globals _ _ _ _).2.2.2.1,
        (timed_read_globals _ _ _ _).2.2.2.2.2.2.2, (timed_read_world _ _ _ _).2.2.2]
      rw [sdmsg_congr E _ s.g _ _ (timed_read_globals _ _ _ _).2.2.2.2.1
        (timed_read_globals _ _ _ _).2.2.2.2.2.1]
      rfl

/-- A step at `read_ones` when the read-back equals the write buffer. -/
theorem step_read_ones_good {σ : Type} (E : env) (D : device σ) (s : test_state σ)
    (h : s.pc = loc.read_ones)
    (hgood : memcmp (read_back D s) s.wbuf s.g.block_size = false) :
    (step E D s).pc = loc.write_zeros ∧ (step E D s).rc = s.rc ∧
    (step E D s).index = s.index ∧
    config (step E D s).g = config s.g ∧
    (step E D s).g.pass_count = s.g.pass_count ∧
    (step E D s).g.written_total = s.g.written_total ∧
    (step E D s).w.dev =
      (D.pread s.w.dev (block_offset s.index s.g.block_size) s.g.block_size).2 ∧
    (step E D s).w.ops = s.w.ops ++ [io_op.lseek (block_offset s.index s.g.block_size),
        io_op.read (block_offset s.index s.g.block_size) s.g.block_size] := by
  unfold step
  simp only [h, timed_read_data, hgood, Bool.false_eq_true, ↓reduceIte]
  refine ⟨trivial, trivial, trivial, ?_, ?_, ?_, ?_, ?_⟩
  · rw [(verbose_log_globals _ _ _ _ _ _ _).1, (timed_read_globals _ _ _ _).1]
  · rw [(verbose_log_globals _ _ _ _ _ _ _).2.1, (timed_read_globals _ _ _ _).2.1]
  · rw [(verbose_log_globals _ _ _ _ _ _ _).2.2, (timed_read_globals _ _ _ _).2.2.1]
  · rw [(verbose_log_world _ _ _ _ _ _ _).2, (timed_read_world _ _ _ _).2.1]
    simp only [dev_lseek]
  · rw [(verbose_log_world _ _ _ _ _ _ _).1, (timed_read_world _ _ _ _).1]
    simp only [dev_lseek, List.append_assoc, List.singleton_append]

/-- A step at `read_zeros` when the read-back differs from the write buffer. -/
theorem step_read_zeros_bad {σ : Type} (E : env) (D : device σ) (s : test_state σ)
    (h : s.pc = loc.read_zeros)
    (hbad : memcmp (read_back D s) s.wbuf s.g.block_size = true) :
    (step E D s).pc = loc.done ∧ (step E D s).rc = -1 ∧ (step E D s).index = s.index ∧
    config (step E D s).g = config s.g ∧
    (step E D s).g.pass_count = s.g.pass_count ∧
    (step E D s).g.written_total = s.g.written_total ∧
    (step E D s).w.ops = s.w.ops ++ [io_op.lseek (block_offset s.index s.g.block_size),
        io_op.read (block_offset s.index s.g.block_size) s.g.block_size] ∧
    ∃ w0 : world σ,
      (step E D s).g.logfd =
        s.g.logfd.map (fun f => f.put (sdmsg E s.g w0 (error_msg s.index))) ∧
      (step E D s).w.out =
        (if s.g.logstdout ≠ 0 ∨ s.g.logfd = none then
          s.w.out ++ sdmsg E s.g w0 (error_msg s.index)
         else s.w.out) := by
  unfold step
  simp only [h, timed_read_data, hbad, ↓reduceIte]
  refine ⟨trivial, trivial, trivial, ?_, ?_, ?_, ?_, ?_⟩
  · rw [(sdlog_globals _ _ _ _).1, (timed_read_globals _ _ _ _).1]
  · rw [(sdlog_globals _ _ _ _).2.1, (timed_read_globals _ _ _ _).2.1]
  · rw [(sdlog_globals _ _ _ _).2.2.1, (timed_read_globals _ _ _ _).2.2.1]
  · rw [(sdlog_world _ _ _ _).1, (timed_read_world _ _ _ _).1]
    simp only [dev_lseek, List.append_assoc, List.singleton_append]
  · refine ⟨(timed_read E D s.g (dev_lseek s.w (block_offset s.index s.g.block_size))).2.2.2,
      ?_, ?_⟩
    · rw [(sdlog_globals _ _ _ _).2.2.2.1, (timed_read_globals _ _ _ _).2.2.2.1]
      rw [sdmsg_congr E _ s.g _ _ (timed_read_globals _ _ _ _).2.2.2.2.1
        (timed_read_globals _ _ _ _).2.2.2.2.2.1]
    · rw [(sdlog_world _ _ _ _).2.2.2, (timed_read_globals _ _ _ _).2.2.2.1,
        (timed_read_globals _ _ _ _).2.2.2.2.2.2.2, (timed_read_world _ _ _ _).2.2.2]
      rw [sdmsg_congr E _ s.g _ _ (timed_read_globals _ _ _ _).2.2.2.2.1
        (timed_read_globals _ _ _ _).2.2.2.2.2.1]
      rfl

/-- A step at `read_zeros` when the read-back equals the write buffer. -/
theorem step_read_zeros_good {σ : Type} (E : env) (D : device σ) (s : test_state σ)
    (h : s.pc = loc.read_zeros)
    (hgood : memcmp (read_back D s) s.wbuf s.g.block_size = false) :
    (step E D s).pc = loc.block_check ∧ (step E D s).rc = s.rc ∧
    (step E D s).index = (s.index + 1) % 2^32 ∧
    config (step E D s).g = config s.g ∧
    (step E D s).g.pass_count = s.g.pass_count ∧
    (step E D s).g.written_total = s.g.written_total ∧
    (step E D s).w.dev =
      (D.pread s.w.dev (block_offset s.index s.g.block_size) s.g.block_size).2 ∧
    (step E D s).w.ops = s.w.ops ++ [io_op.lseek (block_offset s.index s.g.block_size),
        io_op.read (block_offset s.index s.g.block_size) s.g.block_size] := by
  unfold step
  simp only [h, timed_read_data, hgood, Bool.false_eq_true, ↓reduceIte]
  refine ⟨trivial, trivial, trivial, ?_, ?_, ?_, ?_, ?_⟩
  · rw [(verbose_log_globals _ _ _ _ _ _ _).1, (timed_read_globals _ _ _ _).1]
  · rw [(verbose_log_globals _ _ _ _ _ _ _).2.1, (timed_read_globals _ _ _ _).2.1]
  · rw [(verbose_log_globals _ _ _ _ _ _ _).2.2, (timed_read_globals _ _ _ _).2.2.1]
  · rw [(verbose_log_world _ _ _ _ _ _ _).2, (timed_read_world _ _ _ _).2.1]
    simp only [dev_lseek]
  · rw [(verbose_log_world _ _ _ _ _ _ _).1, (timed_read_world _ _ _ _).1]
    simp only [dev_lseek, List.append_assoc, List.singleton_append]

/-- A step at the head of a pass. -/
theorem step_pass_start {σ : Type} (E : env) (D : device σ) (s : test_state σ)
    (h : s.pc = loc.pass_start) :
    (step E D s).pc =
      (if s.g.quitpasses ≠ 0 ∧ int_to_u64 s.g.quitpasses ≤ s.g.pass_count then loc.done
       else loc.block_check) ∧
    (step E D s).rc = s.rc ∧ (step E D s).index = 0 ∧
    config (step E D s).g = config s.g ∧
    (step E D s).g.pass_count = s.g.pass_count ∧
    (step E D s).g.written_total = s.g.written_total ∧
    (step E D s).w.dev = s.w.dev ∧
    (step E D s).w.ops = s.w.ops ++ [io_op.lseek 0] ∧
    (step E D s).g.logfd = s.g.logfd.map (fun f => f.put (sdmsg E s.g (dev_lseek s.w 0)
      (stats_msg s.g.written_total s.g.pass_count s.pass_wrbps s.pass_rdbps ++ "\n".toList))) := by
  have hq : (sdlog E s.g (dev_lseek s.w 0) (stats_msg s.g.written_total s.g.pass_count
      s.pass_wrbps s.pass_rdbps ++ "\n".toList)).1.quitpasses = s.g.quitpasses := by
    have := (sdlog_globals E s.g (dev_lseek s.w 0) (stats_msg s.g.written_total s.g.pass_count
      s.pass_wrbps s.pass_rdbps ++ "\n".toList)).1
    unfold config at this
    exact (Prod.mk.inj (Prod.mk.inj this).2).2
  unfold step
  simp only [h, hq, (sdlog_globals _ _ _ _).2.1]
  split
  · refine ⟨rfl, rfl, rfl, ?_, ?_, ?_, ?_, ?_, ?_⟩
    · exact (sdlog_globals _ _ _ _).1
    · exact (sdlog_globals _ _ _ _).2.1
    · exact (sdlog_globals _ _ _ _).2.2.1
    · exact (sdlog_world _ _ _ _).2.1
    · exact (sdlog_world _ _ _ _).1
    · exact (sdlog_globals _ _ _ _).2.2.2.1
  · refine ⟨rfl, rfl, rfl, ?_, ?_, ?_, ?_, ?_, ?_⟩
    · exact (sdlog_globals _ _ _ _).1
    · exact (sdlog_globals _ _ _ _).2.1
    · exact (sdlog_globals _ _ _ _).2.2.1
    · exact (sdlog_world _ _ _ _).2.1
    · exact (sdlog_world _ _ _ _).1
    · exact (sdlog_globals _ _ _ _).2.2.2.1

/-- A step at the test of the block loop. -/
theorem step_block_check {σ : Type} (E : env) (D : device σ) (s : test_state σ)
    (h : s.pc = loc.block_check) :
    step E D s =
      { s with pc := if s.index < s.g.block_writes then loc.write_ones else loc.pass_end } := by
  unfold step
  simp only [h]
  split <;> rfl

/-- A step at the end of a pass. -/
theorem step_pass_end {σ : Type} (E : env) (D : device σ) (s : test_state σ)
    (h : s.pc = loc.pass_end) :
    (step E D s).pc = loc.pass_start ∧ (step E D s).rc = s.rc ∧
    (step E D s).index = s.index ∧
    config (step E D s).g = config s.g ∧
    (step E D s).g.pass_count = (s.g.pass_count + 1) % 2^64 ∧
    (step E D s).g.written_total = s.g.written_total ∧
    (step E D s).w = s.w ∧
    (step E D s).g.logfd = s.g.logfd := by
  unfold step
  simp only [h, config, and_self]

/-- The label `done` is final. -/
theorem step_done {σ : Type} (E : env) (D : device σ) (s : test_state σ)
    (h : s.pc = loc.done) : step E D s = s := by
  unfold step
  simp only [h]

/-- No step is taken from `done`. -/
theorem run_done {σ : Type} (E : env) (D : device σ) (k : Nat) (s : test_state σ)
    (h : s.pc = loc.done) : run E D k s = s := by
  induction k with
  | zero => rfl
  | succ k ih => rw [run, step_done E D s h, ih]

/-- Steps add up. -/
theorem run_add {σ : Type} (E : env) (D : device σ) (a b : Nat) (s : test_state σ) :
    run E D (a + b) s = run E D b (run E D a s) := by
  induction a generalizing s with
  | zero => simp only [Nat.zero_add, run]
  | succ a ih =>
    rw [Nat.succ_add, run, run, ih]

/-- One more step at the end. -/
theorem run_succ {σ : Type} (E : env) (D : device σ) (a : Nat) (s : test_state σ) :
    run E D (a + 1) s = step E D (run E D a s) := by
  rw [run_add]; rfl

/-! ## Test engine: accounting of writes -/

/-- A seek and a write add one write to the trace. -/
theorem count_writes_seek_write (ops : List io_op) (a b c : Nat) :
    count_writes (ops ++ [io_op.lseek a, io_op.write b c]) = count_writes ops + 1 := by
  simp [count_writes, io_op.is_write]

/-- A seek and a read add no write to the trace. -/
theorem count_writes_seek_read (ops : List io_op) (a b c : Nat) :
    count_writes (ops ++ [io_op.lseek a, io_op.read b c]) = count_writes ops := by
  simp [count_writes, io_op.is_write]

/-- A seek adds no write to the trace. -/
theorem count_writes_seek (ops : List io_op) (a : Nat) :
    count_writes (ops ++ [io_op.lseek a]) = count_writes ops := by
  simp [count_writes, io_op.is_write]

/-- A seek and a write add no read to the trace. -/
theorem count_reads_seek_write (ops : List io_op) (a b c : Nat) :
    count_reads (ops ++ [io_op.lseek a, io_op.write b c]) = count_reads ops := by
  simp [count_reads, io_op.is_read]

/-- A seek and a read add one read to the trace. -/
theorem count_reads_seek_read (ops : List io_op) (a b c : Nat) :
    count_reads (ops ++ [io_op.lseek a, io_op.read b c]) = count_reads ops + 1 := by
  simp [count_reads, io_op.is_read]

/-- A seek adds no read to the trace. -/
theorem count_reads_seek (ops : List io_op) (a : Nat) :
    count_reads (ops ++ [io_op.lseek a]) = count_reads ops := by
  simp [count_reads, io_op.is_read]

/-- Every step keeps the setup, and either leaves the byte counter and the
number of writes alone or is a write step: it appends a seek and a write to the
trace and adds the block size to the byte counter, modulo `2^64`. -/
theorem step_accounting {σ : Type} (E : env) (D : device σ) (s : test_state σ) :
    config (step E D s).g = config s.g ∧
    (((step E D s).g.written_total = s.g.written_total ∧
        count_writes (step E D s).w.ops = count_writes s.w.ops) ∨
     ((s.pc = loc.write_ones ∨ s.pc = loc.write_zeros) ∧
        (step E D s).w.ops = s.w.ops ++ [io_op.lseek (block_offset s.index s.g.block_size),
          io_op.write (block_offset s.index s.g.block_size) s.g.block_size] ∧
        (step E D s).g.written_total = (s.g.written_total + s.g.block_size) % 2^64 ∧
        count_writes (step E D s).w.ops = count_writes s.w.ops + 1)) := by
  cases hpc : s.pc with
  | pass_start =>
    have h := step_pass_start E D s hpc
    exact ⟨h.2.2.2.1, Or.inl ⟨h.2.2.2.2.2.1, by rw [h.2.2.2.2.2.2.2.1, count_writes_seek]⟩⟩
  | block_check =>
    rw [step_block_check E D s hpc]
    exact ⟨rfl, Or.inl ⟨rfl, rfl⟩⟩
  | write_ones =>
    have h := step_write_ones E D s hpc
    exact ⟨h.2.2.2.1, Or.inr ⟨Or.inl rfl, h.2.2.2.2.2.2.2.2, h.2.2.2.2.2.1,
      by rw [h.2.2.2.2.2.2.2.2, count_writes_seek_write]⟩⟩
  | read_ones =>
    cases hm : memcmp (read_back D s) s.wbuf s.g.block_size with
    | true =>
      have h := step_read_ones_bad E D s hpc hm
      exact ⟨h.2.2.2.1, Or.inl ⟨h.2.2.2.2.2.1, by rw [h.2.2.2.2.2.2.1, count_writes_seek_read]⟩⟩
    | false =>
      have h := step_read_ones_good E D s hpc hm
      exact ⟨h.2.2.2.1, Or.inl ⟨h.2.2.2.2.2.1, by rw [h.2.2.2.2.2.2.2, count_writes_seek_read]⟩⟩
  | write_zeros =>
    have h := step_write_zeros E D s hpc
    exact ⟨h.2.2.2.1, Or.inr ⟨Or.inr rfl, h.2.2.2.2.2.2.2.2, h.2.2.2.2.2.1,
      by rw [h.2.2.2.2.2.2.2.2, count_writes_seek_write]⟩⟩
  | read_zeros =>
    cases hm : memcmp (read_back D s) s.wbuf s.g.block_size with
    | true =>
      have h := step_read_zeros_bad E D s hpc hm
      exact ⟨h.2.2.2.1, Or.inl ⟨h.2.2.2.2.2.1, by rw [h.2.2.2.2.2.2.1, count_writes_seek_read]⟩⟩
    | false =>
      have h := step_read_zeros_good E D s hpc hm
      exact ⟨h.2.2.2.1, Or.inl ⟨h.2.2.2.2.2.1, by rw [h.2.2.2.2.2.2.2, count_writes_seek_read]⟩⟩
  | pass_end =>
    have h := step_pass_end E D s hpc
    exact ⟨h.2.2.2.1, Or.inl ⟨h.2.2.2.2.2.1, by rw [h.2.2.2.2.2.2.1]⟩⟩
  | done =>
    rw [step_done E D s hpc]
    exact ⟨rfl, Or.inl ⟨rfl, rfl⟩⟩

/-- The block size of a setup. -/
theorem config_block_size {g1 g2 : globals_t} (h : config g1 = config g2) :
    g1.block_size = g2.block_size := by
  unfold config at h
  exact (Prod.mk.inj h).1

/-- The block count of a setup. -/
theorem config_block_writes {g1 g2 : globals_t} (h : config g1 = config g2) :
    g1.block_writes = g2.block_writes := by
  unfold config at h
  exact (Prod.mk.inj (Prod.mk.inj h).2).1

/-- The quit limit of a setup. -/
theorem config_quitpasses {g1 g2 : globals_t} (h : config g1 = config g2) :
    g1.quitpasses = g2.quitpasses := by
  unfold config at h
  exact (Prod.mk.inj (Prod.mk.inj h).2).2

/-- After any number of steps the setup is the same, no write has left the
trace, and the byte counter is the start value plus the block size times the
number of writes issued, modulo `2^64`. -/
theorem run_accounting {σ : Type} (E : env) (D : device σ) (k : Nat) (s : test_state σ)
    (hW : s.g.written_total < 2^64) :
    config (run E D k s).g = config s.g ∧
    count_writes s.w.ops ≤ count_writes (run E D k s).w.ops ∧
    (run E D k s).g.written_total =
      (s.g.written_total +
        s.g.block_size * (count_writes (run E D k s).w.ops - count_writes s.w.ops)) % 2^64 := by
  induction k with
  | zero =>
    refine ⟨rfl, Nat.le_refl _, ?_⟩
    simp only [run, Nat.sub_self, Nat.mul_zero, Nat.add_zero]
    exact (Nat.mod_eq_of_lt hW).symm
  | succ k ih =>
    rw [run_succ]
    obtain ⟨hc, hle, hwt⟩ := ih
    have hs := step_accounting E D (run E D k s)
    refine ⟨hs.1.trans hc, ?_, ?_⟩
    · rcases hs.2 with h | h
      · rw [h.2]; exact hle
      · rw [h.2.2.2]; exact Nat.le_succ_of_le hle
    · rcases hs.2 with h | h
      · rw [h.1, h.2]; exact hwt
      · rw [h.2.2.1, h.2.2.2, hwt, config_block_size hc]
        have e : count_writes (run E D k s).w.ops + 1 - count_writes s.w.ops =
            (count_writes (run E D k s).w.ops - count_writes s.w.ops) + 1 := by omega
        rw [e, Nat.mul_succ, Nat.add_mod, Nat.mod_mod, ← Nat.add_mod, Nat.add_assoc]

/-! ## Test engine: one block -/

/-- Comparing a buffer with itself. -/
theorem memcmp_self (a : List Nat) (n : Nat) : memcmp a a n = false := by
  simp [memcmp]

/-- From the test of the block loop to the read of the ones. -/
theorem block_first_half {σ : Type} (E : env) (D : device σ) (s : test_state σ)
    (h : s.pc = loc.block_check) (hi : s.index < s.g.block_writes) :
    (run E D 2 s).pc = loc.read_ones ∧ (run E D 2 s).rc = s.rc ∧
    (run E D 2 s).index = s.index ∧ config (run E D 2 s).g = config s.g ∧
    (run E D 2 s).g.pass_count = s.g.pass_count ∧
    (run E D 2 s).g.written_total = (s.g.written_total + s.g.block_size) % 2^64 ∧
    (run E D 2 s).wbuf = List.replicate s.g.block_size 255 ∧
    (run E D 2 s).w.dev = D.pwrite s.w.dev (block_offset s.index s.g.block_size)
        (List.replicate s.g.block_size 255) ∧
    (run E D 2 s).w.ops = s.w.ops ++ [io_op.lseek (block_offset s.index s.g.block_size),
        io_op.write (block_offset s.index s.g.block_size) s.g.block_size] := by
  have h1 : run E D 1 s = { s with pc := loc.write_ones } := by
    show run E D 0 (step E D s) = _
    rw [run, step_block_check E D s h, if_pos hi]
  have h2 : run E D 2 s = step E D { s with pc := loc.write_ones } := by
    rw [run_succ E D 1 s, h1]
  rw [h2]
  exact step_write_ones E D { s with pc := loc.write_ones } rfl


/-- A block whose ones are not read back ends the run at the third step. -/
theorem block_ones_bad {σ : Type} (E : env) (D : device σ) (s : test_state σ)
    (h : s.pc = loc.block_check) (hi : s.index < s.g.block_writes)
    (hbad : memcmp (read_back D (run E D 2 s)) (run E D 2 s).wbuf
      (run E D 2 s).g.block_size = true) :
    (run E D 3 s).pc = loc.done ∧ (run E D 3 s).rc = -1 ∧
    (run E D 3 s).index = s.index ∧ config (run E D 3 s).g = config s.g ∧
    (run E D 3 s).g.pass_count = s.g.pass_count ∧
    (run E D 3 s).g.written_total = (s.g.written_total + s.g.block_size) % 2^64 ∧
    (run E D 3 s).w.ops = s.w.ops ++ [io_op.lseek (block_offset s.index s.g.block_size),
        io_op.write (block_offset s.index s.g.block_size) s.g.block_size,
        io_op.lseek (block_offset s.index s.g.block_size),
        io_op.read (block_offset s.index s.g.block_size) s.g.block_size] := by
  obtain ⟨a1, a2, a3, a4, a5, a6, _, _, a9⟩ := block_first_half E D s h hi
  obtain ⟨b1, b2, b3, b4, b5, b6, b7, _⟩ := step_read_ones_bad E D (run E D 2 s) a1 hbad
  rw [run_succ E D 2 s]
  refine ⟨b1, b2, b3.trans a3, b4.trans a4, b5.trans a5, b6.trans a6, ?_⟩
  rw [b7, a9, a3, config_block_size a4]
  simp only [List.append_assoc, List.cons_append, List.nil_append]

/-- From the test of the block loop to the read of the zeros, when the ones are
read back. -/
theorem block_second_half {σ : Type} (E : env) (D : device σ) (s : test_state σ)
    (h : s.pc = loc.block_check) (hi : s.index < s.g.block_writes)
    (hgood : memcmp (read_back D (run E D 2 s)) (run E D 2 s).wbuf
      (run E D 2 s).g.block_size = false) :
    (run E D 4 s).pc = loc.read_zeros ∧ (run E D 4 s).rc = s.rc ∧
    (run E D 4 s).index = s.index ∧ config (run E D 4 s).g = config s.g ∧
    (run E D 4 s).g.pass_count = s.g.pass_count ∧
    (run E D 4 s).g.written_total = (s.g.written_total + 2 * s.g.block_size) % 2^64 ∧
    (run E D 4 s).wbuf = List.replicate s.g.block_size 0 ∧
    (run E D 4 s).w.dev = D.pwrite (run E D 3 s).w.dev (block_offset s.index s.g.block_size)
        (List.replicate s.g.block_size 0) ∧
    (run E D 4 s).w.ops = s.w.ops ++ [io_op.lseek (block_offset s.index s.g.block_size),
        io_op.write (block_offset s.index s.g.block_size) s.g.block_size,
        io_op.lseek (block_offset s.index s.g.block_size),
        io_op.read (block_offset s.index s.g.block_size) s.g.block_size,
        io_op.lseek (block_offset s.index s.g.block_size),
        io_op.write (block_offset s.index s.g.block_size) s.g.block_size] := by
  obtain ⟨a1, a2, a3, a4, a5, a6, _, _, a9⟩ := block_first_half E D s h hi
  obtain ⟨b1, b2, b3, b4, b5, b6, _, b8⟩ := step_read_ones_good E D (run E D 2 s) a1 hgood
  rw [← run_succ E D 2 s] at b1 b2 b3 b4 b5 b6 b8
  obtain ⟨c1, c2, c3, c4, c5, c6, c7, c8, c9⟩ := step_write_zeros E D (run E D 3 s) b1
  rw [← run_succ E D 3 s] at c1 c2 c3 c4 c5 c6 c7 c8 c9
  have hbs : (run E D 3 s).g.block_size = s.g.block_size := config_block_size (b4.trans a4)
  have hix : (run E D 3 s).index = s.index := b3.trans a3
  refine ⟨c1, c2.trans (b2.trans a2), c3.trans hix, c4.trans (b4.trans a4),
    c5.trans (b5.trans a5), ?_, ?_, ?_, ?_⟩
  · rw [c6, b6, a6, hbs, Nat.mod_add_mod]
    congr 1
    omega
  · rw [c7, hbs]
  · rw [c8, hix, hbs]
  · rw [c9, b8, a9, hix, hbs, a3, config_block_size a4]
    simp only [List.append_assoc, List.cons_append, List.nil_append]

/-- A block whose zeros are not read back ends the run at the fifth step. -/
theorem block_zeros_bad {σ : Type} (E : env) (D : device σ) (s : test_state σ)
    (h : s.pc = loc.block_check) (hi : s.index < s.g.block_writes)
    (hgood : memcmp (read_back D (run E D 2 s)) (run E D 2 s).wbuf
      (run E D 2 s).g.block_size = false)
    (hbad : memcmp (read_back D (run E D 4 s)) (run E D 4 s).wbuf
      (run E D 4 s).g.block_size = true) :
    (run E D 5 s).pc = loc.done ∧ (run E D 5 s).rc = -1 ∧
    (run E D 5 s).index = s.index ∧ config (run E D 5 s).g = config s.g ∧
    (run E D 5 s).g.pass_count = s.g.pass_count ∧
    (run E D 5 s).g.written_total = (s.g.written_total + 2 * s.g.block_size) % 2^64 ∧
    (run E D 5 s).w.ops =
      s.w.ops ++ block_ops (block_offset s.index s.g.block_size) s.g.block_size := by
  obtain ⟨a1, a2, a3, a4, a5, a6, _, _, a9⟩ := block_second_half E D s h hi hgood
  obtain ⟨b1, b2, b3, b4, b5, b6, b7, _⟩ := step_read_zeros_bad E D (run E D 4 s) a1 hbad
  rw [run_succ E D 4 s]
  refine ⟨b1, b2, b3.trans a3, b4.trans a4, b5.trans a5, b6.trans a6, ?_⟩
  rw [b7, a9, a3, config_block_size a4]
  simp only [block_ops, List.append_assoc, List.cons_append, List.nil_append]

/-- A block that reads back both patterns: five steps lead to the test of the
block loop with the next index, two block sizes more on the byte counter and
the eight device calls of the block on the trace. -/
theorem block_good {σ : Type} (E : env) (D : device σ) (s : test_state σ)
    (h : s.pc = loc.block_check) (hi : s.index < s.g.block_writes)
    (hgood1 : memcmp (read_back D (run E D 2 s)) (run E D 2 s).wbuf
      (run E D 2 s).g.block_size = false)
    (hgood2 : memcmp (read_back D (run E D 4 s)) (run E D 4 s).wbuf
      (run E D 4 s).g.block_size = false) :
    (run E D 5 s).pc = loc.block_check ∧ (run E D 5 s).rc = s.rc ∧
    (run E D 5 s).index = (s.index + 1) % 2^32 ∧ config (run E D 5 s).g = config s.g ∧
    (run E D 5 s).g.pass_count = s.g.pass_count ∧
    (run E D 5 s).g.written_total = (s.g.written_total + 2 * s.g.block_size) % 2^64 ∧
    (run E D 5 s).w.ops =
      s.w.ops ++ block_ops (block_offset s.index s.g.block_size) s.g.block_size := by
  obtain ⟨a1, a2, a3, a4, a5, a6, _, _, a9⟩ := block_second_half E D s h hi hgood1
  obtain ⟨b1, b2, b3, b4, b5, b6, _, b8⟩ := step_read_zeros_good E D (run E D 4 s) a1 hgood2
  rw [run_succ E D 4 s]
  refine ⟨b1, b2.trans a2, by rw [b3, a3], b4.trans a4, b5.trans a5, b6.trans a6, ?_⟩
  rw [b8, a9, a3, config_block_size a4]
  simp only [block_ops, List.append_assoc, List.cons_append, List.nil_append]

/-- On a lawful device the ones are read back. -/
theorem lawful_ones {σ : Type} (E : env) (D : device σ) (s : test_state σ) (hlaw : lawful D)
    (h : s.pc = loc.block_check) (hi : s.index < s.g.block_writes) :
    memcmp (read_back D (run E D 2 s)) (run E D 2 s).wbuf (run E D 2 s).g.block_size = false := by
  obtain ⟨_, _, a3, a4, _, _, a7, a8, _⟩ := block_first_half E D s h hi
  have e : read_back D (run E D 2 s) = List.replicate s.g.block_size 255 := by
    unfold read_back
    rw [a8, a3, config_block_size a4]
    have := hlaw s.w.dev (block_offset s.index s.g.block_size) (List.replicate s.g.block_size 255)
    rw [List.length_replicate] at this
    exact this
  rw [e, a7]
  exact memcmp_self _ _

/-- On a lawful device the zeros are read back. -/
theorem lawful_zeros {σ : Type} (E : env) (D : device σ) (s : test_state σ) (hlaw : lawful D)
    (h : s.pc = loc.block_check) (hi : s.index < s.g.block_writes) :
    memcmp (read_back D (run E D 4 s)) (run E D 4 s).wbuf (run E D 4 s).g.block_size = false := by
  obtain ⟨_, _, a3, a4, _, _, a7, a8, _⟩ :=
    block_second_half E D s h hi (lawful_ones E D s hlaw h hi)
  have e : read_back D (run E D 4 s) = List.replicate s.g.block_size 0 := by
    unfold read_back
    rw [a8, a3, config_block_size a4]
    have := hlaw (run E D 3 s).w.dev (block_offset s.index s.g.block_size)
      (List.replicate s.g.block_size 0)
    rw [List.length_replicate] at this
    exact this
  rw [e, a7]
  exact memcmp_self _ _

/-! ## Test engine: passes on a lawful device -/

/-- The writes of a block. -/
theorem count_writes_block (ops : List io_op) (off len : Nat) :
    count_writes (ops ++ block_ops off len) = count_writes ops + 2 := by
  simp [count_writes, block_ops, io_op.is_write]

/-- The reads of a block. -/
theorem count_reads_block (ops : List io_op) (off len : Nat) :
    count_reads (ops ++ block_ops off len) = count_reads ops + 2 := by
  simp [count_reads, block_ops, io_op.is_read]

/-- On a lawful device the block loop runs from any index to the block count:
`r` blocks take `5 * r` steps, `2 * r` writes and `2 * r` reads. -/
theorem blocks_good {σ : Type} (E : env) (D : device σ) (hlaw : lawful D) (r : Nat)
    (s : test_state σ) (h : s.pc = loc.block_check)
    (hr : s.index + r = s.g.block_writes) (hn : s.g.block_writes < 2^32)
    (hW : s.g.written_total < 2^64) :
    (run E D (5 * r) s).pc = loc.block_check ∧ (run E D (5 * r) s).rc = s.rc ∧
    (run E D (5 * r) s).index = s.g.block_writes ∧
    config (run E D (5 * r) s).g = config s.g ∧
    (run E D (5 * r) s).g.pass_count = s.g.pass_count ∧
    (run E D (5 * r) s).g.written_total =
      (s.g.written_total + 2 * s.g.block_size * r) % 2^64 ∧
    count_writes (run E D (5 * r) s).w.ops = count_writes s.w.ops + 2 * r ∧
    count_reads (run E D (5 * r) s).w.ops = count_reads s.w.ops + 2 * r := by
  induction r generalizing s with
  | zero =>
    simp only [Nat.mul_zero, run, Nat.add_zero, true_and, h, and_true]
    exact ⟨hr, (Nat.mod_eq_of_lt hW).symm⟩
  | succ r ih =>
    have hi : s.index < s.g.block_writes := by omega
    obtain ⟨a1, a2, a3, a4, a5, a6, a7⟩ := block_good E D s h hi
      (lawful_ones E D s hlaw h hi) (lawful_zeros E D s hlaw h hi)
    have hbw : (run E D 5 s).g.block_writes = s.g.block_writes := config_block_writes a4
    have hbs : (run E D 5 s).g.block_size = s.g.block_size := config_block_size a4
    have hix : (run E D 5 s).index = s.index + 1 := by
      rw [a3]; exact Nat.mod_eq_of_lt (by omega)
    obtain ⟨b1, b2, b3, b4, b5, b6, b7, b8⟩ := ih (run E D 5 s) a1
      (by rw [hix, hbw]; omega) (by rw [hbw]; exact hn)
      (by rw [a6]; exact Nat.mod_lt _ (by norm_num))
    have e : 5 * (r + 1) = 5 + 5 * r := by omega
    rw [e, run_add]
    refine ⟨b1, b2.trans a2, b3.trans hbw, b4.trans a4, b5.trans a5, ?_, ?_, ?_⟩
    · rw [b6, a6, hbs, Nat.mod_add_mod]
      congr 1
      rw [Nat.mul_succ]
      omega
    · rw [b7, a7, count_writes_block]; omega
    · rw [b8, a7, count_reads_block]; omega


/-- On a lawful device a pass that is not stopped by the quit limit takes
`5 * block_writes + 3` steps, `2 * block_writes` writes and as many reads, and
adds one to the pass count. -/
theorem pass_good {σ : Type} (E : env) (D : device σ) (hlaw : lawful D) (s : test_state σ)
    (h : s.pc = loc.pass_start)
    (hq : ¬ (s.g.quitpasses ≠ 0 ∧ int_to_u64 s.g.quitpasses ≤ s.g.pass_count))
    (hn : s.g.block_writes < 2^32) (hW : s.g.written_total < 2^64) :
    (run E D (5 * s.g.block_writes + 3) s).pc = loc.pass_start ∧
    (run E D (5 * s.g.block_writes + 3) s).rc = s.rc ∧
    config (run E D (5 * s.g.block_writes + 3) s).g = config s.g ∧
    (run E D (5 * s.g.block_writes + 3) s).g.pass_count = (s.g.pass_count + 1) % 2^64 ∧
    (run E D (5 * s.g.block_writes + 3) s).g.written_total =
      (s.g.written_total + 2 * s.g.block_size * s.g.block_writes) % 2^64 ∧
    count_writes (run E D (5 * s.g.block_writes + 3) s).w.ops =
      count_writes s.w.ops + 2 * s.g.block_writes ∧
    count_reads (run E D (5 * s.g.block_writes + 3) s).w.ops =
      count_reads s.w.ops + 2 * s.g.block_writes := by
  obtain ⟨a1, a2, a3, a4, a5, a6, _, a8, _⟩ := step_pass_start E D s h
  rw [if_neg hq] at a1
  have hbw : (step E D s).g.block_writes = s.g.block_writes := config_block_writes a4
  have hbs : (step E D s).g.block_size = s.g.block_size := config_block_size a4
  obtain ⟨b1, b2, b3, b4, b5, b6, b7, b8⟩ := blocks_good E D hlaw s.g.block_writes
    (step E D s) a1 (by rw [a3, hbw]; omega) (by rw [hbw]; exact hn) (by rw [a6]; exact hW)
  have e : 5 * s.g.block_writes + 3 = 1 + (5 * s.g.block_writes + 1 + 1) := by omega
  have hrun : run E D (5 * s.g.block_writes + 3) s =
      step E D (step E D (run E D (5 * s.g.block_writes) (step E D s))) := by
    rw [e, run_add, run_succ, run_succ]
    rfl
  rw [hrun]
  generalize run E D (5 * s.g.block_writes) (step E D s) = t at b1 b2 b3 b4 b5 b6 b7 b8
  have hc := step_block_check E D t b1
  rw [if_neg (by rw [b3, config_block_writes b4]; omega)] at hc
  have c1 : (step E D t).pc = loc.pass_end := by rw [hc]
  have c2 : (step E D t).rc = t.rc := by rw [hc]
  have c3 : (step E D t).g = t.g := by rw [hc]
  have c4 : (step E D t).w = t.w := by rw [hc]
  obtain ⟨d1, d2, _, d4, d5, d6, d7, _⟩ := step_pass_end E D (step E D t) c1
  rw [c3] at d4 d5 d6
  refine ⟨d1, d2.trans (c2.trans (b2.trans a2)), d4.trans (b4.trans a4), ?_, ?_, ?_, ?_⟩
  · rw [d5, b5, a5]
  · rw [d6, b6, a6, hbs]
  · rw [d7, c4, b7, a8, count_writes_seek]
  · rw [d7, c4, b8, a8, count_reads_seek]


/-- A quit limit as `uint64_t` is below `2^64`. -/
theorem int_to_u64_lt (i : Int) : int_to_u64 i < 2^64 := by
  unfold int_to_u64
  have h1 : 0 ≤ i % 2^64 := Int.emod_nonneg _ (by norm_num)
  have h2 : i % 2^64 < 2^64 := Int.emod_lt_of_pos _ (by norm_num)
  omega

/-- A quit limit in the range of `int` that is positive converts to itself. -/
theorem int_to_u64_of_pos (i : Int) (h0 : 0 ≤ i) (h1 : i < 2^31) :
    int_to_u64 i = i.toNat := by
  unfold int_to_u64
  rw [Int.emod_eq_of_lt h0 (by omega)]

/-- On a lawful device `r` passes below the quit limit take `r` times
`5 * block_writes + 3` steps and lead to the head of the next pass. -/
theorem passes_good {σ : Type} (E : env) (D : device σ) (hlaw : lawful D) (r : Nat)
    (s : test_state σ) (h : s.pc = loc.pass_start)
    (hr : s.g.pass_count + r = int_to_u64 s.g.quitpasses)
    (hn : s.g.block_writes < 2^32) (hW : s.g.written_total < 2^64) :
    (run E D (r * (5 * s.g.block_writes + 3)) s).pc = loc.pass_start ∧
    (run E D (r * (5 * s.g.block_writes + 3)) s).rc = s.rc ∧
    config (run E D (r * (5 * s.g.block_writes + 3)) s).g = config s.g ∧
    (run E D (r * (5 * s.g.block_writes + 3)) s).g.pass_count = int_to_u64 s.g.quitpasses ∧
    (run E D (r * (5 * s.g.block_writes + 3)) s).g.written_total =
      (s.g.written_total + 2 * s.g.block_size * s.g.block_writes * r) % 2^64 ∧
    count_writes (run E D (r * (5 * s.g.block_writes + 3)) s).w.ops =
      count_writes s.w.ops + 2 * s.g.block_writes * r ∧
    count_reads (run E D (r * (5 * s.g.block_writes + 3)) s).w.ops =
      count_reads s.w.ops + 2 * s.g.block_writes * r := by
  induction r generalizing s with
  | zero =>
    simp only [Nat.zero_mul, run, Nat.mul_zero, Nat.add_zero, true_and, h, and_true]
    exact ⟨by omega, (Nat.mod_eq_of_lt hW).symm⟩
  | succ r ih =>
    have hlt := int_to_u64_lt s.g.quitpasses
    obtain ⟨a1, a2, a3, a4, a5, a6, a7⟩ := pass_good E D hlaw s h (by omega) hn hW
    have hbw := config_block_writes a3
    have hbs := config_block_size a3
    have hqp := config_quitpasses a3
    have hpc : (run E D (5 * s.g.block_writes + 3) s).g.pass_count = s.g.pass_count + 1 := by
      rw [a4]; exact Nat.mod_eq_of_lt (by omega)
    obtain ⟨b1, b2, b3, b4, b5, b6, b7⟩ := ih (run E D (5 * s.g.block_writes + 3) s) a1
      (by rw [hpc, hqp]; omega) (by rw [hbw]; exact hn)
      (by rw [a5]; exact Nat.mod_lt _ (by norm_num))
    rw [hbw, hbs, hqp] at *
    have e : (r + 1) * (5 * s.g.block_writes + 3) =
        (5 * s.g.block_writes + 3) + r * (5 * s.g.block_writes + 3) := by
      rw [Nat.succ_mul, Nat.add_comm]
    rw [e, run_add]
    refine ⟨b1, b2.trans a2, b3.trans a3, b4, ?_, ?_, ?_⟩
    · rw [b5, a5, Nat.mod_add_mod]
      congr 1
      rw [Nat.mul_succ]
      omega
    · rw [b6, a6, Nat.mul_succ]; omega
    · rw [b7, a7, Nat.mul_succ]; omega


/-- Once the run has reached `done`, more fuel changes nothing. -/
theorem run_of_done {σ : Type} (E : env) (D : device σ) (k fuel : Nat) (s : test_state σ)
    (h : (run E D k s).pc = loc.done) (hk : k ≤ fuel) : run E D fuel s = run E D k s := by
  have e : fuel = k + (fuel - k) := by omega
  rw [e, run_add, run_done E D _ _ h]

/-- The result of `device_test` when its loop reaches `done` within the fuel:
the `rc` and the globals at `done`, and the world after `close`. -/
theorem device_test_of_done {σ : Type} (E : env) (D : device σ) (g : globals_t) (w : world σ)
    (k fuel : Nat) (hopen : E.dev_open_ok = true)
    (h : (run E D k (test_init E g (opened w))).pc = loc.done) (hk : k ≤ fuel) :
    device_test fuel E D g w = some (Except.ok
      ((run E D k (test_init E g (opened w))).rc, (run E D k (test_init E g (opened w))).g,
       { (run E D k (test_init E g (opened w))).w with
         ops := (run E D k (test_init E g (opened w))).w.ops ++ [io_op.close] })) := by
  have hr := run_of_done E D k fuel _ h hk
  unfold device_test
  simp only [hopen, Bool.not_true, Bool.false_eq_true, ↓reduceIte]
  have e : ({ w with ops := w.ops ++ [io_op.dev_open], fdpos := 0 } : world σ) = opened w := rfl
  rw [e, hr, if_pos h]

/-- The close adds no write to the trace. -/
theorem count_writes_close (ops : List io_op) :
    count_writes (ops ++ [io_op.close]) = count_writes ops := by
  simp [count_writes, io_op.is_write]

/-- The close adds no read to the trace. -/
theorem count_reads_close (ops : List io_op) :
    count_reads (ops ++ [io_op.close]) = count_reads ops := by
  simp [count_reads, io_op.is_read]

/-- The open adds no write to the trace. -/
theorem count_writes_opened {σ : Type} (w : world σ) :
    count_writes (opened w).ops = count_writes w.ops := by
  simp [opened, count_writes, io_op.is_write]

/-- The open adds no read to the trace. -/
theorem count_reads_opened {σ : Type} (w : world σ) :
    count_reads (opened w).ops = count_reads w.ops := by
  simp [opened, count_reads, io_op.is_read]

/-- Claim C6, as amended: on a device that returns on a read the bytes just
written at that offset, with `n = block_writes` (of any value below `2^32`),
`s = block_size`, a quit limit `Q >= 1` and an initial pass count `P0 < Q`,
`device_test` terminates (within `(Q - P0) * (5 * n + 3) + 1` steps, and with
any larger fuel), returns 0, has issued exactly `2 * n * (Q - P0)` writes and as
many reads, ends with `pass_count = Q`, and has added `2 * n * s * (Q - P0)` to
`written_total` modulo `2^64`: exactly that much whenever the sum stays below
`2^64`. -/
theorem device_test_success {σ : Type} (E : env) (D : device σ) (g : globals_t) (w : world σ)
    (hlaw : lawful D) (hopen : E.dev_open_ok = true)
    (hn : g.block_writes < 2^32)
    (hQ1 : 1 ≤ g.quitpasses) (hQ : g.quitpasses < 2^31)
    (hP : (g.pass_count : Int) < g.quitpasses) (hW : g.written_total < 2^64) :
    ∃ g1 w1,
      (∀ fuel, (g.quitpasses.toNat - g.pass_count) * (5 * g.block_writes + 3) + 1 ≤ fuel →
        device_test fuel E D g w = some (Except.ok (0, g1, w1))) ∧
      count_writes w1.ops =
        count_writes w.ops + 2 * g.block_writes * (g.quitpasses.toNat - g.pass_count) ∧
      count_reads w1.ops =
        count_reads w.ops + 2 * g.block_writes * (g.quitpasses.toNat - g.pass_count) ∧
      g1.written_total =
        (g.written_total +
          2 * g.block_writes * g.block_size * (g.quitpasses.toNat - g.pass_count)) % 2^64 ∧
      (g.written_total +
          2 * g.block_writes * g.block_size * (g.quitpasses.toNat - g.pass_count) < 2^64 →
        g1.written_total = g.written_total +
          2 * g.block_writes * g.block_size * (g.quitpasses.toNat - g.pass_count)) ∧
      (g1.pass_count : Int) = g.quitpasses := by
  have hq64 : int_to_u64 g.quitpasses = g.quitpasses.toNat :=
    int_to_u64_of_pos _ (by omega) hQ
  have hPQ : g.pass_count + (g.quitpasses.toNat - g.pass_count) = int_to_u64 g.quitpasses := by
    rw [hq64]; omega
  obtain ⟨a1, a2, a3, a4, a5, a6, a7⟩ := passes_good E D hlaw (g.quitpasses.toNat - g.pass_count)
    (test_init E g (opened w)) rfl hPQ hn hW
  have i1 : (test_init E g (opened w)).g = g := rfl
  have i2 : (test_init E g (opened w)).rc = 0 := rfl
  have i3 : (test_init E g (opened w)).w = opened w := rfl
  rw [i1] at a3 a4 a5 a6 a7 a1 a2
  rw [i2] at a2
  rw [i3] at a6 a7
  obtain ⟨t, ht⟩ : ∃ t, run E D ((g.quitpasses.toNat - g.pass_count) * (5 * g.block_writes + 3))
      (test_init E g (opened w)) = t := ⟨_, rfl⟩
  rw [ht] at a1 a2 a3 a4 a5 a6 a7
  obtain ⟨b1, b2, _, b4, b5, b6, _, b8, _⟩ := step_pass_start E D t a1
  rw [if_pos ⟨by rw [config_quitpasses a3]; omega, by rw [config_quitpasses a3, a4]⟩] at b1
  have hrun : run E D ((g.quitpasses.toNat - g.pass_count) * (5 * g.block_writes + 3) + 1)
      (test_init E g (opened w)) = step E D t := by
    rw [run_succ, ht]
  have hres := fun fuel hk => device_test_of_done E D g w
    ((g.quitpasses.toNat - g.pass_count) * (5 * g.block_writes + 3) + 1) fuel hopen
    (by rw [hrun]; exact b1) hk
  rw [hrun] at hres
  rw [b2.trans a2] at hres
  have hmul : 2 * g.block_size * g.block_writes * (g.quitpasses.toNat - g.pass_count) =
      2 * g.block_writes * g.block_size * (g.quitpasses.toNat - g.pass_count) := by ring
  refine ⟨_, _, hres, ?_, ?_, ?_, ?_, ?_⟩
  · show count_writes ((step E D t).w.ops ++ [io_op.close]) = _
    rw [count_writes_close, b8, count_writes_seek, a6, count_writes_opened]
  · show count_reads ((step E D t).w.ops ++ [io_op.close]) = _
    rw [count_reads_close, b8, count_reads_seek, a7, count_reads_opened]
  · rw [b6, a5, hmul]
  · intro hlt
    rw [b6, a5, hmul]
    exact Nat.mod_eq_of_lt hlt
  · rw [b5, a4, hq64]
    omega

/-! ## Test engine: a mismatch -/

/-- On any device, four steps after the test of the block loop the engine is
either at `done` or at the read of the zeros of the same block, with two
writes and one read more on the trace. -/
theorem block_any_four {σ : Type} (E : env) (D : device σ) (s : test_state σ)
    (h : s.pc = loc.block_check) (hi : s.index < s.g.block_writes) :
    (run E D 4 s).pc = loc.done ∨
    ((run E D 4 s).pc = loc.read_zeros ∧ (run E D 4 s).index = s.index ∧
      config (run E D 4 s).g = config s.g ∧
      (run E D 4 s).g.pass_count = s.g.pass_count ∧
      (run E D 4 s).g.written_total = (s.g.written_total + 2 * s.g.block_size) % 2^64 ∧
      count_writes (run E D 4 s).w.ops = count_writes s.w.ops + 2 ∧
      count_reads (run E D 4 s).w.ops = count_reads s.w.ops + 1) := by
  cases h1 : memcmp (read_back D (run E D 2 s)) (run E D 2 s).wbuf (run E D 2 s).g.block_size with
  | true =>
    left
    have hb := block_ones_bad E D s h hi h1
    rw [run_of_done E D 3 4 s hb.1 (by omega)]
    exact hb.1
  | false =>
    right
    obtain ⟨a1, _, a3, a4, a5, a6, _, _, a9⟩ := block_second_half E D s h hi h1
    refine ⟨a1, a3, a4, a5, a6, ?_, ?_⟩
    · rw [a9]; simp [count_writes, io_op.is_write]
    · rw [a9]; simp [count_reads, io_op.is_read]

/-- On any device, five steps after the test of the block loop the engine is
either at `done` or at the test of the block loop with the next index, with two
writes and two reads more on the trace. -/
theorem block_any_five {σ : Type} (E : env) (D : device σ) (s : test_state σ)
    (h : s.pc = loc.block_check) (hi : s.index < s.g.block_writes) :
    (run E D 5 s).pc = loc.done ∨
    ((run E D 5 s).pc = loc.block_check ∧ (run E D 5 s).index = (s.index + 1) % 2^32 ∧
      config (run E D 5 s).g = config s.g ∧
      (run E D 5 s).g.pass_count = s.g.pass_count ∧
      (run E D 5 s).g.written_total = (s.g.written_total + 2 * s.g.block_size) % 2^64 ∧
      count_writes (run E D 5 s).w.ops = count_writes s.w.ops + 2 ∧
      count_reads (run E D 5 s).w.ops = count_reads s.w.ops + 2) := by
  cases h1 : memcmp (read_back D (run E D 2 s)) (run E D 2 s).wbuf (run E D 2 s).g.block_size with
  | true =>
    left
    have hb := block_ones_bad E D s h hi h1
    rw [run_of_done E D 3 5 s hb.1 (by omega)]
    exact hb.1
  | false =>
    cases h2 : memcmp (read_back D (run E D 4 s)) (run E D 4 s).wbuf
        (run E D 4 s).g.block_size with
    | true =>
      left
      exact (block_zeros_bad E D s h hi h1 h2).1
    | false =>
      right
      obtain ⟨a1, _, a3, a4, a5, a6, a7⟩ := block_good E D s h hi h1 h2
      exact ⟨a1, a3, a4, a5, a6, by rw [a7, count_writes_block], by rw [a7, count_reads_block]⟩

/-- On any device, `1 + 5 * j` steps after the head of a pass the engine is
either at `done` or at the test of the block loop with index `j`, in the same
pass, with `2 * j` writes and reads more on the trace. -/
theorem first_blocks {σ : Type} (E : env) (D : device σ) (s : test_state σ) (j : Nat)
    (h : s.pc = loc.pass_start) (hj : j ≤ s.g.block_writes) (hn : s.g.block_writes < 2^32)
    (hW : s.g.written_total < 2^64) :
    (run E D (1 + 5 * j) s).pc = loc.done ∨
    ((run E D (1 + 5 * j) s).pc = loc.block_check ∧ (run E D (1 + 5 * j) s).index = j ∧
      config (run E D (1 + 5 * j) s).g = config s.g ∧
      (run E D (1 + 5 * j) s).g.pass_count = s.g.pass_count ∧
      (run E D (1 + 5 * j) s).g.written_total =
        (s.g.written_total + 2 * j * s.g.block_size) % 2^64 ∧
      count_writes (run E D (1 + 5 * j) s).w.ops = count_writes s.w.ops + 2 * j ∧
      count_reads (run E D (1 + 5 * j) s).w.ops = count_reads s.w.ops + 2 * j) := by
  induction j with
  | zero =>
    obtain ⟨a1, _, a3, a4, a5, a6, _, a8, _⟩ := step_pass_start E D s h
    have e : run E D (1 + 5 * 0) s = step E D s := rfl
    rw [e]
    by_cases hq : s.g.quitpasses ≠ 0 ∧ int_to_u64 s.g.quitpasses ≤ s.g.pass_count
    · left; rw [a1, if_pos hq]
    · right
      rw [if_neg hq] at a1
      refine ⟨a1, a3, a4, a5, ?_, ?_, ?_⟩
      · rw [a6]; simp only [Nat.mul_zero, Nat.zero_mul, Nat.add_zero]
        exact (Nat.mod_eq_of_lt hW).symm
      · rw [a8, count_writes_seek]; rfl
      · rw [a8, count_reads_seek]; rfl
  | succ j ih =>
    have e : 1 + 5 * (j + 1) = (1 + 5 * j) + 5 := by omega
    rw [e, run_add]
    rcases ih (by omega) with hd | ⟨b1, b2, b3, b4, b5, b6, b7⟩
    · left
      rw [run_done E D 5 _ hd]
      exact hd
    · have hbw := config_block_writes b3
      have hbs := config_block_size b3
      rcases block_any_five E D (run E D (1 + 5 * j) s) b1 (by rw [b2, hbw]; omega) with
        hd | ⟨c1, c2, c3, c4, c5, c6, c7⟩
      · left; exact hd
      · right
        refine ⟨c1, ?_, c3.trans b3, c4.trans b4, ?_, ?_, ?_⟩
        · rw [c2, b2]; exact Nat.mod_eq_of_lt (by omega)
        · rw [c5, b5, hbs, Nat.mod_add_mod]
          congr 1
          ring
        · rw [c6, b6]; omega
        · rw [c7, b7]; omega


/-- The state of the first pass at the read of the zeros of block `i`. -/
theorem first_pass_read_zeros {σ : Type} (E : env) (D : device σ) (s : test_state σ) (i : Nat)
    (h : s.pc = loc.pass_start) (hi : i < s.g.block_writes) (hn : s.g.block_writes < 2^32)
    (hW : s.g.written_total < 2^64) :
    (run E D (5 * i + 5) s).pc = loc.done ∨
    ((run E D (5 * i + 5) s).pc = loc.read_zeros ∧ (run E D (5 * i + 5) s).index = i ∧
      config (run E D (5 * i + 5) s).g = config s.g ∧
      (run E D (5 * i + 5) s).g.pass_count = s.g.pass_count ∧
      (run E D (5 * i + 5) s).g.written_total =
        (s.g.written_total + (2 * i + 2) * s.g.block_size) % 2^64 ∧
      count_writes (run E D (5 * i + 5) s).w.ops = count_writes s.w.ops + (2 * i + 2) ∧
      count_reads (run E D (5 * i + 5) s).w.ops = count_reads s.w.ops + (2 * i + 1)) := by
  have e : 5 * i + 5 = (1 + 5 * i) + 4 := by omega
  rw [e, run_add]
  rcases first_blocks E D s i h (by omega) hn hW with hd | ⟨b1, b2, b3, b4, b5, b6, b7⟩
  · left
    rw [run_done E D 4 _ hd]
    exact hd
  · have hbw := config_block_writes b3
    have hbs := config_block_size b3
    rcases block_any_four E D (run E D (1 + 5 * i) s) b1 (by rw [b2, hbw]; exact hi) with
      hd | ⟨c1, c2, c3, c4, c5, c6, c7⟩
    · left; exact hd
    · right
      refine ⟨c1, c2.trans b2, c3.trans b3, c4.trans b4, ?_, ?_, ?_⟩
      · rw [c5, b5, hbs, Nat.mod_add_mod]
        congr 1
        ring
      · rw [c6, b6]; omega
      · rw [c7, b7]; omega

/-- A block index below `2^31` is reported in plain decimal. -/
theorem error_msg_of_lt (index : Nat) (h : index < 2^31) :
    error_msg index =
      "error at block ".toList ++ fmt_u index ++ ", exiting...\n".toList := by
  unfold error_msg to_int32
  have h1 : index % 2^32 = index := Nat.mod_eq_of_lt (by omega)
  rw [h1, if_pos h]
  unfold fmt_d
  rw [if_neg (by omega)]
  rfl

/-- Claim C1, as amended: on any device, when the engine has reached the read of
a phase (ones or zeros) of block `index` after `m` steps and the bytes read back
differ from the write buffer within the block size, `device_test` returns -1
(with any fuel above `m`), its report names exactly that block index (in the
log and, when stdout is in use, on stdout; the index is printed with `%d`,
which is its decimal value below `2^31`), and after the seek and the read of
the mismatch the trace holds nothing but the close: no further write or read.
`written_total` and `pass_count` are as they were at the read.  For the read
of the zeros of block `i` in the first pass (step `5 * i + 5`), `2 * i + 2`
writes and reads have been issued, and `written_total` has grown by
`(2 * i + 2) * block_size` modulo `2^64`: by exactly that much whenever the sum
stays below `2^64`. -/
theorem mismatch_aborts {σ : Type} (E : env) (D : device σ) (g : globals_t) (w : world σ)
    (m : Nat) (s : test_state σ) (hopen : E.dev_open_ok = true)
    (hs : s = run E D m (test_init E g (opened w)))
    (hpc : s.pc = loc.read_ones ∨ s.pc = loc.read_zeros)
    (hbad : memcmp (read_back D s) s.wbuf s.g.block_size = true) :
    ∃ g1 w1,
      (∀ fuel, m + 1 ≤ fuel → device_test fuel E D g w = some (Except.ok (-1, g1, w1))) ∧
      w1.ops = s.w.ops ++ [io_op.lseek (block_offset s.index s.g.block_size),
        io_op.read (block_offset s.index s.g.block_size) s.g.block_size, io_op.close] ∧
      (∃ w0 : world σ,
        g1.logfd = s.g.logfd.map (fun f => f.put (sdmsg E s.g w0 (error_msg s.index))) ∧
        w1.out = (if s.g.logstdout ≠ 0 ∨ s.g.logfd = none then
                    s.w.out ++ sdmsg E s.g w0 (error_msg s.index)
                  else s.w.out)) ∧
      (s.index < 2^31 → error_msg s.index =
        "error at block ".toList ++ fmt_u s.index ++ ", exiting...\n".toList) ∧
      g1.written_total = s.g.written_total ∧ g1.pass_count = s.g.pass_count ∧
      (∀ i, i < g.block_writes → g.block_writes < 2^32 → g.written_total < 2^64 →
        m = 5 * i + 5 →
        s.pc = loc.read_zeros ∧ s.index = i ∧ g1.pass_count = g.pass_count ∧
        count_writes w1.ops = count_writes w.ops + (2 * i + 2) ∧
        count_reads w1.ops = count_reads w.ops + (2 * i + 2) ∧
        g1.written_total = (g.written_total + (2 * i + 2) * g.block_size) % 2^64 ∧
        (g.written_total + (2 * i + 2) * g.block_size < 2^64 →
          g1.written_total = g.written_total + (2 * i + 2) * g.block_size)) := by
  have hstep : (step E D s).pc = loc.done ∧ (step E D s).rc = -1 ∧
      (step E D s).index = s.index ∧ config (step E D s).g = config s.g ∧
      (step E D s).g.pass_count = s.g.pass_count ∧
      (step E D s).g.written_total = s.g.written_total ∧
      (step E D s).w.ops = s.w.ops ++ [io_op.lseek (block_offset s.index s.g.block_size),
        io_op.read (block_offset s.index s.g.block_size) s.g.block_size] ∧
      ∃ w0 : world σ,
        (step E D s).g.logfd =
          s.g.logfd.map (fun f => f.put (sdmsg E s.g w0 (error_msg s.index))) ∧
        (step E D s).w.out =
          (if s.g.logstdout ≠ 0 ∨ s.g.logfd = none then
            s.w.out ++ sdmsg E s.g w0 (error_msg s.index)
           else s.w.out) := by
    rcases hpc with h | h
    · exact step_read_ones_bad E D s h hbad
    · exact step_read_zeros_bad E D s h hbad
  obtain ⟨a1, a2, _, _, a5, a6, a7, w0, a8, a9⟩ := hstep
  have hrun : run E D (m + 1) (test_init E g (opened w)) = step E D s := by
    rw [run_succ, ← hs]
  have hres := fun fuel hk => device_test_of_done E D g w (m + 1) fuel hopen
    (by rw [hrun]; exact a1) hk
  rw [hrun, a2] at hres
  refine ⟨_, _, hres, ?_, ⟨w0, a8, a9⟩, error_msg_of_lt s.index, a6, a5, ?_⟩
  · show (step E D s).w.ops ++ [io_op.close] = _
    rw [a7]
    simp only [List.append_assoc, List.cons_append, List.nil_append]
  · intro i hi hn hW hm
    have hfp := first_pass_read_zeros E D (test_init E g (opened w)) i rfl hi hn hW
    rw [← hm, ← hs] at hfp
    rcases hfp with hd | ⟨b1, b2, _, b4, b5, b6, b7⟩
    · rcases hpc with h | h <;> rw [hd] at h <;> cases h
    · have i1 : (test_init E g (opened w)).g = g := rfl
      have i3 : (test_init E g (opened w)).w = opened w := rfl
      rw [i1] at b4 b5
      rw [i3, count_writes_opened] at b6
      rw [i3, count_reads_opened] at b7
      refine ⟨b1, b2, a5.trans b4, ?_, ?_, a6.trans b5, fun hlt => ?_⟩
      · show count_writes ((step E D s).w.ops ++ [io_op.close]) = _
        rw [count_writes_close, a7, count_writes_seek_read, b6]
      · show count_reads ((step E D s).w.ops ++ [io_op.close]) = _
        rw [count_reads_close, a7, count_reads_seek_read, b7]
        omega
      · rw [a6, b5]
        exact Nat.mod_eq_of_lt hlt

/-! ## Test engine: evaluations and the byte counter -/

set_option maxRecDepth 1000000 in
/-- Witness of `mismatch_aborts`: four blocks of 512 bytes, byte 5 of the zeros
read back from block 2 changed: the mismatch is reported at block 2 after six
writes and six reads, with 3072 bytes more on the byte counter. -/
theorem mismatch_aborts_witness :
    (∃ g1 w1,
      device_test 16 (demo_env 2048 no_files) (scripted_device (corrupt_answers 512 5 5))
        (globals_blocks 512 4 1 0) (demo_world 0) = some (Except.ok (-1, g1, w1)) ∧
      count_writes w1.ops = 6 ∧ count_reads w1.ops = 6 ∧ g1.written_total = 3072) ∧
    test_log (device_test 16 (demo_env 2048 no_files)
        (scripted_device (corrupt_answers 512 5 5)) (globals_blocks 512 4 1 0) (demo_world 0)) =
      some ("[/dev/sdb] stats:0:0:wrbw=0.00 MB/s:rdbw=0.00 MB/s\n" ++
            "[/dev/sdb] error at block 2, exiting...\n").toList := by
  constructor
  · obtain ⟨g1, w1, h1, _, _, _, _, _, h6⟩ :=
      mismatch_aborts (demo_env 2048 no_files) (scripted_device (corrupt_answers 512 5 5))
        (globals_blocks 512 4 1 0) (demo_world 0) 15 _ rfl rfl (Or.inr (by decide!)) (by decide!)
    obtain ⟨_, _, _, c4, c5, _, c7⟩ := h6 2 (by decide) (by decide) (by decide) rfl
    exact ⟨g1, w1, h1 16 (Nat.le_refl _), c4, c5, c7 (by decide)⟩
  · decide!

set_option maxRecDepth 1000000 in
/-- Claim C1 fails as stated: with the byte counter at `2^64 - 1` before the run,
the mismatch at the zeros of block 2 leaves it at 3071; it has not grown by
`6 * 512`.  And the report of block index `2^31` reads -2147483648. -/
theorem mismatch_written_total_wraps :
    test_counts (device_test 16 (demo_env 2048 no_files)
        (scripted_device (corrupt_answers 512 5 5))
        (globals_blocks 512 4 1 (2^64 - 1)) (demo_world 0)) = some (-1, 3071, 0) ∧
    3071 ≠ (2^64 - 1) + (2 * 2 + 2) * 512 ∧ 3071 < 2^64 - 1 ∧
    error_msg 2147483648 = "error at block -2147483648, exiting...\n".toList := by
  decide!

/-- The plain byte store is lawful. -/
theorem memory_device_lawful : lawful memory_device := by
  intro dev off buf
  apply List.ext_getElem
  · simp [memory_device]
  · intro j h1 h2
    simp only [memory_device, List.getElem_map, List.getElem_range]
    have hj : j < buf.length := h2
    rw [if_pos ⟨by omega, by omega⟩]
    simp only [Nat.add_sub_cancel_left]
    rw [List.getD_eq_getElem _ _ hj]

set_option maxRecDepth 1000000 in
/-- Witness of `device_test_success`: a 4 MiB byte store in blocks of 1 MiB with
quit limit 1: 8 writes, 8 reads, 8 MiB more on the byte counter, one pass. -/
theorem device_test_success_witness :
    ∃ g1 w1,
      device_test 24 (demo_env 4194304 no_files) memory_device
        (globals_blocks 1048576 4 1 0) (demo_world (fun _ => 0)) =
          some (Except.ok (0, g1, w1)) ∧
      count_writes w1.ops = 8 ∧ count_reads w1.ops = 8 ∧
      g1.written_total = 8388608 ∧ g1.pass_count = 1 := by
  obtain ⟨g1, w1, h1, h2, h3, _, h5, h6⟩ :=
    device_test_success (demo_env 4194304 no_files) memory_device
      (globals_blocks 1048576 4 1 0) (demo_world (fun _ => 0)) memory_device_lawful rfl
      (by decide) (by decide) (by decide) (by decide) (by decide)
  refine ⟨g1, w1, h1 24 (by decide), h2, h3, h5 (by decide), ?_⟩
  have h7 : (g1.pass_count : Int) = 1 := h6
  exact_mod_cast h7

set_option maxRecDepth 1000000 in
/-- Claim C6 fails as stated: with the byte counter at `2^64 - 1` before the run,
four blocks of 8 bytes and one pass on the byte store leave it at 63; it has
not increased by `2 * 4 * 8`. -/
theorem success_written_total_wraps :
    test_counts (device_test 24 (demo_env 32 no_files) memory_device
        (globals_blocks 8 4 1 (2^64 - 1)) (demo_world (fun _ => 0))) = some (0, 63, 1) ∧
    63 ≠ (2^64 - 1) + 2 * 4 * 8 * (1 - 0) ∧ 63 < 2^64 - 1 := by
  decide!

/-- The byte counter stays a `uint64_t` along a run. -/
theorem run_written_total_lt {σ : Type} (E : env) (D : device σ) (k : Nat) (s : test_state σ)
    (hW : s.g.written_total < 2^64) : (run E D k s).g.written_total < 2^64 := by
  rw [(run_accounting E D k s hW).2.2]
  exact Nat.mod_lt _ (by norm_num)

/-- Claim C7, as amended: (1) every step of the engine either leaves
`written_total` and the number of writes alone or is a write step, which
appends a seek and a write to the trace and adds `block_size` to
`written_total` modulo `2^64`; (2) after any number of steps `written_total`
is the pre-run value `W0` plus `block_size` times the number of writes issued,
modulo `2^64`; (3) hence after `N` blocks have completed both phases (`2 * N`
writes) it is `(W0 + 2 * block_size * N) mod 2^64`, which is
`W0 + 2 * block_size * N` whenever that sum stays below `2^64`, and then no
earlier state of the run had a larger value; (4) in the first pass the state
between blocks `N - 1` and `N` has index `N`, `2 * N` writes and that value. -/
theorem written_total_accounting {σ : Type} (E : env) (D : device σ) (g : globals_t)
    (w : world σ) (k : Nat) (hW : g.written_total < 2^64) :
    (∀ t : test_state σ,
      ((step E D t).g.written_total = t.g.written_total ∧
          count_writes (step E D t).w.ops = count_writes t.w.ops) ∨
      ((t.pc = loc.write_ones ∨ t.pc = loc.write_zeros) ∧
          (step E D t).w.ops = t.w.ops ++ [io_op.lseek (block_offset t.index t.g.block_size),
            io_op.write (block_offset t.index t.g.block_size) t.g.block_size] ∧
          (step E D t).g.written_total = (t.g.written_total + t.g.block_size) % 2^64)) ∧
    (run E D k (test_init E g (opened w))).g.block_size = g.block_size ∧
    count_writes w.ops ≤ count_writes (run E D k (test_init E g (opened w))).w.ops ∧
    (run E D k (test_init E g (opened w))).g.written_total =
      (g.written_total + g.block_size *
        (count_writes (run E D k (test_init E g (opened w))).w.ops - count_writes w.ops))
        % 2^64 ∧
    (∀ N, count_writes (run E D k (test_init E g (opened w))).w.ops =
        count_writes w.ops + 2 * N →
      (run E D k (test_init E g (opened w))).g.written_total =
        (g.written_total + 2 * g.block_size * N) % 2^64 ∧
      (g.written_total + 2 * g.block_size * N < 2^64 →
        (run E D k (test_init E g (opened w))).g.written_total =
          g.written_total + 2 * g.block_size * N ∧
        ∀ j, j ≤ k → (run E D j (test_init E g (opened w))).g.written_total ≤
          (run E D k (test_init E g (opened w))).g.written_total)) ∧
    (∀ N, N ≤ g.block_writes → g.block_writes < 2^32 →
      (run E D (1 + 5 * N) (test_init E g (opened w))).pc = loc.block_check →
      (run E D (1 + 5 * N) (test_init E g (opened w))).index = N ∧
      count_writes (run E D (1 + 5 * N) (test_init E g (opened w))).w.ops =
        count_writes w.ops + 2 * N ∧
      (run E D (1 + 5 * N) (test_init E g (opened w))).g.written_total =
        (g.written_total + 2 * g.block_size * N) % 2^64) := by
  have i1 : (test_init E g (opened w)).g = g := rfl
  have i3 : (test_init E g (opened w)).w = opened w := rfl
  have hW0 : (test_init E g (opened w)).g.written_total < 2^64 := by rw [i1]; exact hW
  have hacc : ∀ j, config (run E D j (test_init E g (opened w))).g = config g ∧
      count_writes w.ops ≤ count_writes (run E D j (test_init E g (opened w))).w.ops ∧
      (run E D j (test_init E g (opened w))).g.written_total =
        (g.written_total + g.block_size *
          (count_writes (run E D j (test_init E g (opened w))).w.ops - count_writes w.ops))
          % 2^64 := by
    intro j
    have h := run_accounting E D j (test_init E g (opened w)) hW0
    rw [i1, i3, count_writes_opened] at h
    exact h
  obtain ⟨hc, hle, hwt⟩ := hacc k
  refine ⟨fun t => ?_, config_block_size hc, hle, hwt, fun N hN => ?_, fun N hN hn hpc => ?_⟩
  · rcases (step_accounting E D t).2 with h | h
    · exact Or.inl h
    · exact Or.inr ⟨h.1, h.2.1, h.2.2.1⟩
  · have e : count_writes (run E D k (test_init E g (opened w))).w.ops - count_writes w.ops
        = 2 * N := by omega
    have hf : (run E D k (test_init E g (opened w))).g.written_total =
        (g.written_total + 2 * g.block_size * N) % 2^64 := by
      rw [hwt, e]
      congr 2
      ring
    refine ⟨hf, fun hlt => ⟨by rw [hf]; exact Nat.mod_eq_of_lt hlt, fun j hj => ?_⟩⟩
    obtain ⟨_, hlej, hwtj⟩ := hacc j
    have hmono : count_writes (run E D j (test_init E g (opened w))).w.ops ≤
        count_writes (run E D k (test_init E g (opened w))).w.ops := by
      have hk : k = j + (k - j) := by omega
      have h := (run_accounting E D (k - j) (run E D j (test_init E g (opened w)))
        (run_written_total_lt E D j _ hW0)).2.1
      rw [← run_add, ← hk] at h
      exact h
    rw [hf, Nat.mod_eq_of_lt hlt, hwtj]
    apply le_trans (Nat.mod_le _ _)
    have hcj : count_writes (run E D j (test_init E g (opened w))).w.ops - count_writes w.ops
        ≤ 2 * N := by omega
    calc g.written_total + g.block_size *
          (count_writes (run E D j (test_init E g (opened w))).w.ops - count_writes w.ops)
        ≤ g.written_total + g.block_size * (2 * N) :=
          Nat.add_le_add_left (Nat.mul_le_mul_left _ hcj) _
      _ = g.written_total + 2 * g.block_size * N := by ring
  · rcases first_blocks E D (test_init E g (opened w)) N rfl (by rw [i1]; exact hN)
      (by rw [i1]; exact hn) hW0 with hd | ⟨_, b2, _, _, b5, b6, _⟩
    · rw [hd] at hpc; cases hpc
    · rw [i1] at b5
      rw [i3, count_writes_opened] at b6
      refine ⟨b2, b6, ?_⟩
      rw [b5]
      congr 2
      ring

set_option maxRecDepth 1000000 in
/-- Witness of `written_total_accounting`: from a byte counter of 0 the first
block of 512 bytes is complete after six steps, with 1024 bytes written. -/
theorem written_total_accounting_witness :
    (run (demo_env 2048 no_files) (scripted_device (sound_answers 512)) 6
        (test_init (demo_env 2048 no_files) (globals_blocks 512 4 1 0)
          (opened (demo_world 0)))).g.written_total = 1024 := by
  have h := (written_total_accounting (demo_env 2048 no_files)
    (scripted_device (sound_answers 512)) (globals_blocks 512 4 1 0) (demo_world 0) 6
    (by decide)).2.2.2.2.2 1 (by decide) (by decide) (by decide!)
  rw [h.2.2]
  decide

set_option maxRecDepth 1000000 in
/-- Claim C7 fails as stated: a record whose last status line carries
`2^64 - 1` is resumed with `written_total = 2^64 - 1`, and after the two writes
of one pass over a 512-byte device the counter stands at 1023: it has decreased. -/
theorem written_total_decreases :
    (startup (demo_env 512 (one_file "sdb.log".toList record_full)) cmdline_zero
      (demo_world 0)).map (fun s => s.1.written_total) = some 18446744073709551615 ∧
    (main 100 (demo_env 512 (one_file "sdb.log".toList record_full))
      (scripted_device (sound_answers 512)) 0 cmdline_zero (demo_world 0)).map
      (fun r => (r.2.1.written_total, count_writes r.2.2.ops)) = some (1023, 2) ∧
    1023 < 18446744073709551615 ∧ 1023 ≠ 18446744073709551615 + 2 * 512 * 1 := by
  decide!

/-! ## Test engine: the pass count -/

/-- Only the step from the end of a pass changes the pass count, and it adds
one modulo `2^64`. -/
theorem step_pass_count {σ : Type} (E : env) (D : device σ) (t : test_state σ) :
    (t.pc ≠ loc.pass_end ∧ (step E D t).g.pass_count = t.g.pass_count) ∨
    (t.pc = loc.pass_end ∧ (step E D t).g.pass_count = (t.g.pass_count + 1) % 2^64) := by
  cases hpc : t.pc with
  | pass_start => exact Or.inl ⟨by simp, (step_pass_start E D t hpc).2.2.2.2.1⟩
  | block_check =>
    rw [step_block_check E D t hpc]
    exact Or.inl ⟨by simp, rfl⟩
  | write_ones => exact Or.inl ⟨by simp, (step_write_ones E D t hpc).2.2.2.2.1⟩
  | read_ones =>
    cases hm : memcmp (read_back D t) t.wbuf t.g.block_size with
    | true => exact Or.inl ⟨by simp, (step_read_ones_bad E D t hpc hm).2.2.2.2.1⟩
    | false => exact Or.inl ⟨by simp, (step_read_ones_good E D t hpc hm).2.2.2.2.1⟩
  | write_zeros => exact Or.inl ⟨by simp, (step_write_zeros E D t hpc).2.2.2.2.1⟩
  | read_zeros =>
    cases hm : memcmp (read_back D t) t.wbuf t.g.block_size with
    | true => exact Or.inl ⟨by simp, (step_read_zeros_bad E D t hpc hm).2.2.2.2.1⟩
    | false => exact Or.inl ⟨by simp, (step_read_zeros_good E D t hpc hm).2.2.2.2.1⟩
  | pass_end => exact Or.inr ⟨rfl, (step_pass_end E D t hpc).2.2.2.2.1⟩
  | done =>
    rw [step_done E D t hpc]
    exact Or.inl ⟨by simp, rfl⟩

/-- The end of a pass is entered only from the test of the block loop, when
the index has reached the block count. -/
theorem step_to_pass_end {σ : Type} (E : env) (D : device σ) (t : test_state σ)
    (h : (step E D t).pc = loc.pass_end) :
    t.pc = loc.block_check ∧ t.g.block_writes ≤ t.index := by
  cases hpc : t.pc with
  | pass_start =>
    have h1 := (step_pass_start E D t hpc).1
    rw [h1] at h
    split at h <;> cases h
  | block_check =>
    rw [step_block_check E D t hpc] at h
    refine ⟨rfl, ?_⟩
    by_cases hi : t.index < t.g.block_writes
    · simp only [hi, ↓reduceIte] at h
      cases h
    · omega
  | write_ones =>
    rw [(step_write_ones E D t hpc).1] at h; cases h
  | read_ones =>
    cases hm : memcmp (read_back D t) t.wbuf t.g.block_size with
    | true => rw [(step_read_ones_bad E D t hpc hm).1] at h; cases h
    | false => rw [(step_read_ones_good E D t hpc hm).1] at h; cases h
  | write_zeros =>
    rw [(step_write_zeros E D t hpc).1] at h; cases h
  | read_zeros =>
    cases hm : memcmp (read_back D t) t.wbuf t.g.block_size with
    | true => rw [(step_read_zeros_bad E D t hpc hm).1] at h; cases h
    | false => rw [(step_read_zeros_good E D t hpc hm).1] at h; cases h
  | pass_end =>
    rw [(step_pass_end E D t hpc).1] at h; cases h
  | done =>
    rw [step_done E D t hpc, hpc] at h; cases h

/-- The pass count is the same as long as the run has not stepped from the end
of a pass. -/
theorem run_pass_count {σ : Type} (E : env) (D : device σ) (k : Nat) (s : test_state σ)
    (h : ∀ j, j < k → (run E D j s).pc ≠ loc.pass_end) :
    (run E D k s).g.pass_count = s.g.pass_count := by
  induction k with
  | zero => rfl
  | succ k ih =>
    rw [run_succ]
    rcases step_pass_count E D (run E D k s) with h1 | h1
    · rw [h1.2]
      exact ih (fun j hj => h j (by omega))
    · exact absurd h1.1 (h k (by omega))


/-- Where the engine stands `j` steps after the head of a pass, for
`1 <= j <= 1 + 5 * block_writes`, on any device: at `done`, or in block
`(j - 1) / 5` at the program point number `(j - 1) % 5` of the block. -/
theorem pass_position {σ : Type} (E : env) (D : device σ) (s : test_state σ)
    (h : s.pc = loc.pass_start) (hn : s.g.block_writes < 2^32) (j : Nat)
    (hj : j ≤ 5 * s.g.block_writes) :
    config (run E D (j + 1) s).g = config s.g ∧
    ((run E D (j + 1) s).pc = loc.done ∨
     ((run E D (j + 1) s).index = j / 5 ∧ (run E D (j + 1) s).pc = phase_loc (j % 5))) := by
  induction j with
  | zero =>
    obtain ⟨a1, _, a3, a4, _⟩ := step_pass_start E D s h
    have e : run E D (0 + 1) s = step E D s := rfl
    rw [e]
    refine ⟨a4, ?_⟩
    by_cases hq : s.g.quitpasses ≠ 0 ∧ int_to_u64 s.g.quitpasses ≤ s.g.pass_count
    · left; rw [a1, if_pos hq]
    · right; rw [a1, if_neg hq]; exact ⟨a3, rfl⟩
  | succ j ih =>
    obtain ⟨hc, hpos⟩ := ih (by omega)
    rw [run_succ E D (j + 1) s]
    rcases hpos with hd | ⟨hix, hpc⟩
    · rw [step_done E D _ hd]
      exact ⟨hc, Or.inl hd⟩
    · have hbw := config_block_writes hc
      have hlt : (run E D (j + 1) s).index < (run E D (j + 1) s).g.block_writes := by
        rw [hix, hbw]; omega
      have h5 : j % 5 = 0 ∨ j % 5 = 1 ∨ j % 5 = 2 ∨ j % 5 = 3 ∨ j % 5 = 4 := by omega
      rcases h5 with h0 | h0 | h0 | h0 | h0
      · rw [h0] at hpc
        rw [step_block_check E D _ hpc, if_pos hlt]
        refine ⟨hc, Or.inr ⟨?_, ?_⟩⟩
        · show (run E D (j + 1) s).index = (j + 1) / 5
          rw [hix]; omega
        · show loc.write_ones = phase_loc ((j + 1) % 5)
          have : (j + 1) % 5 = 1 := by omega
          rw [this]; rfl
      · rw [h0] at hpc
        obtain ⟨b1, _, b3, b4, _⟩ := step_write_ones E D _ hpc
        refine ⟨b4.trans hc, Or.inr ⟨?_, ?_⟩⟩
        · rw [b3, hix]; omega
        · rw [b1]
          have : (j + 1) % 5 = 2 := by omega
          rw [this]; rfl
      · rw [h0] at hpc
        cases hm : memcmp (read_back D (run E D (j + 1) s)) (run E D (j + 1) s).wbuf
            (run E D (j + 1) s).g.block_size with
        | true =>
          obtain ⟨b1, _, _, b4, _⟩ := step_read_ones_bad E D _ hpc hm
          exact ⟨b4.trans hc, Or.inl b1⟩
        | false =>
          obtain ⟨b1, _, b3, b4, _⟩ := step_read_ones_good E D _ hpc hm
          refine ⟨b4.trans hc, Or.inr ⟨?_, ?_⟩⟩
          · rw [b3, hix]; omega
          · rw [b1]
            have : (j + 1) % 5 = 3 := by omega
            rw [this]; rfl
      · rw [h0] at hpc
        obtain ⟨b1, _, b3, b4, _⟩ := step_write_zeros E D _ hpc
        refine ⟨b4.trans hc, Or.inr ⟨?_, ?_⟩⟩
        · rw [b3, hix]; omega
        · rw [b1]
          have : (j + 1) % 5 = 4 := by omega
          rw [this]; rfl
      · rw [h0] at hpc
        cases hm : memcmp (read_back D (run E D (j + 1) s)) (run E D (j + 1) s).wbuf
            (run E D (j + 1) s).g.block_size with
        | true =>
          obtain ⟨b1, _, _, b4, _⟩ := step_read_zeros_bad E D _ hpc hm
          exact ⟨b4.trans hc, Or.inl b1⟩
        | false =>
          obtain ⟨b1, _, b3, b4, _⟩ := step_read_zeros_good E D _ hpc hm
          refine ⟨b4.trans hc, Or.inr ⟨?_, ?_⟩⟩
          · rw [b3, hix]
            have : j / 5 + 1 < 2^32 := by omega
            rw [Nat.mod_eq_of_lt this]; omega
          · rw [b1]
            have : (j + 1) % 5 = 0 := by omega
            rw [this]; rfl


/-- No program point inside a block is the end of a pass. -/
theorem phase_loc_ne_pass_end (k : Nat) : phase_loc k ≠ loc.pass_end := by
  unfold phase_loc
  split <;> simp

/-- From the head of a pass up to the test that ends the block loop, the engine
is never at the end of a pass. -/
theorem pass_not_ended {σ : Type} (E : env) (D : device σ) (s : test_state σ)
    (h : s.pc = loc.pass_start) (hn : s.g.block_writes < 2^32) (i : Nat)
    (hi : i < 5 * s.g.block_writes + 2) : (run E D i s).pc ≠ loc.pass_end := by
  cases i with
  | zero =>
    show s.pc ≠ loc.pass_end
    rw [h]; simp
  | succ i =>
    rcases (pass_position E D s h hn i (by omega)).2 with hd | ⟨_, hp⟩
    · rw [hd]; simp
    · rw [hp]; exact phase_loc_ne_pass_end _

/-- Claim C11, as amended: (1) no step of the engine changes `pass_count` except
the step from the end of a pass, which adds one modulo `2^64`; (2) the end of
a pass is entered only from the test of the block loop when the index has
reached `block_writes`; (3) from the head of a pass (its status line) through
all of its blocks, `5 * block_writes + 2` steps, `pass_count` keeps the value
it had at the head of the pass, on any device; (4) the pass then either has
ended at `done` (mismatch or quit limit), and `pass_count` keeps that value
for ever, or it has iterated all `block_writes` blocks with `2 * block_writes`
writes and reads and no mismatch, and the next step makes `pass_count` one
more modulo `2^64`: exactly one more unless it was `2^64 - 1`. -/
theorem pass_count_accounting {σ : Type} (E : env) (D : device σ) (s : test_state σ)
    (h : s.pc = loc.pass_start) (hn : s.g.block_writes < 2^32)
    (hW : s.g.written_total < 2^64) :
    (∀ t : test_state σ,
      (t.pc ≠ loc.pass_end ∧ (step E D t).g.pass_count = t.g.pass_count) ∨
      (t.pc = loc.pass_end ∧ (step E D t).g.pass_count = (t.g.pass_count + 1) % 2^64)) ∧
    (∀ t : test_state σ, (step E D t).pc = loc.pass_end →
      t.pc = loc.block_check ∧ t.g.block_writes ≤ t.index) ∧
    (∀ j, j ≤ 5 * s.g.block_writes + 2 → (run E D j s).g.pass_count = s.g.pass_count) ∧
    (((run E D (5 * s.g.block_writes + 3) s).pc = loc.done ∧
        ∀ k, (run E D k s).g.pass_count = s.g.pass_count) ∨
     ((run E D (5 * s.g.block_writes + 3) s).pc = loc.pass_start ∧
        (run E D (5 * s.g.block_writes + 2) s).pc = loc.pass_end ∧
        (run E D (5 * s.g.block_writes + 2) s).index = s.g.block_writes ∧
        count_writes (run E D (5 * s.g.block_writes + 2) s).w.ops =
          count_writes s.w.ops + 2 * s.g.block_writes ∧
        count_reads (run E D (5 * s.g.block_writes + 2) s).w.ops =
          count_reads s.w.ops + 2 * s.g.block_writes ∧
        (run E D (5 * s.g.block_writes + 3) s).g.pass_count = (s.g.pass_count + 1) % 2^64 ∧
        (s.g.pass_count + 1 < 2^64 →
          (run E D (5 * s.g.block_writes + 3) s).g.pass_count = s.g.pass_count + 1))) := by
  have hkeep : ∀ j, j ≤ 5 * s.g.block_writes + 2 →
      (run E D j s).g.pass_count = s.g.pass_count := fun j hj =>
    run_pass_count E D j s (fun i hi => pass_not_ended E D s h hn i (by omega))
  refine ⟨step_pass_count E D, step_to_pass_end E D, hkeep, ?_⟩
  have e1 : 5 * s.g.block_writes + 1 = 1 + 5 * s.g.block_writes := by omega
  rcases first_blocks E D s s.g.block_writes h (Nat.le_refl _) hn hW with
    hd | ⟨b1, b2, b3, _, _, b6, b7⟩
  · left
    rw [← e1] at hd
    refine ⟨?_, fun k => ?_⟩
    · rw [run_of_done E D _ _ s hd (by omega)]; exact hd
    · by_cases hk : k ≤ 5 * s.g.block_writes + 2
      · exact hkeep k hk
      · rw [run_of_done E D _ k s hd (by omega)]
        exact hkeep _ (by omega)
  · right
    rw [← e1] at b1 b2 b3 b6 b7
    have hc := step_block_check E D _ b1
    rw [if_neg (by rw [b2, config_block_writes b3]; omega), ← run_succ] at hc
    have c1 : (run E D (5 * s.g.block_writes + 1 + 1) s).pc = loc.pass_end := by rw [hc]
    have c2 : (run E D (5 * s.g.block_writes + 1 + 1) s).index = s.g.block_writes := by
      rw [hc]; exact b2
    have c3 : (run E D (5 * s.g.block_writes + 1 + 1) s).w =
        (run E D (5 * s.g.block_writes + 1) s).w := by rw [hc]
    obtain ⟨d1, _, _, _, d5, _⟩ := step_pass_end E D _ c1
    rw [← run_succ] at d1 d5
    have hP := hkeep (5 * s.g.block_writes + 2) (Nat.le_refl _)
    have d5a : (run E D (5 * s.g.block_writes + 3) s).g.pass_count =
        (s.g.pass_count + 1) % 2^64 := by
      rw [← hP]; exact d5
    refine ⟨d1, c1, c2, ?_, ?_, d5a, fun hlt => ?_⟩
    · show count_writes (run E D (5 * s.g.block_writes + 1 + 1) s).w.ops = _
      rw [c3, b6]
    · show count_reads (run E D (5 * s.g.block_writes + 1 + 1) s).w.ops = _
      rw [c3, b7]
    · rw [d5a]; exact Nat.mod_eq_of_lt hlt

set_option maxRecDepth 1000000 in
/-- Witness of `pass_count_accounting`: four blocks of 512 bytes on a sound
device: the pass count is 0 after 22 steps and 1 after 23. -/
theorem pass_count_accounting_witness :
    (run (demo_env 2048 no_files) (scripted_device (sound_answers 512)) 23
      (test_init (demo_env 2048 no_files) (globals_blocks 512 4 0 0)
        (opened (demo_world 0)))).g.pass_count = 1 ∧
    (run (demo_env 2048 no_files) (scripted_device (sound_answers 512)) 22
      (test_init (demo_env 2048 no_files) (globals_blocks 512 4 0 0)
        (opened (demo_world 0)))).g.pass_count = 0 := by
  obtain ⟨_, _, h3, h4⟩ := pass_count_accounting (demo_env 2048 no_files)
    (scripted_device (sound_answers 512))
    (test_init (demo_env 2048 no_files) (globals_blocks 512 4 0 0) (opened (demo_world 0)))
    rfl (by decide) (by decide)
  refine ⟨?_, h3 22 (by decide)⟩
  rcases h4 with ⟨hd, _⟩ | ⟨_, _, _, _, _, _, h7⟩
  · exact absurd hd (by decide!)
  · exact h7 (by decide)

set_option maxRecDepth 1000000 in
/-- Claim C11 fails as stated: a record whose last status line carries the pass
count `2^64 - 1` is resumed with that value; without a quit limit the pass over
the one block of a 512-byte device is iterated without mismatch, and the step
from the end of the pass leaves a pass count of 0. -/
theorem pass_count_wraps :
    (startup (demo_env 512 (one_file "sdb.log".toList record_last_pass)) cmdline_endless
      (demo_world 0)).map (fun s => (s.1.pass_count, s.1.quitpasses, s.1.block_writes)) =
      some (18446744073709551615, 0, 1) ∧
    (startup (demo_env 512 (one_file "sdb.log".toList record_last_pass)) cmdline_endless
      (demo_world 0)).map (fun s =>
        ((run (demo_env 512 no_files) (scripted_device (sound_answers 512)) 7
            (test_init (demo_env 512 no_files) s.1 (opened s.2))).pc,
         (run (demo_env 512 no_files) (scripted_device (sound_answers 512)) 7
            (test_init (demo_env 512 no_files) s.1 (opened s.2))).g.pass_count,
         (run (demo_env 512 no_files) (scripted_device (sound_answers 512)) 8
            (test_init (demo_env 512 no_files) s.1 (opened s.2))).pc,
         (run (demo_env 512 no_files) (scripted_device (sound_answers 512)) 8
            (test_init (demo_env 512 no_files) s.1 (opened s.2))).g.pass_count)) =
      some (loc.pass_end, 18446744073709551615, loc.pass_start, 0) ∧
    (0 : Nat) ≠ 18446744073709551615 + 1 := by
  decide!

/-! ## Test engine: the seek offsets -/

/-- The offset handed to `lseek` is the product itself when the product fits
32 bits. -/
theorem block_offset_exact (index block_size : Nat) (h : index * block_size < 2^32) :
    block_offset index block_size = index * block_size :=
  Nat.mod_eq_of_lt h

/-- On a lawful device the block loop advances block by block: `r` blocks
from the test of the block loop take `5 * r` steps and lead to the test of the
block loop with the index `r` higher. -/
theorem blocks_good_prefix {σ : Type} (E : env) (D : device σ) (hlaw : lawful D) (r : Nat)
    (s : test_state σ) (h : s.pc = loc.block_check)
    (hr : s.index + r ≤ s.g.block_writes) (hn : s.g.block_writes < 2^32) :
    (run E D (5 * r) s).pc = loc.block_check ∧
    (run E D (5 * r) s).index = s.index + r ∧
    config (run E D (5 * r) s).g = config s.g := by
  induction r generalizing s with
  | zero => exact ⟨h, rfl, rfl⟩
  | succ r ih =>
    have hi : s.index < s.g.block_writes := by omega
    obtain ⟨a1, _, a3, a4, _, _, _⟩ := block_good E D s h hi
      (lawful_ones E D s hlaw h hi) (lawful_zeros E D s hlaw h hi)
    have hbw : (run E D 5 s).g.block_writes = s.g.block_writes := config_block_writes a4
    have hix : (run E D 5 s).index = s.index + 1 := by
      rw [a3]; exact Nat.mod_eq_of_lt (by omega)
    obtain ⟨b1, b2, b3⟩ := ih (run E D 5 s) a1 (by rw [hix, hbw]; omega) (by rw [hbw]; exact hn)
    have e : 5 * (r + 1) = 5 + 5 * r := by omega
    rw [e, run_add]
    refine ⟨b1, ?_, b3.trans a4⟩
    rw [b2, hix]; omega

/-- The device calls of block `i` of a pass on a lawful device: the block is
reached `1 + 5 * i` steps after the head of the pass, and its five steps put
on the trace four seeks to the 32-bit product of `i` and the block size, each
followed by a write or a read of one block size there. -/
theorem block_seeks {σ : Type} (E : env) (D : device σ) (hlaw : lawful D) (s : test_state σ)
    (h : s.pc = loc.pass_start)
    (hq : ¬ (s.g.quitpasses ≠ 0 ∧ int_to_u64 s.g.quitpasses ≤ s.g.pass_count))
    (hn : s.g.block_writes < 2^32) (i : Nat) (hi : i < s.g.block_writes) :
    (run E D (1 + 5 * i) s).pc = loc.block_check ∧
    (run E D (1 + 5 * i) s).index = i ∧
    (run E D (1 + 5 * i + 5) s).w.ops =
      (run E D (1 + 5 * i) s).w.ops ++
        block_ops (block_offset i s.g.block_size) s.g.block_size := by
  obtain ⟨a1, _, a3, a4, _⟩ := step_pass_start E D s h
  rw [if_neg hq] at a1
  have e1 : run E D 1 s = step E D s := rfl
  have hbw : (run E D 1 s).g.block_writes = s.g.block_writes := by
    rw [e1]; exact config_block_writes a4
  have hix : (run E D 1 s).index = 0 := by rw [e1]; exact a3
  obtain ⟨b1, b2, b3⟩ := blocks_good_prefix E D hlaw i (run E D 1 s) (by rw [e1]; exact a1)
    (by rw [hix, hbw]; omega) (by rw [hbw]; exact hn)
  rw [← run_add] at b1 b2 b3
  rw [hix, Nat.zero_add] at b2
  have c4 : config (run E D (1 + 5 * i) s).g = config s.g := by
    rw [b3, e1]; exact a4
  have hi2 : (run E D (1 + 5 * i) s).index < (run E D (1 + 5 * i) s).g.block_writes := by
    rw [b2, config_block_writes c4]; exact hi
  obtain ⟨_, _, _, _, _, _, d7⟩ := block_good E D (run E D (1 + 5 * i) s) b1 hi2
    (lawful_ones E D _ hlaw b1 hi2) (lawful_zeros E D _ hlaw b1 hi2)
  rw [← run_add, b2, config_block_size c4] at d7
  exact ⟨b1, b2, d7⟩

set_option maxRecDepth 1000000 in
/-- Claim C12 fails in the code: on a device of 8 GiB with the default buffer,
`device_setup` gives blocks of 134217728 bytes and a block count of 64, and on
a device that stores what is written the four seeks of block 32 go to byte
offset 0, the offset of block 0, not to `32 * 134217728 = 4294967296`, which
lies inside the device. -/
theorem seek_offset_wraps :
    (startup (demo_env 8589934592 no_files) cmdline_endless
      (demo_world (fun (_ : Nat) => (0 : Nat)))).map (fun s =>
        (s.1.di.size, s.1.block_size, s.1.block_writes, s.1.quitpasses)) =
      some (8589934592, 134217728, 64, 0) ∧
    (∃ g w, startup (demo_env 8589934592 no_files) cmdline_endless
        (demo_world (fun (_ : Nat) => (0 : Nat))) = some (g, w) ∧
      (run (demo_env 8589934592 no_files) memory_device 1
        (test_init (demo_env 8589934592 no_files) g (opened w))).index = 0 ∧
      (run (demo_env 8589934592 no_files) memory_device 6
        (test_init (demo_env 8589934592 no_files) g (opened w))).w.ops =
        (run (demo_env 8589934592 no_files) memory_device 1
          (test_init (demo_env 8589934592 no_files) g (opened w))).w.ops ++
          block_ops 0 134217728 ∧
      (run (demo_env 8589934592 no_files) memory_device 161
        (test_init (demo_env 8589934592 no_files) g (opened w))).index = 32 ∧
      (run (demo_env 8589934592 no_files) memory_device 166
        (test_init (demo_env 8589934592 no_files) g (opened w))).w.ops =
        (run (demo_env 8589934592 no_files) memory_device 161
          (test_init (demo_env 8589934592 no_files) g (opened w))).w.ops ++
          block_ops 0 134217728) ∧
    32 < 64 ∧ 32 * 134217728 = 4294967296 ∧ 4294967296 + 134217728 ≤ 8589934592 ∧
    block_offset 32 134217728 = 0 := by
  have h1 : (startup (demo_env 8589934592 no_files) cmdline_endless
      (demo_world (fun (_ : Nat) => (0 : Nat)))).map (fun s =>
        (s.1.di.size, s.1.block_size, s.1.block_writes, s.1.quitpasses)) =
      some (8589934592, 134217728, 64, 0) := by decide!
  refine ⟨h1, ?_, by decide, by decide, by decide, by decide⟩
  cases hs : startup (demo_env 8589934592 no_files) cmdline_endless
      (demo_world (fun (_ : Nat) => (0 : Nat))) with
  | none => rw [hs] at h1; exact absurd h1 (by simp)
  | some p =>
    obtain ⟨g, w⟩ := p
    rw [hs] at h1
    simp only [Option.map_some', Option.some.injEq, Prod.mk.injEq] at h1
    obtain ⟨_, hbs, hbw, hqp⟩ := h1
    have hq : ¬ ((test_init (demo_env 8589934592 no_files) g (opened w)).g.quitpasses ≠ 0 ∧
        int_to_u64 (test_init (demo_env 8589934592 no_files) g (opened w)).g.quitpasses ≤
          (test_init (demo_env 8589934592 no_files) g (opened w)).g.pass_count) := by
      intro hc; exact hc.1 hqp
    have hn : (test_init (demo_env 8589934592 no_files) g (opened w)).g.block_writes < 2^32 := by
      show g.block_writes < 2^32
      rw [hbw]; decide
    obtain ⟨_, a2, a3⟩ := block_seeks (demo_env 8589934592 no_files) memory_device
      memory_device_lawful (test_init (demo_env 8589934592 no_files) g (opened w)) rfl hq hn 0
      (by show 0 < g.block_writes; rw [hbw]; decide)
    obtain ⟨_, b2, b3⟩ := block_seeks (demo_env 8589934592 no_files) memory_device
      memory_device_lawful (test_init (demo_env 8589934592 no_files) g (opened w)) rfl hq hn 32
      (by show 32 < g.block_writes; rw [hbw]; decide)
    have e0 : block_offset 0 134217728 = 0 := by decide
    have e32 : block_offset 32 134217728 = 0 := by decide
    have hg : (test_init (demo_env 8589934592 no_files) g (opened w)).g.block_size =
        134217728 := hbs
    rw [hg, e0] at a3
    rw [hg, e32] at b3
    exact ⟨g, w, rfl, a2, a3, b2, b3⟩

end SdTest
